import Mathlib

/-!
# Connectivity planner (`src/connect/planner.cpp`)

A shallow embedding of the planner of the Connect client: the planner state,
`reset`, `sleep`, `next_action`, `action_done` and the command dispatch,
followed by theorems about them.

Conventions of the embedding.

* `Timestamp` and `Duration` are the C++ `uint32_t` millisecond values. They are
  represented by natural numbers; every subtraction and multiplication the
  source performs on them is written with an explicit `% 2 ^ 32`.
* `failed_attempts` is a `uint8_t`; its increment is written with `% 256`.
* `std::optional<T>` is `Option T`; a `const char *` that may be `nullptr` is
  `Option String`.
* An `assert` of the source that fails makes the embedded function return
  `none`.
* The collaborators (printer, transfer monitor, change feed, filesystem,
  transport, clock) are not part of the planner. Their answers during one
  planner call are given by an `Env`; the calls by which the planner acts on
  them or consults the outside world are returned as a list of `Call`s.
-/

namespace connect_client

/-! ## Basic types and constants -/

/-- Milliseconds, `uint32_t` in the source. -/
abbrev Duration := Nat
/-- Milliseconds, `uint32_t` in the source. -/
abbrev Timestamp := Nat
/-- Identifier of a command sent by the server. -/
abbrev CommandId := Nat
/-- Identifier of a transfer, as handed out by the transfer monitor. -/
abbrev TransferId := Nat

/-- First retry after 100 ms. -/
def COOLDOWN_BASE : Duration := 100
/-- Don't do retries less often than once a minute. -/
def COOLDOWN_MAX : Duration := 1000 * 60
/-- Telemetry every 4 seconds. -/
def TELEMETRY_INTERVAL_LONG : Duration := 1000 * 4
/-- Telemetry interval while printing or processing something. -/
def TELEMETRY_INTERVAL_SHORT : Duration := 1000
/-- Without contact with the server for this long, re-init with an Info event. -/
def RECONNECT_AFTER : Duration := 1000 * 10
/-- Max number of attempts per specific event. -/
def GIVE_UP_AFTER_ATTEMPTS : Nat := 5
/-- Retry budget of an encrypted download. -/
def MAX_DOWNLOAD_RETRIES : Nat := 5

/-- The subtraction `a - b` of two `uint32_t` values (underflow wraps). -/
def sub32 (a b : Nat) : Nat := (a + (2 ^ 32 - b % 2 ^ 32)) % 2 ^ 32

/-- The helper `since` of the source: `now() - *past_event`, or nothing. The
clock value `now` is passed in. -/
def since (now : Timestamp) (past_event : Option Timestamp) : Option Duration :=
  match past_event with
  | some past => some (sub32 now past)
  | none => none

/-- The kinds of event (`EventType`), in the order of `to_str`. -/
inductive EventType where
  | Info
  | Accepted
  | Rejected
  | JobInfo
  | FileInfo
  | TransferInfo
  | Finished
  | Failed
  | TransferStopped
  | TransferAborted
  | TransferFinished
  | FileChanged
  deriving DecidableEq, Repr

/-- The function `to_str` of the source. -/
def to_str (event : EventType) : String :=
  match event with
  | .Info => "INFO"
  | .Accepted => "ACCEPTED"
  | .Rejected => "REJECTED"
  | .JobInfo => "JOB_INFO"
  | .FileInfo => "FILE_INFO"
  | .TransferInfo => "TRANSFER_INFO"
  | .Finished => "FINISHED"
  | .Failed => "FAILED"
  | .TransferStopped => "TRANSFER_STOPPED"
  | .TransferAborted => "TRANSFER_ABORTED"
  | .TransferFinished => "TRANSFER_FINISHED"
  | .FileChanged => "FILE_CHANGED"

/-- Modelled from the spec: `ChangedPath::Incident`, declared outside
`planner.cpp`. The spec lists the change kinds Created, Deleted and
Modified/Changed. -/
inductive Incident where
  | Created
  | Deleted
  | Changed
  deriving DecidableEq, Repr

/-- Modelled from the spec: `ChangedPath::Type`, declared outside `planner.cpp`
(a changed path is a file or a folder). -/
inductive PathType where
  | File
  | Folder
  deriving DecidableEq, Repr

/-- Modelled from the spec: the `Event` struct of `planner.hpp`, which is not
among the sources. The first six fields are in the order of the positional
initialisers used by `planner.cpp` (`type, command_id, job_id, path,
transfer_id, reason`); `is_file`, `incident` and `start_cmd_id` are the members
assigned by name. A field the source does not set is `none`. -/
structure Event where
  type : EventType
  command_id : Option CommandId := none
  job_id : Option Nat := none
  path : Option String := none
  transfer_id : Option TransferId := none
  reason : Option String := none
  is_file : Option Bool := none
  incident : Option Incident := none
  start_cmd_id : Option CommandId := none
  deriving DecidableEq, Repr

/-- Modelled from the spec: the payload of a background command, a gcode buffer
with its total size and the consumed offset (`BackgroundGcode`). -/
structure BackgroundGcode where
  data : List Nat
  size : Nat
  position : Nat
  deriving DecidableEq, Repr

/-- Modelled from the spec: `BackgroundCmd`, the payload variants of a
background command (currently only gcode). -/
inductive BackgroundCmd where
  | gcode (g : BackgroundGcode)
  deriving DecidableEq, Repr

/-- Modelled from the spec: `BackgroundCommand`, an in-progress long-running
command: its id and its payload. -/
structure BackgroundCommand where
  id : CommandId
  command : BackgroundCmd
  deriving DecidableEq, Repr

/-- Modelled from the spec: the opaque transfer handle `transfers::Download`.
Only its identity matters to the planner. -/
structure Download where
  handle : Nat
  deriving DecidableEq, Repr

/-- Modelled from the spec: `ResumableDownload`, declared in `planner.hpp`. It
wraps the transfer handle, the port override, the remaining retry budget
(0 unless set), the `need_retry` flag and, for encrypted transfers only, the
original initialization vector and original size. -/
structure ResumableDownload where
  download : Download
  port : Option Nat := none
  allowed_retries : Nat := 0
  need_retry : Bool := false
  orig_iv : Option (List Nat) := none
  orig_size : Option Nat := none
  deriving DecidableEq, Repr

/-- Modelled from the spec: the tracker of the info fingerprint (`info_changes`),
declared outside `planner.cpp`. It holds the last fingerprint hash and a dirty
flag. -/
structure Tracker where
  last_hash : Nat := 0
  dirty : Bool := true
  deriving DecidableEq, Repr

/-- Modelled from the spec: `Tracker::mark_dirty`, an Info event is due. -/
def Tracker.mark_dirty (t : Tracker) : Tracker := { t with dirty := true }

/-- Modelled from the spec: `Tracker::mark_clean`, the Info event was sent. -/
def Tracker.mark_clean (t : Tracker) : Tracker := { t with dirty := false }

/-- Modelled from the spec: `Tracker::set_hash`. A fingerprint that differs from
the recorded one is recorded and makes the tracker dirty; the result says
whether an Info event is due. -/
def Tracker.set_hash (t : Tracker) (hash : Nat) : Tracker × Bool :=
  let t1 := if hash ≠ t.last_hash then { t with dirty := true, last_hash := hash } else t
  (t1, t1.dirty)

/-- The `Sleep` action: how long to sleep, the background command and the
download to make progress on meanwhile, and whether the download needs to be
recovered. -/
structure Sleep where
  amount : Duration
  cmd : Option BackgroundCmd
  down : Option Download
  recover_download : Bool
  deriving DecidableEq, Repr

/-- What the caller has to do next. -/
inductive Action where
  | SendTelemetry (full : Bool)
  | Event (event : Event)
  | Sleep (sleep : Sleep)
  deriving DecidableEq, Repr

/-- The outcome of an action, reported to `action_done`. -/
inductive ActionResult where
  | Ok
  | Failed
  | Refused
  deriving DecidableEq, Repr

/-- The state of the planner (the data members of `Planner`). -/
structure Planner where
  info_changes : Tracker := {}
  last_telemetry : Option Timestamp := none
  last_success : Option Timestamp := none
  cooldown : Option Duration := none
  perform_cooldown : Bool := false
  failed_attempts : Nat := 0
  planned_event : Option Event := none
  background_command : Option BackgroundCommand := none
  download : Option ResumableDownload := none
  observed_transfer : Option TransferId := none
  transfer_start_cmd : Option CommandId := none
  print_start_cmd : Option CommandId := none
  deriving DecidableEq, Repr

/-! ## Collaborators -/

/-- Modelled from the spec: `Monitor::Outcome`, the terminal outcome of a
transfer as the transfer monitor reports it. -/
inductive Outcome where
  | Finished
  | Error
  | Stopped
  deriving DecidableEq, Repr

/-- Modelled from the spec: what `ChangedPath::instance.status()` hands out for a
pending filesystem change: the path that `consume_path` copies out, `is_file()`
and `what_happend()`. -/
structure ChangedPathStatus where
  path : String
  is_file : Bool
  what_happend : Incident
  deriving DecidableEq, Repr

/-- The job control operations of the printer (`Printer::JobControl`). -/
inductive JobControl where
  | Pause
  | Resume
  | Stop
  deriving DecidableEq, Repr

/-- Modelled from the spec: the part of `Printer::Config` the planner reads. -/
structure Config where
  host : String
  port : Nat
  tls : Bool
  token : String
  deriving DecidableEq, Repr

/-- The `errno` values the source tells apart after a failed filesystem call. -/
inductive Errno where
  | EBUSY
  | EACCES
  | EEXIST
  | other
  deriving DecidableEq, Repr

/-- Modelled from the spec: an outgoing HTTP header (`http::HeaderOut`): name,
value and optional size limit of the value. -/
structure HeaderOut where
  name : String
  value : String
  size_limit : Option Nat
  deriving DecidableEq, Repr

/-- Modelled from the spec: the parameters of a `transfers::Decryptor`. -/
structure Decryptor where
  key : List Nat
  iv : List Nat
  orig_size : Nat
  deriving DecidableEq, Repr

/-- The arguments of `Download::start_connect_download`. -/
structure DownloadRequest where
  host : String
  port : Nat
  url_path : String
  destination : String
  extra_hdrs : Option (List HeaderOut)
  decryptor : Option Decryptor
  deriving DecidableEq, Repr

/-- Modelled from the spec: `Download::DownloadResult`, the alternatives the
visitor of the source tells apart. -/
inductive DownloadResult where
  | Download (download : Download)
  | NoTransferSlot
  | AlreadyExists
  | RefusedRequest
  | Storage (msg : Option String)
  deriving DecidableEq, Repr

/-- The arguments of `Download::recover_encrypted_connect_download`. -/
structure RecoverRequest where
  download : Download
  host : String
  port : Nat
  url : String
  hdrs : List HeaderOut
  orig_iv : Option (List Nat)
  orig_size : Option Nat
  deriving DecidableEq, Repr

/-- Modelled from the spec: the result of resuming a download, the alternatives
the visitor of `recover_download` tells apart. -/
inductive RecoverResult where
  | Continued
  | FromStart
  | Storage (msg : Option String)
  | RefusedRequest
  deriving DecidableEq, Repr

/-- A call by which the planner acts on a collaborator or consults the outside
world. Reads of the current snapshot (`now()`, `is_printing()`,
`info_fingerprint()`, `printer_info()`, the monitor's `id()` and `outcome()`,
the change feed's `status()`) are not listed. -/
inductive Call where
  | job_control (op : JobControl)
  | start_print (path : String)
  | set_ready (ready : Bool)
  | config (reset_flag : Bool)
  | stat (path : String)
  | remove (path : String)
  | rmdir (path : String)
  | mkdir (path : String) (mode : Nat)
  | changed_path (path : String) (type : PathType) (incident : Incident)
  | borrow
  | consume_path
  | signal_stop
  | start_connect_download (request : DownloadRequest)
  | position (download : Download)
  | recover_encrypted_connect_download (request : RecoverRequest)
  deriving DecidableEq, Repr

/-- The answers of the collaborators during one call of the planner. -/
structure Env where
  /-- The clock, `now()`. -/
  now : Timestamp
  /-- The result of `printer.is_printing()`. -/
  is_printing : Bool
  /-- The result of `printer.info_fingerprint()`. -/
  info_fingerprint : Nat
  /-- The fingerprint header, `printer.printer_info().fingerprint`. -/
  fingerprint : String
  /-- The size limit `Printer::PrinterInfo::FINGERPRINT_HDR_SIZE`. -/
  fingerprint_hdr_size : Nat
  /-- The result of `printer.config(false)`: the configuration and whether it changed. -/
  config : Config × Bool
  /-- The result of `printer.job_control`. -/
  job_control : JobControl → Bool
  /-- The result of `printer.start_print`. -/
  start_print : String → Bool
  /-- The result of `printer.set_ready`. -/
  set_ready : Bool → Bool
  /-- The result of `Monitor::instance.id()`. -/
  transfer_id : Option TransferId
  /-- The result of `Monitor::instance.outcome`. -/
  outcome : TransferId → Option Outcome
  /-- The result of `Monitor::instance.signal_stop()`. -/
  signal_stop : Bool
  /-- The result of `ChangedPath::instance.status()`. -/
  changed_path_status : Option ChangedPathStatus
  /-- Whether `buffer.borrow()` hands out the scratch buffer. -/
  buffer_free : Bool
  /-- The result of `stat`: nothing when it fails, else whether the path is a directory. -/
  stat : String → Option Bool
  /-- The result of `remove`: nothing on success, else the `errno`. -/
  remove : String → Option Errno
  /-- The result of `rmdir`: nothing on success, else the `errno`. -/
  rmdir : String → Option Errno
  /-- The result of `mkdir`: nothing on success, else the `errno`. -/
  mkdir : String → Option Errno
  /-- The result of `Download::start_connect_download`. -/
  start_connect_download : DownloadRequest → DownloadResult
  /-- The result of `Download::position()`, a `uint32_t`. -/
  position : Download → Nat
  /-- The result of `Download::recover_encrypted_connect_download`. -/
  recover_encrypted_connect_download : RecoverRequest → RecoverResult

/-! ## The planner core -/

/-- `Planner::reset`. -/
def reset (p : Planner) : Planner :=
  -- Will trigger an Info message on the next one.
  { p with
    info_changes := p.info_changes.mark_dirty
    last_telemetry := none
    cooldown := none
    perform_cooldown := false
    failed_attempts := 0 }

/-- `Planner::sleep`. -/
def sleep (p : Planner) (amount : Duration) : Sleep :=
  let has_event := p.planned_event.isSome
  let cmd : Option BackgroundCmd :=
    match p.background_command with
    | some bg => if !has_event then some bg.command else none
    | none => none
  let recover_download : Bool :=
    match p.download with
    | some d => d.need_retry
    | none => false
  let down : Option Download :=
    match p.download with
    | some d => some d.download
    | none => none
  { amount := amount, cmd := cmd, down := down, recover_download := recover_download }

/-- The telemetry step of `Planner::next_action` (lines 379-390). -/
def next_action_telemetry (env : Env) (p : Planner) : Action :=
  match since env.now p.last_telemetry with
  | some since_telemetry =>
    let telemetry_interval : Duration :=
      if env.is_printing || p.background_command.isSome then TELEMETRY_INTERVAL_SHORT
      else TELEMETRY_INTERVAL_LONG
    if since_telemetry ≥ telemetry_interval then
      Action.SendTelemetry false
    else
      let sleep_amount : Duration := sub32 telemetry_interval since_telemetry
      Action.Sleep (sleep p sleep_amount)
  | none => Action.SendTelemetry false

/-- The changed-path step of `Planner::next_action` (lines 359-377), followed by
the telemetry step when no event comes out of it. -/
def next_action_changed_path (env : Env) (p : Planner) : Action × Planner × List Call :=
  match env.changed_path_status with
  | some changed_path =>
    if env.buffer_free then
      let type : EventType :=
        if changed_path.is_file && changed_path.what_happend == Incident.Created then
          EventType.FileInfo
        else EventType.FileChanged
      let ev : Event :=
        { type := type, command_id := none, job_id := none, path := some changed_path.path,
          is_file := some changed_path.is_file, incident := some changed_path.what_happend }
      (Action.Event ev, { p with planned_event := some ev }, [Call.borrow, Call.consume_path])
    else
      (next_action_telemetry env p, p, [])
  | none => (next_action_telemetry env p, p, [])

/-- The transfer step of `Planner::next_action` (lines 322-357), followed by the
later steps when no event comes out of it. -/
def next_action_transfer (env : Env) (p : Planner) : Action × Planner × List Call :=
  let current_transfer := env.transfer_id
  if p.observed_transfer ≠ current_transfer then
    let terminated_transfer := p.observed_transfer
    let p1 : Planner := { p with observed_transfer := current_transfer }
    match terminated_transfer with
    | some terminated =>
      match env.outcome terminated with
      | some outcome =>
        let type : EventType :=
          match outcome with
          | Outcome.Finished => EventType.TransferFinished
          | Outcome.Error => EventType.TransferAborted
          | Outcome.Stopped => EventType.TransferStopped
        let ev : Event :=
          { type := type, transfer_id := some terminated, start_cmd_id := p1.transfer_start_cmd }
        (Action.Event ev, { p1 with planned_event := some ev, transfer_start_cmd := none }, [])
      | none => next_action_changed_path env p1
    | none => next_action_changed_path env p1
  else
    next_action_changed_path env p

/-- The first step of `Planner::next_action` (lines 275-302): the id of the
command that started the print is forgotten once the printer is not printing. -/
def next_action_print_check (env : Env) (p : Planner) : Planner :=
  if !env.is_printing then { p with print_start_cmd := none } else p

/-- The steps of `Planner::next_action` after the first one (lines 304-390). -/
def next_action_poll (env : Env) (p : Planner) : Option (Action × Planner × List Call) :=
  if p.perform_cooldown then
    let p1 : Planner := { p with perform_cooldown := false }
    match p1.cooldown with
    | some cooldown => some (Action.Sleep (sleep p1 cooldown), p1, [])
    | none => none
  else
    match p.planned_event with
    | some ev =>
      -- We don't take it out yet. Only after it's successfuly sent.
      some (Action.Event ev, p, [])
    | none =>
      let (tracker, info_due) := p.info_changes.set_hash env.info_fingerprint
      let p1 : Planner := { p with info_changes := tracker }
      if info_due then
        let ev : Event := { type := EventType.Info }
        some (Action.Event ev, { p1 with planned_event := some ev }, [])
      else
        some (next_action_transfer env p1)

/-- `Planner::next_action`. The result is the action, the new state of the
planner and the calls made; `none` when the assertion on `cooldown` fails. -/
def next_action (env : Env) (p : Planner) : Option (Action × Planner × List Call) :=
  next_action_poll env (next_action_print_check env p)

/-- The give-up step of `Planner::action_done` for `Failed` (lines 416-427). -/
def action_done_give_up (p : Planner) : Planner :=
  let p1 : Planner := { p with failed_attempts := (p.failed_attempts + 1) % 256 }
  if p1.failed_attempts ≥ GIVE_UP_AFTER_ATTEMPTS then
    let p2 : Planner :=
      match p1.planned_event with
      | some ev => if ev.type ≠ EventType.Info then { p1 with planned_event := none } else p1
      | none => p1
    { p2 with failed_attempts := 0 }
  else p1

/-- The reconnect step of `Planner::action_done` for `Failed` (lines 429-438). -/
def action_done_reconnect (n : Timestamp) (p : Planner) : Planner :=
  if (since n p.last_success).getD 0 ≥ RECONNECT_AFTER ∧ p.planned_event.isSome = false then
    { p with planned_event := some { type := EventType.Info }, last_success := none }
  else p

/-- The back-off step of `Planner::action_done` for `Failed` (lines 440-442). -/
def action_done_backoff (p : Planner) : Planner :=
  { p with
    cooldown := some (min COOLDOWN_MAX ((p.cooldown.getD (COOLDOWN_BASE / 2)) * 2 % 2 ^ 32))
    perform_cooldown := true }

/-- `Planner::action_done`; `n` is the value of the clock `now()`. -/
def action_done (n : Timestamp) (result : ActionResult) (p : Planner) : Planner :=
  match result with
  | ActionResult.Refused | ActionResult.Ok =>
    let p1 : Planner :=
      { p with last_success := some n, perform_cooldown := false, cooldown := none,
               failed_attempts := 0 }
    match p1.planned_event with
    | some ev =>
      let p2 : Planner :=
        if ev.type = EventType.Info then { p1 with info_changes := p1.info_changes.mark_clean }
        else p1
      { p2 with planned_event := none, last_telemetry := none }
    | none => { p1 with last_telemetry := some n }
  | ActionResult.Failed =>
    action_done_backoff (action_done_reconnect n (action_done_give_up p))

/-! ## Commands -/

/-- Modelled from the spec: the two kinds of download request
(`StartConnectDownload::Plain` and `StartConnectDownload::Encrypted`). -/
inductive DownloadDetails where
  | Plain (team : Nat) (hash : String)
  | Encrypted (key : List Nat) (iv : List Nat) (orig_size : Nat)
  deriving DecidableEq, Repr

/-- Modelled from the spec: the payload of a StartDownload command: the
destination path, the optional port override and the request details. -/
structure StartConnectDownload where
  path : String
  port : Option Nat
  details : DownloadDetails
  deriving DecidableEq, Repr

/-- Modelled from the spec: the closed set of command payloads
(`command.command_data`), with the members `planner.cpp` reads. -/
inductive CommandData where
  | UnknownCommand
  | BrokenCommand (reason : Option String)
  | GcodeTooLarge
  | ProcessingOtherCommand
  | ProcessingThisCommand
  | Gcode (gcode : List Nat) (size : Nat)
  | PausePrint
  | ResumePrint
  | StopPrint
  | StartPrint (path : String)
  | SendInfo
  | SendJobInfo (job_id : Nat)
  | SendFileInfo (path : String)
  | SendTransferInfo
  | SetPrinterReady
  | CancelPrinterReady
  | StartConnectDownload (download : StartConnectDownload)
  | DeleteFile (path : String)
  | DeleteFolder (path : String)
  | CreateFolder (path : String)
  | StopTransfer
  deriving DecidableEq, Repr

/-- Modelled from the spec: a command, its id and its payload. -/
structure Command where
  id : CommandId
  command_data : CommandData
  deriving DecidableEq, Repr

/-- The C function `strstr(haystack, needle) != nullptr` on character lists. -/
def strstr (haystack needle : List Char) : Bool :=
  match haystack with
  | [] => needle.isEmpty
  | c :: cs => needle.isPrefixOf (c :: cs) || strstr cs needle

/-- The helper `path_allowed` of the source. -/
def path_allowed (path : String) : Bool :=
  let usb : String := "/usb/"
  -- Note: allow even "bare" /usb
  let is_on_usb : Bool := usb.data.isPrefixOf path.data || path == "/usb"
  let contains_upper : Bool := strstr path.data "/../".data
  is_on_usb && !contains_upper

/-- The '/'-separated components of a path: the notion in which the absence of
a parent directory in a path is stated. The source has no such function; it
looks for the substring "/../" only. -/
def path_components (path : String) : List String :=
  (path.data.splitOn '/').map String.mk

/-- The helper `file_exists` of the source. -/
def file_exists (env : Env) (path : String) : Bool :=
  match env.stat path with
  | some is_dir => !is_dir
  | none => false

/-- The helper `dir_exists` of the source. -/
def dir_exists (env : Env) (path : String) : Bool :=
  match env.stat path with
  | some is_dir => is_dir
  | none => false

/-- The helper `delete_file` of the source: the error message, if any. -/
def delete_file (env : Env) (path : String) : Option String :=
  match env.remove path with
  | some errno => if errno = Errno.EBUSY then some "File is busy" else some "Error deleting file"
  | none => none

/-- The helper `delete_dir` of the source: the error message, if any. -/
def delete_dir (env : Env) (path : String) : Option String :=
  match env.rmdir path with
  | some errno =>
    if errno = Errno.EACCES then some "Directory not empty" else some "Error deleting directory"
  | none => none

/-- The helper `make_dir` of the source: the error message, if any. -/
def make_dir (env : Env) (path : String) : Option String :=
  match env.mkdir path with
  | some errno =>
    if errno = Errno.EEXIST then some "Directory already exists"
    else some "Error creating directory"
  | none => none

/-- The helper `host_and_port` of the source. -/
def host_and_port (config : Config) (port_override : Option Nat) : String × Nat :=
  let port : Nat := config.port
  -- Go from encrypted to the unencrypted port automatically.
  let port : Nat := if port = 443 && config.tls then 80 else port
  -- Manual override always takes precedence.
  let port : Nat :=
    match port_override with
    | some override => override
    | none => port
  (config.host, port)

/-- The constant `enc_prefix` of the source. -/
def enc_prefix : String := "/f/"
/-- The constant `enc_suffix` of the source. -/
def enc_suffix : String := "/raw"
/-- The constant `BLOCK_SIZE` of the initialization vector, taken from the spec. -/
def BLOCK_SIZE : Nat := 16
/-- The constant `enc_prefix_len` of the source. -/
def enc_prefix_len : Nat := ( enc_prefix).length
/-- The constant `enc_suffix_len` of the source. -/
def enc_suffix_len : Nat := enc_suffix.length
/-- The constant `iv_len` of the source. -/
def iv_len : Nat := 2 * BLOCK_SIZE
/-- The constant `enc_url_len` of the source. -/
def enc_url_len : Nat := enc_prefix_len + enc_suffix_len + iv_len + 1

/-- One lowercase hexadecimal digit. -/
def hex_digit (n : Nat) : Char :=
  if n < 10 then Char.ofNat (48 + n) else Char.ofNat (87 + n)

/-- The output of `sprintf("%02hhx", b)`: the low 8 bits of `b` as two lowercase
hexadecimal digits. -/
def hex_byte (b : Nat) : List Char :=
  [hex_digit (b % 256 / 16), hex_digit (b % 256 % 16)]

/-- The helper `make_enc_url` of the source: the string left in the buffer. -/
def make_enc_url (iv : List Nat) : String :=
  String.mk (( enc_prefix).data ++ (iv.map hex_byte).flatten ++ enc_suffix.data)

/-- The byte ranges of the buffer (offset, number of bytes) that `make_enc_url`
writes, in the order of the source: `strcpy` of the prefix with its terminator,
one `sprintf` of two digits and a terminator per byte of the iv, the
terminator stored after the digits, and `strcat` of the suffix with its
terminator. -/
def make_enc_url_writes (iv : List Nat) : List (Nat × Nat) :=
  [(0, enc_prefix_len + 1)]
    ++ (List.range iv.length).map (fun i => (enc_prefix_len + 2 * i, 2 + 1))
    ++ [(enc_prefix_len + 2 * iv.length, 1),
        (enc_prefix_len + 2 * iv.length, enc_suffix_len + 1)]

/-- The lowercase hexadecimal digits, the alphabet of the conversion `%x`. -/
def lower_hex_digits : List Char := "0123456789abcdef".data

/-- The path that `init_download` formats for a Plain request, the length of
the buffer it allocates for it, and the number of characters `snprintf` reports. -/
def plain_path (team : Nat) (hash : String) : String × Nat × Nat :=
  let pre : String := "/p/teams/"
  let mid : String := "/files/"
  let suf : String := "/raw"
  let buffer_len : Nat := pre.length + 21 + mid.length + hash.length + suf.length + 1
  let formatted : String := pre ++ Nat.repr (team % 2 ^ 64) ++ mid ++ hash ++ suf
  let written : Nat := formatted.length
  (String.mk (formatted.data.take (buffer_len - 1)), buffer_len, written)

/-- The helper `init_download` of the source: the request handed to
`Download::start_connect_download`; `none` when the assertion on the buffer
length fails. -/
def init_download (env : Env) (config : Config) (download : StartConnectDownload) :
    Option DownloadRequest :=
  let (host, port) := host_and_port config download.port
  match download.details with
  | DownloadDetails.Plain team hash =>
    let (path, buffer_len, written) := plain_path team hash
    if written < buffer_len then
      some { host := host, port := port, url_path := path, destination := download.path,
             extra_hdrs := some [
               { name := "Fingerprint", value := env.fingerprint,
                 size_limit := some env.fingerprint_hdr_size },
               { name := "Token", value := config.token, size_limit := none }],
             decryptor := none }
    else none
  | DownloadDetails.Encrypted key iv orig_size =>
    some { host := host, port := port, url_path := make_enc_url iv,
           destination := download.path, extra_hdrs := none,
           decryptor := some { key := key, iv := iv, orig_size := orig_size } }

/-- A Rejected event for command `id` with the given reason. -/
def rejected (id : CommandId) (reason : Option String) : Event :=
  { type := EventType.Rejected, command_id := some id, job_id := none, path := none,
    transfer_id := none, reason := reason }

/-- The handlers generated by the macro `JC` (Pause, Resume, Stop). -/
def command_job_control (env : Env) (p : Planner) (id : CommandId) (op : JobControl)
    (reason : String) : Planner × List Call :=
  if env.job_control op then
    ({ p with planned_event := some { type := EventType.Finished, command_id := some id } },
     [Call.job_control op])
  else
    ({ p with planned_event := some (rejected id (some reason)) }, [Call.job_control op])

/-- The handler `Planner::command(const Command &, const StartPrint &)`. -/
def command_start_print (env : Env) (p : Planner) (id : CommandId) (path : String) :
    Planner × List Call :=
  let (reason, calls) : Option String × List Call :=
    if !path_allowed path then (some "Forbidden path", [])
    else if !file_exists env path then (some "File not found", [Call.stat path])
    else if !env.start_print path then
      (some "Can't print now", [Call.stat path, Call.start_print path])
    else (none, [Call.stat path, Call.start_print path])
  match reason with
  | none =>
    ({ p with print_start_cmd := some id,
              planned_event := some { type := EventType.Finished, command_id := some id } },
     calls)
  | some r => ({ p with planned_event := some (rejected id (some r)) }, calls)

/-- The handler `Planner::command(const Command &, const StartConnectDownload &)`;
`none` when an assertion fails. -/
def command_start_download (env : Env) (p : Planner) (id : CommandId)
    (download : StartConnectDownload) : Option (Planner × List Call) :=
  -- Get the config (we need it for the connection); don't reset the "changed" flag.
  let (config, config_changed) := env.config
  if config_changed then
    some ({ p with planned_event := some (rejected id (some "Switching config")) },
          [Call.config false])
  else
    let is_encrypted : Bool :=
      match download.details with
      | DownloadDetails.Encrypted _ _ _ => true
      | DownloadDetails.Plain _ _ => false
    if config.tls && !is_encrypted then
      some ({ p with
              planned_event := some (rejected id
                (some "Requested a non-encrypted download from TLS connection")) },
            [Call.config false])
    else
      match init_download env config download with
      | none => none
      | some request =>
        let calls : List Call := [Call.config false, Call.start_connect_download request]
        match env.start_connect_download request with
        | DownloadResult.Download d =>
          -- If there was another download, it wouldn't have succeeded
          -- because it wouldn't acquire the transfer slot.
          if p.download.isSome then none
          else
            let rd : ResumableDownload := { download := d, port := download.port }
            let rd : ResumableDownload :=
              match download.details with
              | DownloadDetails.Encrypted _ iv orig_size =>
                { rd with orig_size := some orig_size, orig_iv := some iv,
                          allowed_retries := MAX_DOWNLOAD_RETRIES }
              | DownloadDetails.Plain _ _ => rd
            some ({ p with
                    download := some rd
                    planned_event := some { type := EventType.Finished, command_id := some id }
                    transfer_start_cmd := some id }, calls)
        | DownloadResult.NoTransferSlot =>
          some ({ p with
                  planned_event := some (rejected id (some "Another transfer in progress")) },
                calls)
        | DownloadResult.AlreadyExists =>
          some ({ p with planned_event := some (rejected id (some "File already exists")) },
                calls)
        | DownloadResult.RefusedRequest =>
          some ({ p with planned_event := some (rejected id (some "Failed to download")) },
                calls)
        | DownloadResult.Storage msg =>
          some ({ p with planned_event := some (rejected id msg) }, calls)

/-- The handler `Planner::command(const Command &, const DeleteFile &)`. -/
def command_delete_file (env : Env) (p : Planner) (id : CommandId) (path : String) :
    Planner × List Call :=
  let (reason, calls) : Option String × List Call :=
    if !path_allowed path then (some "Forbidden path", [])
    else if !file_exists env path then (some "File not found", [Call.stat path])
    else (delete_file env path, [Call.stat path, Call.remove path])
  match reason with
  | none =>
    ({ p with planned_event := some { type := EventType.Finished, command_id := some id } },
     calls ++ [Call.changed_path path PathType.File Incident.Deleted])
  | some r => ({ p with planned_event := some (rejected id (some r)) }, calls)

/-- The handler `Planner::command(const Command &, const DeleteFolder &)`. -/
def command_delete_folder (env : Env) (p : Planner) (id : CommandId) (path : String) :
    Planner × List Call :=
  let (reason, calls) : Option String × List Call :=
    if !path_allowed path then (some "Forbidden path", [])
    else if !dir_exists env path then (some "File not found", [Call.stat path])
    else (delete_dir env path, [Call.stat path, Call.rmdir path])
  match reason with
  | none =>
    ({ p with planned_event := some { type := EventType.Finished, command_id := some id } },
     calls ++ [Call.changed_path path PathType.Folder Incident.Deleted])
  | some r => ({ p with planned_event := some (rejected id (some r)) }, calls)

/-- The handler `Planner::command(const Command &, const CreateFolder &)`. -/
def command_create_folder (env : Env) (p : Planner) (id : CommandId) (path : String) :
    Planner × List Call :=
  let (reason, calls) : Option String × List Call :=
    if !path_allowed path then (some "Forbidden path", [])
    else (make_dir env path, [Call.mkdir path 777])
  match reason with
  | none =>
    ({ p with planned_event := some { type := EventType.Finished, command_id := some id } },
     calls ++ [Call.changed_path path PathType.Folder Incident.Created])
  | some r => ({ p with planned_event := some (rejected id (some r)) }, calls)

/-- The per-kind handlers `Planner::command(const Command &, const T &)`, selected
by the payload as `visit` does; `none` when an assertion fails. -/
def command_dispatch (env : Env) (p : Planner) (command : Command) :
    Option (Planner × List Call) :=
  let id := command.id
  match command.command_data with
  | CommandData.UnknownCommand =>
    some ({ p with planned_event := some (rejected id (some "Unknown command")) }, [])
  | CommandData.BrokenCommand reason =>
    some ({ p with planned_event := some (rejected id reason) }, [])
  | CommandData.GcodeTooLarge =>
    some ({ p with planned_event := some (rejected id (some "GCode too large")) }, [])
  | CommandData.ProcessingOtherCommand =>
    some ({ p with planned_event := some (rejected id (some "Processing other command")) }, [])
  | CommandData.Gcode gcode size =>
    some ({ p with
            background_command := some
              { id := id,
                command := BackgroundCmd.gcode { data := gcode, size := size, position := 0 } }
            planned_event := some { type := EventType.Accepted, command_id := some id } }, [])
  | CommandData.PausePrint =>
    some (command_job_control env p id JobControl.Pause "No print to pause")
  | CommandData.ResumePrint =>
    some (command_job_control env p id JobControl.Resume "No paused print to resume")
  | CommandData.StopPrint =>
    some (command_job_control env p id JobControl.Stop "No print to stop")
  | CommandData.StartPrint path => some (command_start_print env p id path)
  | CommandData.SendInfo =>
    some ({ p with planned_event := some { type := EventType.Info, command_id := some id } }, [])
  | CommandData.SendJobInfo job_id =>
    some ({ p with
            planned_event := some
              { type := EventType.JobInfo, command_id := some id, job_id := some job_id,
                start_cmd_id := p.print_start_cmd } }, [])
  | CommandData.SendFileInfo path =>
    if path_allowed path then
      some ({ p with
              planned_event := some
                { type := EventType.FileInfo, command_id := some id, job_id := none,
                  path := some path } }, [])
    else
      some ({ p with planned_event := some (rejected id (some "Forbidden path")) }, [])
  | CommandData.SendTransferInfo =>
    some ({ p with
            planned_event := some
              { type := EventType.TransferInfo, command_id := some id,
                start_cmd_id := p.transfer_start_cmd } }, [])
  | CommandData.SetPrinterReady =>
    let result : EventType :=
      if env.set_ready true then EventType.Finished else EventType.Rejected
    let reason : Option String :=
      if result = EventType.Rejected then some "Can't set ready now" else none
    some ({ p with
            planned_event := some
              { type := result, command_id := some id, job_id := none, path := none,
                transfer_id := none, reason := reason } }, [Call.set_ready true])
  | CommandData.CancelPrinterReady =>
    -- Setting _not_ ready can't fail.
    if env.set_ready false then
      some ({ p with planned_event := some { type := EventType.Finished, command_id := some id } },
            [Call.set_ready false])
    else none
  | CommandData.ProcessingThisCommand => none
  | CommandData.StartConnectDownload download => command_start_download env p id download
  | CommandData.DeleteFile path => some (command_delete_file env p id path)
  | CommandData.DeleteFolder path => some (command_delete_folder env p id path)
  | CommandData.CreateFolder path => some (command_create_folder env p id path)
  | CommandData.StopTransfer =>
    if env.signal_stop then
      some ({ p with planned_event := some { type := EventType.Finished, command_id := some id } },
            [Call.signal_stop])
    else
      some ({ p with planned_event := some (rejected id (some "No transfer in progress")) },
            [Call.signal_stop])

/-- `Planner::command(Command)`: the new state of the planner and the calls made
to the collaborators; `none` when an assertion fails. -/
def command (env : Env) (p : Planner) (command : Command) : Option (Planner × List Call) :=
  -- We can get commands only as result of telemetry, not of other things.
  if p.planned_event.isSome then none
  else if p.background_command.isSome then
    -- We are already processing a command.
    -- If it's this particular one, we just continue processing it and re-accept it.
    some ({ p with
            planned_event := some
              { type := if command.command_data = CommandData.ProcessingThisCommand then
                          EventType.Accepted
                        else EventType.Rejected,
                command_id := some command.id } }, [])
  else command_dispatch env p command

/-! ## Downloads in progress -/

/-- Modelled from the spec: `transfers::DownloadStep`, the outcome of one step of
a download as the caller reports it to `download_done`: success (the download
continues or is finished), a network failure, or any other failure. -/
inductive DownloadStep where
  | Continue
  | Finished
  | FailedNetwork
  | FailedOther
  deriving DecidableEq, Repr

/-- `Planner::download_done`; `none` when an assertion fails. The retry budget is
decremented only under the guard `allowed_retries > 0`. -/
def download_done (env : Env) (p : Planner) (result : DownloadStep) : Option Planner :=
  -- Similar reasons as with background_done
  match p.download with
  | none => none
  | some download =>
    if result = DownloadStep.FailedNetwork ∧ download.allowed_retries > 0 then
      if download.need_retry then none
      else
        some { p with
               download := some { download with
                                  allowed_retries := download.allowed_retries - 1
                                  need_retry := true } }
    else
      -- We do _not_ set the event here. We do so in watching the transfer.
      match env.transfer_id with
      | none => none
      | some id => some { p with observed_transfer := some id, download := none }

/-- The value of the `Range` header that `recover_download` formats into its
buffer of 18 bytes for the received position, a `uint32_t`. -/
def range_header (position : Nat) : String :=
  String.mk (("bytes=" ++ Nat.repr (position % 2 ^ 32) ++ "-").data.take (18 - 1))

/-- The request that `recover_download` hands to
`recover_encrypted_connect_download` for the download `download`. A download
without a stored initialization vector has an indeterminate one in the source;
the empty block stands for it here. -/
def recover_request (env : Env) (download : ResumableDownload) : RecoverRequest :=
  let position : Nat := env.position download.download
  let (config, _) := env.config
  let (host, port) := host_and_port config download.port
  let url : String := make_enc_url (download.orig_iv.getD [])
  { download := download.download, host := host, port := port, url := url,
    hdrs := [{ name := "Range", value := range_header position, size_limit := none }],
    orig_iv := download.orig_iv, orig_size := download.orig_size }

/-- `Planner::recover_download`: the new state of the planner and the calls made;
`none` when an assertion fails. -/
def recover_download (env : Env) (p : Planner) : Option (Planner × List Call) :=
  match p.download with
  | none => none
  | some download =>
    if !download.need_retry then none
    else
      let download1 : ResumableDownload := { download with need_retry := false }
      let p1 : Planner := { p with download := some download1 }
      let request : RecoverRequest := recover_request env download1
      let calls : List Call :=
        [Call.position download1.download, Call.config false,
         Call.recover_encrypted_connect_download request]
      match env.recover_encrypted_connect_download request with
      | RecoverResult.Continued => some (p1, calls)
      | RecoverResult.FromStart => some (p1, calls)
      | RecoverResult.Storage _ =>
        -- This is not recoverable, abort the download.
        match download_done env p1 DownloadStep.FailedOther with
        | some p2 => some (p2, calls)
        | none => none
      | RecoverResult.RefusedRequest =>
        -- Something network related. Do more retries later.
        match download_done env p1 DownloadStep.FailedNetwork with
        | some p2 => some (p2, calls)
        | none => none

/-- One thing the caller does with the active download: it reports the outcome
of a step (`download_done`) or resumes the download (`recover_download`), each
with the answers of the collaborators at that time. -/
inductive DownloadOp where
  | done (env : Env) (step : DownloadStep)
  | recover (env : Env)

/-- The effect of one `DownloadOp` on the planner. -/
def download_op (p : Planner) (op : DownloadOp) : Option Planner :=
  match op with
  | DownloadOp.done env step => download_done env p step
  | DownloadOp.recover env =>
    match recover_download env p with
    | some (p1, _) => some p1
    | none => none

/-- Whether `op`, applied in state `p`, is a network failure of the download:
`download_done(FailedNetwork)` called directly, or a `recover_download` whose
request the transport refuses (which calls `download_done(FailedNetwork)`). -/
def is_network_failure (p : Planner) (op : DownloadOp) : Bool :=
  match op with
  | DownloadOp.done _ step => step = DownloadStep.FailedNetwork
  | DownloadOp.recover env =>
    match p.download with
    | some download =>
      env.recover_encrypted_connect_download
        (recover_request env { download with need_retry := false })
        = RecoverResult.RefusedRequest
    | none => false

/-- A run of operations on the active download, with no other operation of the
planner in between; `none` when an assertion fails on the way. -/
def download_run (ops : List DownloadOp) (p : Planner) : Option Planner :=
  match ops with
  | [] => some p
  | op :: rest =>
    match download_op p op with
    | some p1 => download_run rest p1
    | none => none

/-- The number of network failures in a run of operations starting in `p`. -/
def count_failures (ops : List DownloadOp) (p : Planner) : Nat :=
  match ops with
  | [] => 0
  | op :: rest =>
    (if is_network_failure p op then 1 else 0)
      + match download_op p op with
        | some p1 => count_failures rest p1
        | none => 0

/-! ## Background commands -/

/-- Modelled from the spec: `BackgroundResult`, the outcome of a step of a
background command. `background_done` accepts Success and Failure only; `More`
stands for every other value of the type. -/
inductive BackgroundResult where
  | Success
  | Failure
  | More
  deriving DecidableEq, Repr

/-- `Planner::background_command_id`. -/
def background_command_id (p : Planner) : Option CommandId :=
  match p.background_command with
  | some bg => some bg.id
  | none => none

/-- `Planner::background_done`; `none` when an assertion fails. -/
def background_done (p : Planner) (result : BackgroundResult) : Option Planner :=
  -- Function contract, caller not supposed to supply anything else.
  if ¬ (result = BackgroundResult.Success ∨ result = BackgroundResult.Failure) then none
  -- We give out the background task only as part of a sleep and we do so
  -- only in case we don't have an event to be sent out.
  else if p.planned_event.isSome then none
  -- Obviously, it can be done only in case there's one.
  else if p.background_command.isSome = false then none
  else
    some { p with
           planned_event := some
             { type := if result = BackgroundResult.Success then EventType.Finished
                       else EventType.Failed,
               command_id := background_command_id p }
           background_command := none }

/-! ## Sequences of calls -/

/-- One call of a public operation of the planner, with the answers of the
collaborators during that call. -/
inductive PlannerOp where
  | reset
  | next_action (env : Env)
  | action_done (now : Timestamp) (result : ActionResult)
  | command (env : Env) (command : Command)
  | background_done (result : BackgroundResult)
  | download_done (env : Env) (step : DownloadStep)
  | recover_download (env : Env)

/-- The state of the planner after one call; `none` when an assertion fails. -/
def planner_op (p : Planner) (op : PlannerOp) : Option Planner :=
  match op with
  | PlannerOp.reset => some (reset p)
  | PlannerOp.next_action env =>
    match next_action env p with
    | some (_, p1, _) => some p1
    | none => none
  | PlannerOp.action_done now result => some (action_done now result p)
  | PlannerOp.command env c =>
    match command env p c with
    | some (p1, _) => some p1
    | none => none
  | PlannerOp.background_done result => background_done p result
  | PlannerOp.download_done env step => download_done env p step
  | PlannerOp.recover_download env =>
    match recover_download env p with
    | some (p1, _) => some p1
    | none => none

/-- The state of the planner after a sequence of calls; `none` when an
assertion fails on the way. -/
def planner_run (ops : List PlannerOp) (p : Planner) : Option Planner :=
  match ops with
  | [] => some p
  | op :: rest =>
    match planner_op p op with
    | some p1 => planner_run rest p1
    | none => none

/-- Modelled from the spec: the planner as constructed at the start of a
session. The member initialisers are in `planner.hpp`, which is not among the
sources: nothing is pending, no timer is set, and the info tracker is dirty. -/
def fresh_planner : Planner :=
  { info_changes := { last_hash := 0, dirty := true }
    last_telemetry := none
    last_success := none
    cooldown := none
    perform_cooldown := false
    failed_attempts := 0
    planned_event := none
    background_command := none
    download := none
    observed_transfer := none
    transfer_start_cmd := none
    print_start_cmd := none }

/-- Whether the call is a StartPrint command. -/
def is_start_print (op : PlannerOp) : Bool :=
  match op with
  | PlannerOp.command _ c =>
    match c.command_data with
    | CommandData.StartPrint _ => true
    | _ => false
  | _ => false

/-- Whether the call is a `next_action` during which the printer is not printing. -/
def saw_not_printing (op : PlannerOp) : Bool :=
  match op with
  | PlannerOp.next_action env => !env.is_printing
  | _ => false

/-! ## Runs and sample states -/

/-- A run of consecutive `action_done(Failed)` calls, one for each clock value
of the list, with no other operation of the planner in between. -/
def failed_run (ns : List Timestamp) (p : Planner) : Planner :=
  ns.foldl (fun q n => action_done n ActionResult.Failed q) p

/-- An environment in which nothing happens: the printer is idle with
fingerprint 0, there is no transfer and no filesystem change, and every request
to a collaborator is refused. -/
def quiet_env (now : Timestamp) : Env :=
  { now := now
    is_printing := false
    info_fingerprint := 0
    fingerprint := ""
    fingerprint_hdr_size := 0
    config := ({ host := "", port := 80, tls := false, token := "" }, false)
    job_control := fun _ => false
    start_print := fun _ => false
    set_ready := fun _ => false
    transfer_id := none
    outcome := fun _ => none
    signal_stop := false
    changed_path_status := none
    buffer_free := true
    stat := fun _ => none
    remove := fun _ => some Errno.other
    rmdir := fun _ => some Errno.other
    mkdir := fun _ => some Errno.other
    start_connect_download := fun _ => DownloadResult.RefusedRequest
    position := fun _ => 0
    recover_encrypted_connect_download := fun _ => RecoverResult.RefusedRequest }

/-- A Rejected event answering command 7. -/
def rejected_event : Event :=
  { type := EventType.Rejected, command_id := some 7, reason := some "Unknown command" }

/-- A planner with `rejected_event` pending and nothing else going on. -/
def pending_planner : Planner :=
  { info_changes := { last_hash := 0, dirty := false }
    planned_event := some rejected_event }

/-- A planner after a failed attempt to send `rejected_event`: the event is
pending and a cooldown of 100 ms is to be performed. -/
def cooling_planner : Planner :=
  { info_changes := { last_hash := 0, dirty := false }
    planned_event := some rejected_event
    cooldown := some 100
    perform_cooldown := true
    failed_attempts := 1 }

/-- A planner that sent its Info event and its last telemetry at time 1000 and
has nothing pending. -/
def idle_planner : Planner :=
  { info_changes := { last_hash := 0, dirty := false }
    last_telemetry := some 1000
    last_success := some 1000 }

/-- A planner that is processing the gcode of command 1 in the background. -/
def busy_planner : Planner :=
  { info_changes := { last_hash := 0, dirty := false }
    last_success := some 1000
    background_command := some
      { id := 1
        command := BackgroundCmd.gcode { data := [71, 50, 56], size := 3, position := 0 } } }

/-- A TLS-configured device whose configuration did not change; the transport
accepts every download and refuses every resume, and transfer 1 is current. -/
def tls_env : Env :=
  { quiet_env 0 with
    config := ({ host := "connect.example", port := 443, tls := true, token := "t" }, false)
    start_connect_download := fun _ => DownloadResult.Download { handle := 1 }
    transfer_id := some 1 }

/-- A device without TLS, otherwise like `tls_env`. -/
def plain_env : Env :=
  { tls_env with
    config := ({ host := "connect.example", port := 80, tls := false, token := "t" }, false) }

/-- An encrypted download request with a 16-byte key and initialization vector. -/
def encrypted_request : StartConnectDownload :=
  { path := "/usb/a.gcode"
    port := none
    details := DownloadDetails.Encrypted
      [1, 2, 3, 4, 5, 6, 7, 8, 9, 10, 11, 12, 13, 14, 15, 16]
      [0, 17, 34, 51, 68, 85, 102, 119, 136, 153, 170, 187, 204, 221, 238, 255]
      1000 }

/-- A plain download request. -/
def plain_request : StartConnectDownload :=
  { path := "/usb/a.gcode", port := none, details := DownloadDetails.Plain 42 "abcdef" }

/-- A planner with an active download that has `retries` retries left. -/
def downloading_planner (retries : Nat) : Planner :=
  { idle_planner with
    download := some { download := { handle := 1 }, allowed_retries := retries }
    observed_transfer := some 1 }

/-- The planner after `idle_planner` accepted command 5, a StartDownload with
`encrypted_request`, on `tls_env`. -/
def started_planner : Planner :=
  { idle_planner with
    download := some
      { download := { handle := 1 }
        port := none
        allowed_retries := 5
        need_retry := false
        orig_iv := some [0, 17, 34, 51, 68, 85, 102, 119, 136, 153, 170, 187, 204, 221, 238, 255]
        orig_size := some 1000 }
    planned_event := some { type := EventType.Finished, command_id := some 5 }
    transfer_start_cmd := some 5 }

/-- Six network failures in a row on `tls_env`: a failed step, then five resumes that the
transport refuses. -/
def six_failures : List DownloadOp :=
  [DownloadOp.done tls_env DownloadStep.FailedNetwork, DownloadOp.recover tls_env,
   DownloadOp.recover tls_env, DownloadOp.recover tls_env, DownloadOp.recover tls_env,
   DownloadOp.recover tls_env]

/-- An environment in which the printer is printing, every path is a regular
file and the printer accepts to start a print. -/
def printing_env (now : Timestamp) : Env :=
  { quiet_env now with
    is_printing := true
    stat := fun _ => some false
    start_print := fun _ => true }

@[simp] theorem failed_run_nil (p : Planner) : failed_run [] p = p := rfl

@[simp] theorem failed_run_cons (n : Timestamp) (ns : List Timestamp) (p : Planner) :
    failed_run (n :: ns) p = failed_run ns (action_done n ActionResult.Failed p) := rfl

theorem action_done_failed_eq (n : Timestamp) (p : Planner) :
    action_done n ActionResult.Failed p
      = action_done_backoff (action_done_reconnect n (action_done_give_up p)) := rfl

/-! ### The steps of `action_done(Failed)` -/

theorem give_up_cooldown (p : Planner) :
    (action_done_give_up p).cooldown = p.cooldown := by
  unfold action_done_give_up
  simp only []
  split
  · split
    · split <;> rfl
    · rfl
  · rfl

theorem give_up_last_success (p : Planner) :
    (action_done_give_up p).last_success = p.last_success := by
  unfold action_done_give_up
  simp only []
  split
  · split
    · split <;> rfl
    · rfl
  · rfl

theorem give_up_below (p : Planner) (h : p.failed_attempts + 1 < 5) :
    action_done_give_up p = { p with failed_attempts := p.failed_attempts + 1 } := by
  have h1 : (p.failed_attempts + 1) % 256 = p.failed_attempts + 1 := Nat.mod_eq_of_lt (by omega)
  unfold action_done_give_up
  simp only [h1, GIVE_UP_AFTER_ATTEMPTS]
  rw [if_neg (by omega)]

theorem give_up_info (p : Planner) (ev : Event) (hev : p.planned_event = some ev)
    (hty : ev.type = EventType.Info) : (action_done_give_up p).planned_event = some ev := by
  unfold action_done_give_up
  simp only [hev]
  split
  · simp [hty]
  · rfl

theorem give_up_none (p : Planner) (hev : p.planned_event = none) :
    (action_done_give_up p).planned_event = none := by
  unfold action_done_give_up
  simp only [hev]
  split <;> rfl

theorem give_up_at_four (p : Planner) (ev : Event) (hfa : p.failed_attempts = 4)
    (hev : p.planned_event = some ev) (hty : ev.type ≠ EventType.Info) :
    (action_done_give_up p).planned_event = none
      ∧ (action_done_give_up p).failed_attempts = 0 := by
  unfold action_done_give_up
  simp [hfa, hev, hty, GIVE_UP_AFTER_ATTEMPTS]

theorem reconnect_cooldown (n : Timestamp) (p : Planner) :
    (action_done_reconnect n p).cooldown = p.cooldown := by
  unfold action_done_reconnect
  split <;> rfl

theorem reconnect_pending (n : Timestamp) (p : Planner) (ev : Event)
    (hev : p.planned_event = some ev) : action_done_reconnect n p = p := by
  unfold action_done_reconnect
  simp [hev]

theorem reconnect_counter (n : Timestamp) (p : Planner) :
    (action_done_reconnect n p).failed_attempts = p.failed_attempts := by
  unfold action_done_reconnect
  split <;> rfl

theorem backoff_fields (p : Planner) :
    (action_done_backoff p).planned_event = p.planned_event
      ∧ (action_done_backoff p).last_success = p.last_success
      ∧ (action_done_backoff p).failed_attempts = p.failed_attempts := ⟨rfl, rfl, rfl⟩

theorem action_done_failed_cooldown (n : Timestamp) (p : Planner) :
    (action_done n ActionResult.Failed p).cooldown
      = some (min COOLDOWN_MAX ((p.cooldown.getD (COOLDOWN_BASE / 2)) * 2 % 2 ^ 32)) := by
  simp [action_done, action_done_backoff, reconnect_cooldown, give_up_cooldown]

theorem action_done_failed_perform (n : Timestamp) (p : Planner) :
    (action_done n ActionResult.Failed p).perform_cooldown = true := by
  simp [action_done, action_done_backoff]

theorem failed_keeps_pending (n : Timestamp) (p : Planner) (ev : Event)
    (hfa : p.failed_attempts + 1 < 5) (hev : p.planned_event = some ev) :
    (action_done n ActionResult.Failed p).planned_event = some ev
      ∧ (action_done n ActionResult.Failed p).failed_attempts = p.failed_attempts + 1
      ∧ (action_done n ActionResult.Failed p).last_success = p.last_success := by
  have hg := give_up_below p hfa
  have hr : action_done_reconnect n (action_done_give_up p) = action_done_give_up p :=
    reconnect_pending n _ ev (by rw [hg]; exact hev)
  rw [action_done_failed_eq, hr, hg]
  exact ⟨hev, rfl, rfl⟩

theorem failed_keeps_info (n : Timestamp) (p : Planner) (ev : Event)
    (hev : p.planned_event = some ev) (hty : ev.type = EventType.Info) :
    (action_done n ActionResult.Failed p).planned_event = some ev := by
  have hg := give_up_info p ev hev hty
  rw [action_done_failed_eq, reconnect_pending n _ ev hg]
  exact hg

/-! ### The back-off sequence -/

theorem backoff_step (c : Nat) (hc : c ≤ 60000) :
    min 60000 (c * 2 % 2 ^ 32) = min 60000 (c * 2) := by
  have : c * 2 % 2 ^ 32 = c * 2 := Nat.mod_eq_of_lt (by norm_num; omega)
  rw [this]

theorem backoff_pow (c l : Nat) :
    min 60000 (min 60000 (c * 2) * 2 ^ l) = min 60000 (c * 2 ^ (l + 1)) := by
  have hp : 1 ≤ 2 ^ l := Nat.one_le_two_pow
  rw [pow_succ]
  by_cases hle : c * 2 ≤ 60000
  · rw [Nat.min_eq_right hle]; congr 1; ring
  · have h2 : min 60000 (c * 2) = 60000 := Nat.min_eq_left (by omega)
    rw [h2]
    have h3 : 60000 ≤ 60000 * 2 ^ l := Nat.le_mul_of_pos_right _ hp
    have h4 : 60000 ≤ c * (2 ^ l * 2) := by
      calc 60000 ≤ c * 2 := by omega
        _ = c * (1 * 2) := by ring
        _ ≤ c * (2 ^ l * 2) := by gcongr
    rw [Nat.min_eq_left h3, Nat.min_eq_left h4]

theorem failed_run_perform (ns : List Timestamp) (p : Planner) (h : p.perform_cooldown = true) :
    (failed_run ns p).perform_cooldown = true := by
  induction ns generalizing p with
  | nil => simpa using h
  | cons n ns ih => simpa using ih _ (action_done_failed_perform n p)

theorem failed_run_backoff_from (ns : List Timestamp) (p : Planner) (c : Nat)
    (h : p.cooldown = some c) (hc : c ≤ 60000) :
    (failed_run ns p).cooldown = some (min 60000 (c * 2 ^ ns.length)) := by
  induction ns generalizing p c with
  | nil => simp [h, hc]
  | cons n ns ih =>
    have h1 : (action_done n ActionResult.Failed p).cooldown = some (min 60000 (c * 2)) := by
      rw [action_done_failed_cooldown, h]
      simp only [Option.getD_some, COOLDOWN_MAX]
      rw [← backoff_step c hc]
    rw [failed_run_cons, ih _ _ h1 (Nat.min_le_left _ _), List.length_cons, backoff_pow]

/-- C1: starting from a state with no cooldown, after `k ≥ 1` consecutive
`action_done(Failed)` calls the cooldown is `min(60000, 100 * 2^(k-1))` ms and
`perform_cooldown` is set, whatever the clock values, the pending event, the counter of
failed attempts and the time of the last success are. -/
theorem cooldown_after_failures (p : Planner) (ns : List Timestamp)
    (h : p.cooldown = none) (hk : 1 ≤ ns.length) :
    (failed_run ns p).cooldown = some (min 60000 (100 * 2 ^ (ns.length - 1)))
      ∧ (failed_run ns p).perform_cooldown = true := by
  cases ns with
  | nil => simp at hk
  | cons n ns =>
    have h1 : (action_done n ActionResult.Failed p).cooldown = some 100 := by
      rw [action_done_failed_cooldown, h]; simp [COOLDOWN_MAX, COOLDOWN_BASE]
    refine ⟨?_, ?_⟩
    · rw [failed_run_cons, failed_run_backoff_from ns _ 100 h1 (by norm_num)]
      simp
    · rw [failed_run_cons]
      exact failed_run_perform ns _ (action_done_failed_perform n p)

theorem cooldown_after_failures_witness :
    pending_planner.cooldown = none ∧ 1 ≤ [0, 7, 9].length
      ∧ (failed_run [0, 7, 9] pending_planner).cooldown
          = some (min 60000 (100 * 2 ^ ([0, 7, 9].length - 1)))
      ∧ (failed_run [0, 7, 9] pending_planner).perform_cooldown = true :=
  ⟨rfl, by decide, cooldown_after_failures pending_planner [0, 7, 9] rfl (by decide)⟩

/-- C2: with `failed_attempts = 0` and a pending event that is not Info, the event is still
pending, unchanged, after each of the first four consecutive `action_done(Failed)` calls;
the fifth call drops it and leaves `failed_attempts = 0`, and `planned_event` is then empty,
or a fresh Info event when the reconnect condition holds in the fifth call. -/
theorem give_up_after_five_failures (p : Planner) (ev : Event) (n1 n2 n3 n4 n5 : Timestamp)
    (hfa : p.failed_attempts = 0) (hev : p.planned_event = some ev)
    (hty : ev.type ≠ EventType.Info) :
    (failed_run [n1] p).planned_event = some ev
      ∧ (failed_run [n1, n2] p).planned_event = some ev
      ∧ (failed_run [n1, n2, n3] p).planned_event = some ev
      ∧ (failed_run [n1, n2, n3, n4] p).planned_event = some ev
      ∧ (failed_run [n1, n2, n3, n4, n5] p).failed_attempts = 0
      ∧ (failed_run [n1, n2, n3, n4, n5] p).planned_event
          = if (since n5 p.last_success).getD 0 ≥ RECONNECT_AFTER then
              some { type := EventType.Info }
            else none := by
  obtain ⟨e1, f1, l1⟩ := failed_keeps_pending n1 p ev (by omega) hev
  obtain ⟨e2, f2, l2⟩ := failed_keeps_pending n2 _ ev (by omega) e1
  obtain ⟨e3, f3, l3⟩ := failed_keeps_pending n3 _ ev (by omega) e2
  obtain ⟨e4, f4, l4⟩ := failed_keeps_pending n4 _ ev (by omega) e3
  simp only [failed_run_cons, failed_run_nil]
  refine ⟨e1, e2, e3, e4, ?_, ?_⟩
  all_goals
    generalize action_done n4 ActionResult.Failed
      (action_done n3 ActionResult.Failed (action_done n2 ActionResult.Failed
        (action_done n1 ActionResult.Failed p))) = q at e4 f4 l4
    have hq : q.failed_attempts = 4 := by omega
    have hl : q.last_success = p.last_success := by rw [l4, l3, l2, l1]
    obtain ⟨g1, g2⟩ := give_up_at_four q ev hq e4 hty
    rw [action_done_failed_eq]
  · rw [(backoff_fields _).2.2, reconnect_counter, g2]
  · rw [(backoff_fields _).1]
    unfold action_done_reconnect
    rw [give_up_last_success, hl, g1]
    simp only [Option.isSome_none, and_true]
    split
    · rfl
    · exact g1

theorem give_up_after_five_failures_witness :
    pending_planner.failed_attempts = 0 ∧ pending_planner.planned_event = some rejected_event
      ∧ rejected_event.type ≠ EventType.Info
      ∧ (failed_run [1, 2, 3, 4] pending_planner).planned_event = some rejected_event
      ∧ (failed_run [1, 2, 3, 4, 5] pending_planner).failed_attempts = 0
      ∧ (failed_run [1, 2, 3, 4, 5] pending_planner).planned_event
          = if (since 5 pending_planner.last_success).getD 0 ≥ RECONNECT_AFTER then
              some { type := EventType.Info }
            else none :=
  ⟨rfl, rfl, by decide,
    (give_up_after_five_failures pending_planner rejected_event 1 2 3 4 5 rfl rfl
      (by decide)).2.2.2⟩

/-- C3: an Info event is never abandoned: after any number of consecutive
`action_done(Failed)` calls the same Info event (type, command id and every other field) is
still pending. -/
theorem info_event_never_abandoned (p : Planner) (ev : Event) (ns : List Timestamp)
    (hev : p.planned_event = some ev) (hty : ev.type = EventType.Info) :
    (failed_run ns p).planned_event = some ev := by
  induction ns generalizing p with
  | nil => exact hev
  | cons n ns ih => exact ih _ (failed_keeps_info n p ev hev hty)

theorem info_event_never_abandoned_witness :
    (failed_run [0, 10, 20, 30, 40, 50, 60]
      { planned_event := some { type := EventType.Info, command_id := some 3 } }).planned_event
      = some { type := EventType.Info, command_id := some 3 } :=
  info_event_never_abandoned
    { planned_event := some { type := EventType.Info, command_id := some 3 } }
    { type := EventType.Info, command_id := some 3 } [0, 10, 20, 30, 40, 50, 60] rfl rfl

/-- C4: `action_done(Failed)` with no pending event, `last_success` set and
`now - last_success >= 10000` ms plans a fresh Info event (without command id) and unsets
`last_success`; when `last_success` is unset, or `now - last_success < 10000`, or an event
is still pending after the give-up step, no Info event is scheduled (the planned event is
the one left by the give-up step) and `last_success` is unchanged. -/
theorem action_done_failed_reconnect (n : Timestamp) (p : Planner) :
    (∀ ls : Timestamp, p.planned_event = none → p.last_success = some ls
        → sub32 n ls ≥ 10000
        → (action_done n ActionResult.Failed p).planned_event = some { type := EventType.Info }
          ∧ (action_done n ActionResult.Failed p).last_success = none)
      ∧ ((p.last_success = none ∨ (∃ ls, p.last_success = some ls ∧ sub32 n ls < 10000)
            ∨ (action_done_give_up p).planned_event.isSome = true)
        → (action_done n ActionResult.Failed p).planned_event
            = (action_done_give_up p).planned_event
          ∧ (action_done n ActionResult.Failed p).last_success = p.last_success) := by
  constructor
  · intro ls hev hls hge
    have g := give_up_none p hev
    rw [action_done_failed_eq]
    unfold action_done_reconnect
    rw [give_up_last_success, hls, g]
    simp only [since, Option.getD_some, RECONNECT_AFTER, Option.isSome_none, and_true]
    rw [if_pos hge]
    exact ⟨rfl, rfl⟩
  · intro h
    have hr : action_done_reconnect n (action_done_give_up p) = action_done_give_up p := by
      unfold action_done_reconnect
      rw [give_up_last_success]
      rcases h with h | ⟨ls, hls, hlt⟩ | h
      · simp [h, since, RECONNECT_AFTER]
      · have : ¬ (sub32 n ls ≥ 1000 * 10) := by omega
        simp [hls, since, RECONNECT_AFTER, this]
      · simp [h]
    rw [action_done_failed_eq, hr]
    exact ⟨rfl, give_up_last_success p⟩

theorem action_done_failed_reconnect_witness :
    (idle_planner.planned_event = none ∧ idle_planner.last_success = some 1000
        ∧ sub32 11000 1000 ≥ 10000
        ∧ (action_done 11000 ActionResult.Failed idle_planner).planned_event
            = some { type := EventType.Info }
        ∧ (action_done 11000 ActionResult.Failed idle_planner).last_success = none)
      ∧ (sub32 10999 1000 < 10000
        ∧ (action_done 10999 ActionResult.Failed idle_planner).planned_event = none
        ∧ (action_done 10999 ActionResult.Failed idle_planner).last_success = some 1000) :=
  ⟨⟨rfl, rfl, by decide,
      (action_done_failed_reconnect 11000 idle_planner).1 1000 rfl rfl (by decide)⟩,
    by decide,
    (action_done_failed_reconnect 10999 idle_planner).2
      (Or.inr (Or.inl ⟨1000, rfl, by decide⟩))⟩

/-! ### `next_action` -/

theorem print_check_fields (env : Env) (p : Planner) :
    (next_action_print_check env p).perform_cooldown = p.perform_cooldown
      ∧ (next_action_print_check env p).cooldown = p.cooldown
      ∧ (next_action_print_check env p).planned_event = p.planned_event
      ∧ (next_action_print_check env p).observed_transfer = p.observed_transfer
      ∧ (next_action_print_check env p).last_telemetry = p.last_telemetry
      ∧ (next_action_print_check env p).info_changes = p.info_changes
      ∧ (next_action_print_check env p).background_command = p.background_command
      ∧ (next_action_print_check env p).download = p.download
      ∧ (next_action_print_check env p).transfer_start_cmd = p.transfer_start_cmd := by
  unfold next_action_print_check
  split <;> exact ⟨rfl, rfl, rfl, rfl, rfl, rfl, rfl, rfl, rfl⟩

theorem poll_pending (env : Env) (p : Planner) (ev : Event)
    (hev : p.planned_event = some ev) (hcd : p.perform_cooldown = false) :
    next_action_poll env p = some (Action.Event ev, p, []) := by
  unfold next_action_poll
  simp [hev, hcd]

theorem poll_cooldown (env : Env) (p : Planner) (d : Duration)
    (hcd : p.perform_cooldown = true) (hd : p.cooldown = some d) :
    next_action_poll env p
      = some (Action.Sleep (sleep { p with perform_cooldown := false } d),
              { p with perform_cooldown := false }, []) := by
  unfold next_action_poll
  simp [hcd, hd]

theorem poll_info_due (env : Env) (p : Planner)
    (hev : p.planned_event = none) (hcd : p.perform_cooldown = false)
    (hd : p.info_changes.dirty = true) :
    ∃ p1 : Planner,
      next_action_poll env p = some (Action.Event { type := EventType.Info }, p1, [])
        ∧ p1.planned_event = some { type := EventType.Info } := by
  have h : (p.info_changes.set_hash env.info_fingerprint).2 = true := by
    unfold Tracker.set_hash
    simp only []
    split
    · rfl
    · exact hd
  unfold next_action_poll
  simp only [hev, hcd, h]
  exact ⟨_, rfl, rfl⟩

theorem poll_quiet (env : Env) (p : Planner)
    (hcd : p.perform_cooldown = false) (hev : p.planned_event = none)
    (hfp : (p.info_changes.set_hash env.info_fingerprint).2 = false) :
    next_action_poll env p
      = some (next_action_transfer env
          { p with info_changes := (p.info_changes.set_hash env.info_fingerprint).1 }) := by
  unfold next_action_poll
  simp [hcd, hev, hfp]

theorem next_action_pending (env : Env) (p : Planner) (ev : Event)
    (hev : p.planned_event = some ev) (hcd : p.perform_cooldown = false) :
    next_action env p = some (Action.Event ev, next_action_print_check env p, []) := by
  have h := print_check_fields env p
  exact poll_pending env _ ev (h.2.2.1.trans hev) (h.1.trans hcd)

/-- The telemetry step looks only at `last_telemetry`, the background command, the
download and the pending event of the planner. -/
theorem telemetry_congr (env : Env) (p q : Planner)
    (h1 : q.last_telemetry = p.last_telemetry)
    (h2 : q.background_command = p.background_command)
    (h3 : q.download = p.download) (h4 : q.planned_event = p.planned_event) :
    next_action_telemetry env q = next_action_telemetry env p := by
  unfold next_action_telemetry sleep
  rw [h1, h2, h3, h4]

theorem changed_path_none (env : Env) (p : Planner)
    (hcp : env.changed_path_status = none ∨ env.buffer_free = false) :
    next_action_changed_path env p = (next_action_telemetry env p, p, []) := by
  unfold next_action_changed_path
  rcases hcp with h | h
  · simp [h]
  · cases hs : env.changed_path_status <;> simp [h]

theorem transfer_none (env : Env) (p : Planner)
    (htr : env.transfer_id = p.observed_transfer ∨ p.observed_transfer = none
      ∨ ∃ t, p.observed_transfer = some t ∧ env.outcome t = none) :
    next_action_transfer env p
      = next_action_changed_path env { p with observed_transfer := env.transfer_id } := by
  unfold next_action_transfer
  by_cases heq : p.observed_transfer = env.transfer_id
  · simp only [ne_eq, heq, not_true_eq_false, if_false]
    rw [← heq]
  · simp only [ne_eq, heq, not_false_eq_true, if_true]
    rcases htr with h | h | ⟨t, ht, ho⟩
    · exact absurd h.symm heq
    · simp [h]
    · simp [ht, ho]

theorem next_action_reaches_telemetry (env : Env) (p : Planner)
    (hcd : p.perform_cooldown = false) (hev : p.planned_event = none)
    (hfp : (p.info_changes.set_hash env.info_fingerprint).2 = false)
    (htr : env.transfer_id = p.observed_transfer ∨ p.observed_transfer = none
      ∨ ∃ t, p.observed_transfer = some t ∧ env.outcome t = none)
    (hcp : env.changed_path_status = none ∨ env.buffer_free = false) :
    ∃ p1 : Planner, next_action env p = some (next_action_telemetry env p, p1, []) := by
  have f := print_check_fields env p
  have h1 := poll_quiet env (next_action_print_check env p) (f.1.trans hcd) (f.2.2.1.trans hev)
    (by rw [f.2.2.2.2.2.1]; exact hfp)
  have h2 := transfer_none env
    { next_action_print_check env p with
      info_changes := ((next_action_print_check env p).info_changes.set_hash
        env.info_fingerprint).1 }
    (by simpa only [f.2.2.2.1] using htr)
  have h3 := changed_path_none env
    { next_action_print_check env p with
      info_changes := ((next_action_print_check env p).info_changes.set_hash
        env.info_fingerprint).1,
      observed_transfer := env.transfer_id } hcp
  have h4 := telemetry_congr env p
    { next_action_print_check env p with
      info_changes := ((next_action_print_check env p).info_changes.set_hash
        env.info_fingerprint).1,
      observed_transfer := env.transfer_id } f.2.2.2.2.1 f.2.2.2.2.2.2.1 f.2.2.2.2.2.2.2.1 f.2.2.1
  apply Exists.intro
  unfold next_action
  rw [h1]
  exact congrArg some ((h2.trans h3).trans (by rw [h4]))

theorem sub32_small (a b : Nat) (h : b < a) (ha : a < 2 ^ 32) : sub32 a b = a - b := by
  unfold sub32
  have hb : b % 2 ^ 32 = b := Nat.mod_eq_of_lt (by omega)
  rw [hb]
  have : a + (2 ^ 32 - b) = (a - b) + 2 ^ 32 := by omega
  rw [this, Nat.add_mod_right]
  exact Nat.mod_eq_of_lt (by omega)

/-- C5 (as stated, refuted): after one failed attempt to send `rejected_event` the event is
pending and a cooldown is to be performed; the first `next_action` call then returns a Sleep
of 100 ms and not the pending event. -/
theorem next_action_cooldown_before_event :
    action_done 0 ActionResult.Failed pending_planner = cooling_planner
      ∧ cooling_planner.planned_event = some rejected_event
      ∧ next_action (quiet_env 0) cooling_planner
          = some (Action.Sleep { amount := 100, cmd := none, down := none,
                                 recover_download := false },
                  { cooling_planner with perform_cooldown := false }, [])
      ∧ ¬ ∃ p1 cs, next_action (quiet_env 0) cooling_planner
            = some (Action.Event rejected_event, p1, cs) := by
  have h2 : next_action (quiet_env 0) cooling_planner
      = some (Action.Sleep { amount := 100, cmd := none, down := none,
                             recover_download := false },
              { cooling_planner with perform_cooldown := false }, []) := by decide
  refine ⟨by decide, rfl, h2, ?_⟩
  rintro ⟨p1, cs, h⟩
  rw [h2] at h
  simp at h

/-- C5 (amended): while an event is pending and no cooldown is to be performed, two
successive `next_action` calls with nothing in between both return an Event action equal to
`planned_event`, call no collaborator, and leave `planned_event` unchanged. -/
theorem next_action_idempotent_while_pending (env1 env2 : Env) (p : Planner) (ev : Event)
    (hev : p.planned_event = some ev) (hcd : p.perform_cooldown = false) :
    ∃ p1 p2 : Planner,
      next_action env1 p = some (Action.Event ev, p1, [])
        ∧ next_action env2 p1 = some (Action.Event ev, p2, [])
        ∧ p1.planned_event = some ev ∧ p2.planned_event = some ev := by
  have f1 := print_check_fields env1 p
  have h1 := next_action_pending env1 p ev hev hcd
  have e1 : (next_action_print_check env1 p).planned_event = some ev := f1.2.2.1.trans hev
  have c1 : (next_action_print_check env1 p).perform_cooldown = false := f1.1.trans hcd
  have h2 := next_action_pending env2 _ ev e1 c1
  exact ⟨_, _, h1, h2, e1, (print_check_fields env2 _).2.2.1.trans e1⟩

theorem next_action_idempotent_while_pending_witness :
    pending_planner.planned_event = some rejected_event
      ∧ pending_planner.perform_cooldown = false
      ∧ ∃ p1 p2 : Planner,
          next_action (quiet_env 0) pending_planner
              = some (Action.Event rejected_event, p1, [])
            ∧ next_action (quiet_env 5) p1 = some (Action.Event rejected_event, p2, [])
            ∧ p1.planned_event = some rejected_event
            ∧ p2.planned_event = some rejected_event :=
  ⟨rfl, rfl, next_action_idempotent_while_pending (quiet_env 0) (quiet_env 5)
    pending_planner rejected_event rfl rfl⟩

/-- C6: when `perform_cooldown` is set (and `cooldown` has a value, as the source asserts),
`next_action` clears `perform_cooldown` and returns a Sleep whose duration is the current
cooldown, before it considers the pending event, the fingerprint, the transfers, the file
changes or the telemetry timer: no collaborator is called, and `planned_event`,
`observed_transfer`, `last_telemetry`, the info tracker and `cooldown` are unchanged. -/
theorem next_action_performs_cooldown (env : Env) (p : Planner) (d : Duration)
    (hcd : p.perform_cooldown = true) (hd : p.cooldown = some d) :
    ∃ (s : Sleep) (p1 : Planner),
      next_action env p = some (Action.Sleep s, p1, [])
        ∧ s.amount = d
        ∧ p1.perform_cooldown = false
        ∧ p1.cooldown = p.cooldown
        ∧ p1.planned_event = p.planned_event
        ∧ p1.observed_transfer = p.observed_transfer
        ∧ p1.last_telemetry = p.last_telemetry
        ∧ p1.info_changes = p.info_changes := by
  have f := print_check_fields env p
  have h := poll_cooldown env (next_action_print_check env p) d (f.1.trans hcd) (f.2.1.trans hd)
  exact ⟨_, _, h, rfl, rfl, f.2.1, f.2.2.1, f.2.2.2.1, f.2.2.2.2.1, f.2.2.2.2.2.1⟩

theorem next_action_performs_cooldown_witness :
    cooling_planner.perform_cooldown = true ∧ cooling_planner.cooldown = some 100
      ∧ ∃ (s : Sleep) (p1 : Planner),
          next_action (quiet_env 0) cooling_planner = some (Action.Sleep s, p1, [])
            ∧ s.amount = 100
            ∧ p1.perform_cooldown = false
            ∧ p1.cooldown = cooling_planner.cooldown
            ∧ p1.planned_event = cooling_planner.planned_event
            ∧ p1.observed_transfer = cooling_planner.observed_transfer
            ∧ p1.last_telemetry = cooling_planner.last_telemetry
            ∧ p1.info_changes = cooling_planner.info_changes :=
  ⟨rfl, rfl, next_action_performs_cooldown (quiet_env 0) cooling_planner 100 rfl rfl⟩

/-- C7 (as stated, refuted): the Rejected answer to an unknown command 7 is pending when
`reset()` is called; `reset()` keeps it, and the next `next_action` call returns that
event, of type Rejected, and not an Info event. -/
theorem reset_keeps_pending_event_first :
    command (quiet_env 0) { info_changes := { last_hash := 0, dirty := false } }
        { id := 7, command_data := CommandData.UnknownCommand } = some (pending_planner, [])
      ∧ next_action (quiet_env 0) (reset pending_planner)
          = some (Action.Event rejected_event, reset pending_planner, [])
      ∧ rejected_event.type = EventType.Rejected
      ∧ rejected_event.type ≠ EventType.Info := by
  refine ⟨by decide, by decide, rfl, by decide⟩

/-- C7 (amended): `reset()` leaves `last_telemetry` unset, `cooldown` unset,
`perform_cooldown` false and `failed_attempts = 0`; the next `next_action` call returns a
fresh Info event when no event was pending at the reset, and otherwise returns the event
that was pending, which `reset()` keeps. -/
theorem reset_then_next_action (env : Env) (p : Planner) :
    (reset p).last_telemetry = none ∧ (reset p).cooldown = none
      ∧ (reset p).perform_cooldown = false ∧ (reset p).failed_attempts = 0
      ∧ (p.planned_event = none →
          ∃ p1 : Planner,
            next_action env (reset p) = some (Action.Event { type := EventType.Info }, p1, [])
              ∧ p1.planned_event = some { type := EventType.Info })
      ∧ (∀ ev : Event, p.planned_event = some ev →
          ∃ p1 : Planner, next_action env (reset p) = some (Action.Event ev, p1, [])
            ∧ p1.planned_event = some ev) := by
  have f := print_check_fields env (reset p)
  refine ⟨rfl, rfl, rfl, rfl, ?_, ?_⟩
  · intro hev
    exact poll_info_due env _ (f.2.2.1.trans hev) (f.1.trans rfl) (by rw [f.2.2.2.2.2.1]; rfl)
  · intro ev hev
    exact ⟨_, poll_pending env _ ev (f.2.2.1.trans hev) (f.1.trans rfl), f.2.2.1.trans hev⟩

theorem reset_then_next_action_witness :
    idle_planner.planned_event = none
      ∧ ∃ p1 : Planner,
          next_action (quiet_env 1500) (reset idle_planner)
              = some (Action.Event { type := EventType.Info }, p1, [])
            ∧ p1.planned_event = some { type := EventType.Info } :=
  ⟨rfl, (reset_then_next_action (quiet_env 1500) idle_planner).2.2.2.2.1 rfl⟩

/-- C8: `action_done(Ok)` and `action_done(Refused)` give the same state from every
starting state: `last_success = now`, no cooldown, `perform_cooldown` false,
`failed_attempts = 0` and no pending event; if an event was pending, `last_telemetry`
becomes unset and the info tracker is marked clean exactly when that event was an Info
event; if no event was pending, `last_telemetry = now` and the tracker is untouched. -/
theorem action_done_ok_refused (n : Timestamp) (p : Planner) :
    action_done n ActionResult.Refused p = action_done n ActionResult.Ok p
      ∧ (action_done n ActionResult.Ok p).last_success = some n
      ∧ (action_done n ActionResult.Ok p).cooldown = none
      ∧ (action_done n ActionResult.Ok p).perform_cooldown = false
      ∧ (action_done n ActionResult.Ok p).failed_attempts = 0
      ∧ (action_done n ActionResult.Ok p).planned_event = none
      ∧ (∀ ev : Event, p.planned_event = some ev →
          (action_done n ActionResult.Ok p).last_telemetry = none
            ∧ (action_done n ActionResult.Ok p).info_changes
                = if ev.type = EventType.Info then p.info_changes.mark_clean
                  else p.info_changes)
      ∧ (p.planned_event = none →
          (action_done n ActionResult.Ok p).last_telemetry = some n
            ∧ (action_done n ActionResult.Ok p).info_changes = p.info_changes) := by
  refine ⟨rfl, ?_⟩
  unfold action_done
  cases hev : p.planned_event with
  | none => simp
  | some ev =>
    by_cases hty : ev.type = EventType.Info <;> simp [hty]

theorem action_done_ok_refused_witness :
    (pending_planner.planned_event = some rejected_event
        ∧ (action_done 30 ActionResult.Ok pending_planner).last_telemetry = none
        ∧ (action_done 30 ActionResult.Ok pending_planner).info_changes
            = pending_planner.info_changes)
      ∧ (idle_planner.planned_event = none
        ∧ (action_done 30 ActionResult.Ok idle_planner).last_telemetry = some 30
        ∧ (action_done 30 ActionResult.Ok idle_planner).info_changes
            = idle_planner.info_changes) :=
  ⟨⟨rfl, (action_done_ok_refused 30 pending_planner).2.2.2.2.2.2.1 rejected_event rfl⟩,
    ⟨rfl, (action_done_ok_refused 30 idle_planner).2.2.2.2.2.2.2 rfl⟩⟩

/-- C9: when `next_action` reaches the telemetry step (no cooldown to perform, no pending
event, fingerprint unchanged, no reportable transfer change, no consumable file change), it
returns `SendTelemetry(false)` if `last_telemetry` is unset; otherwise, with
`elapsed = now - last_telemetry` and `interval` 1000 ms when the printer is printing or a
background command is active and 4000 ms otherwise, it returns `SendTelemetry(false)` when
`elapsed >= interval` and a Sleep of `interval - elapsed` ms, which is between 1 and
`interval`, when `elapsed < interval`. -/
theorem next_action_telemetry_step (env : Env) (p : Planner)
    (hcd : p.perform_cooldown = false) (hev : p.planned_event = none)
    (hfp : (p.info_changes.set_hash env.info_fingerprint).2 = false)
    (htr : env.transfer_id = p.observed_transfer ∨ p.observed_transfer = none
      ∨ ∃ t, p.observed_transfer = some t ∧ env.outcome t = none)
    (hcp : env.changed_path_status = none ∨ env.buffer_free = false) :
    ∃ (a : Action) (p1 : Planner),
      next_action env p = some (a, p1, [])
        ∧ (p.last_telemetry = none → a = Action.SendTelemetry false)
        ∧ (∀ t interval : Nat, p.last_telemetry = some t
            → interval = (if env.is_printing = true ∨ p.background_command.isSome = true
                then 1000 else 4000)
            → (interval ≤ sub32 env.now t → a = Action.SendTelemetry false)
              ∧ (sub32 env.now t < interval →
                  a = Action.Sleep (sleep p (interval - sub32 env.now t))
                    ∧ 1 ≤ interval - sub32 env.now t
                    ∧ interval - sub32 env.now t ≤ interval)) := by
  obtain ⟨p1, hn⟩ := next_action_reaches_telemetry env p hcd hev hfp htr hcp
  refine ⟨next_action_telemetry env p, p1, hn, ?_, ?_⟩
  · intro hl
    simp [next_action_telemetry, since, hl]
  · intro t interval hl hi
    have hi2 : (if (env.is_printing || p.background_command.isSome) = true
        then TELEMETRY_INTERVAL_SHORT else TELEMETRY_INTERVAL_LONG) = interval := by
      rw [hi]
      simp [TELEMETRY_INTERVAL_SHORT, TELEMETRY_INTERVAL_LONG]
    have hlt : interval < 2 ^ 32 := by
      rw [hi]; split <;> norm_num
    unfold next_action_telemetry
    simp only [since, hl, hi2]
    constructor
    · intro hge
      rw [if_pos hge]
    · intro hlt2
      rw [if_neg (not_le.mpr hlt2), sub32_small _ _ hlt2 hlt]
      exact ⟨rfl, by omega, by omega⟩

theorem next_action_telemetry_step_witness :
    (idle_planner.last_telemetry = some 1000 ∧ (quiet_env 6000).is_printing = false
        ∧ idle_planner.background_command = none ∧ sub32 6000 1000 = 5000)
      ∧ ∃ (a : Action) (p1 : Planner),
          next_action (quiet_env 6000) idle_planner = some (a, p1, [])
            ∧ a = Action.SendTelemetry false := by
  obtain ⟨a, p1, h, -, h2⟩ := next_action_telemetry_step (quiet_env 6000) idle_planner
    rfl rfl rfl (Or.inl rfl) (Or.inl rfl)
  exact ⟨⟨rfl, rfl, rfl, by decide⟩, a, p1, h, (h2 1000 4000 rfl (by decide)).1 (by decide)⟩

/-! ### `command` -/

/-- C10 (as stated, refuted): while the gcode of command 1 is processed in the background,
a PausePrint command with id 9 is answered by a Rejected event that carries no reason. -/
theorem command_while_busy_has_no_reason :
    command (quiet_env 0) busy_planner { id := 9, command_data := CommandData.PausePrint }
        = some ({ busy_planner with
                  planned_event := some { type := EventType.Rejected, command_id := some 9,
                                          reason := none } }, [])
      ∧ ¬ ∃ (p1 : Planner) (ev : Event) (cs : List Call),
          command (quiet_env 0) busy_planner { id := 9, command_data := CommandData.PausePrint }
              = some (p1, cs)
            ∧ p1.planned_event = some ev ∧ ev.reason = some "processing other command" := by
  have h : command (quiet_env 0) busy_planner { id := 9, command_data := CommandData.PausePrint }
      = some ({ busy_planner with
                planned_event := some { type := EventType.Rejected, command_id := some 9,
                                        reason := none } }, []) := by decide
  refine ⟨h, ?_⟩
  rintro ⟨p1, ev, cs, h1, h2, h3⟩
  rw [h] at h1
  simp only [Option.some.injEq, Prod.mk.injEq] at h1
  rw [← h1.1] at h2
  simp only [Option.some.injEq] at h2
  rw [← h2] at h3
  simp at h3

/-- C10 (amended): while a background command is active (and no event is pending, as
`command` asserts), `command(c)` never reaches the per-kind handlers: the planned event is
Accepted with `c.id` if `c` is ProcessingThisCommand and Rejected with `c.id` for every
other payload kind, in both cases without a reason; the active background command, the
download slot and every other part of the state are unchanged and no collaborator is
called. -/
theorem command_while_busy (env : Env) (p : Planner) (c : Command) (bg : BackgroundCommand)
    (hev : p.planned_event = none) (hbg : p.background_command = some bg) :
    ∃ p1 : Planner,
      command env p c = some (p1, [])
        ∧ (c.command_data = CommandData.ProcessingThisCommand →
            p1.planned_event = some { type := EventType.Accepted, command_id := some c.id })
        ∧ (c.command_data ≠ CommandData.ProcessingThisCommand →
            p1.planned_event = some { type := EventType.Rejected, command_id := some c.id })
        ∧ p1 = { p with planned_event := p1.planned_event }
        ∧ p1.background_command = some bg
        ∧ p1.download = p.download := by
  refine ⟨{ p with
            planned_event := some
              { type := if c.command_data = CommandData.ProcessingThisCommand then
                          EventType.Accepted
                        else EventType.Rejected,
                command_id := some c.id } }, ?_, ?_, ?_, rfl, hbg, rfl⟩
  · unfold command
    simp [hev, hbg]
  · intro h
    simp [h]
  · intro h
    simp [h]

theorem command_while_busy_witness :
    busy_planner.planned_event = none
      ∧ ∃ p1 : Planner,
          command (quiet_env 0) busy_planner
              { id := 4, command_data := CommandData.ProcessingThisCommand } = some (p1, [])
            ∧ p1.planned_event = some { type := EventType.Accepted, command_id := some 4 } := by
  obtain ⟨p1, h1, h2, -⟩ := command_while_busy (quiet_env 0) busy_planner
    { id := 4, command_data := CommandData.ProcessingThisCommand } _ rfl rfl
  exact ⟨rfl, p1, h1, h2 rfl⟩

/-! ### Downloads in progress -/

theorem download_done_retry (env : Env) (p : Planner) (rd : ResumableDownload)
    (hd : p.download = some rd) (hb : 0 < rd.allowed_retries) (hr : rd.need_retry = false) :
    download_done env p DownloadStep.FailedNetwork
      = some { p with
               download := some { rd with
                                  allowed_retries := rd.allowed_retries - 1
                                  need_retry := true } } := by
  unfold download_done
  simp [hd, hb, hr]

theorem download_done_drop (env : Env) (p : Planner) (rd : ResumableDownload)
    (step : DownloadStep) (id : TransferId) (hd : p.download = some rd)
    (hs : ¬ (step = DownloadStep.FailedNetwork ∧ 0 < rd.allowed_retries))
    (hid : env.transfer_id = some id) :
    download_done env p step = some { p with observed_transfer := some id, download := none } := by
  unfold download_done
  simp only [hd, gt_iff_lt, hid]
  rw [if_neg hs]

/-- C12: `download_done(step)` with an active download. If `step` is FailedNetwork and
`allowed_retries > 0` (and `need_retry` is not set, as the source asserts), the budget
decreases by exactly 1, `need_retry` becomes true and nothing else changes: the download stays
in place and `observed_transfer` and `planned_event` are unchanged. In every other case (and
with a current transfer, as the source asserts) the download slot is emptied,
`observed_transfer` becomes the current id of the transfer monitor and nothing else changes,
so `planned_event` is not modified either. -/
theorem download_done_accounting (env : Env) (p : Planner) (rd : ResumableDownload)
    (step : DownloadStep) (hd : p.download = some rd) :
    (step = DownloadStep.FailedNetwork → 0 < rd.allowed_retries → rd.need_retry = false →
        ∃ (p1 : Planner) (rd1 : ResumableDownload),
          download_done env p step = some p1
            ∧ p1 = { p with download := some rd1 }
            ∧ rd1 = { rd with allowed_retries := rd1.allowed_retries, need_retry := true }
            ∧ rd1.allowed_retries + 1 = rd.allowed_retries
            ∧ p1.observed_transfer = p.observed_transfer
            ∧ p1.planned_event = p.planned_event)
      ∧ (¬ (step = DownloadStep.FailedNetwork ∧ 0 < rd.allowed_retries) →
          ∀ id : TransferId, env.transfer_id = some id →
            ∃ p1 : Planner,
              download_done env p step = some p1
                ∧ p1 = { p with observed_transfer := env.transfer_id, download := none }
                ∧ p1.download = none
                ∧ p1.planned_event = p.planned_event) := by
  constructor
  · intro hs hb hr
    subst hs
    refine ⟨_, { rd with allowed_retries := rd.allowed_retries - 1, need_retry := true },
      download_done_retry env p rd hd hb hr, rfl, rfl, ?_, rfl, rfl⟩
    show rd.allowed_retries - 1 + 1 = rd.allowed_retries
    omega
  · intro hs id hid
    refine ⟨_, download_done_drop env p rd step id hd hs hid, ?_, rfl, rfl⟩
    rw [hid]

theorem download_done_accounting_witness :
    (∃ p1 : Planner,
        download_done tls_env (downloading_planner 2) DownloadStep.FailedNetwork = some p1
          ∧ p1.download
              = some { download := { handle := 1 }, allowed_retries := 1, need_retry := true })
      ∧ (∃ p1 : Planner,
          download_done tls_env (downloading_planner 0) DownloadStep.FailedNetwork = some p1
            ∧ p1.download = none) := by
  have h := download_done_accounting tls_env (downloading_planner 2)
    { download := { handle := 1 }, allowed_retries := 2 } DownloadStep.FailedNetwork rfl
  have h0 := download_done_accounting tls_env (downloading_planner 0)
    { download := { handle := 1 }, allowed_retries := 0 } DownloadStep.FailedNetwork rfl
  constructor
  · obtain ⟨p1, rd1, e1, e2, e3, e4, -⟩ := h.1 rfl (by decide) rfl
    refine ⟨p1, e1, ?_⟩
    have h1 : rd1.allowed_retries = 1 := by
      have : rd1.allowed_retries + 1 = 2 := e4
      omega
    rw [e2, e3, h1]
  · obtain ⟨p1, e1, -, e3, -⟩ := h0.2 (by decide) 1 rfl
    exact ⟨p1, e1, e3⟩

/-- What `download_done` leaves of an active download: either the same download with one
retry less and `need_retry` set, after a network failure, or nothing. -/
theorem download_done_alive (env : Env) (p p1 : Planner) (rd rd1 : ResumableDownload)
    (step : DownloadStep) (hd : p.download = some rd)
    (h : download_done env p step = some p1) (h1 : p1.download = some rd1) :
    step = DownloadStep.FailedNetwork ∧ rd1.allowed_retries + 1 = rd.allowed_retries
      ∧ rd1.need_retry = true := by
  unfold download_done at h
  simp only [hd, gt_iff_lt] at h
  split at h
  · rename_i hc
    split at h
    · exact absurd h (by simp)
    · simp only [Option.some.injEq] at h
      subst h
      simp only [Option.some.injEq] at h1
      subst h1
      refine ⟨hc.1, ?_, rfl⟩
      show rd.allowed_retries - 1 + 1 = rd.allowed_retries
      omega
  · split at h
    · exact absurd h (by simp)
    · simp only [Option.some.injEq] at h
      subst h
      exact absurd h1 (by simp)

theorem recover_download_eq (env : Env) (p : Planner) (rd : ResumableDownload)
    (hd : p.download = some rd) (hr : rd.need_retry = true) :
    recover_download env p
      = match env.recover_encrypted_connect_download
            (recover_request env { rd with need_retry := false }) with
        | RecoverResult.Continued =>
          some ({ p with download := some { rd with need_retry := false } },
                [Call.position rd.download, Call.config false,
                 Call.recover_encrypted_connect_download
                   (recover_request env { rd with need_retry := false })])
        | RecoverResult.FromStart =>
          some ({ p with download := some { rd with need_retry := false } },
                [Call.position rd.download, Call.config false,
                 Call.recover_encrypted_connect_download
                   (recover_request env { rd with need_retry := false })])
        | RecoverResult.Storage _ =>
          match download_done env { p with download := some { rd with need_retry := false } }
              DownloadStep.FailedOther with
          | some p2 =>
            some (p2, [Call.position rd.download, Call.config false,
                       Call.recover_encrypted_connect_download
                         (recover_request env { rd with need_retry := false })])
          | none => none
        | RecoverResult.RefusedRequest =>
          match download_done env { p with download := some { rd with need_retry := false } }
              DownloadStep.FailedNetwork with
          | some p2 =>
            some (p2, [Call.position rd.download, Call.config false,
                       Call.recover_encrypted_connect_download
                         (recover_request env { rd with need_retry := false })])
          | none => none := by
  unfold recover_download
  simp only [hd, hr, Bool.not_true, Bool.false_eq_true, if_false]

/-- C13: `recover_download`, called with an active download whose `need_retry` is set.
Continued or FromStart leaves the download in place with `need_retry = false` and the budget
unchanged; a Storage error empties the download slot whatever the budget is; RefusedRequest
gives exactly the state of `download_done(FailedNetwork)` applied after `need_retry` was
cleared: with budget > 0 one retry less and `need_retry` set again, with budget 0 the download
is dropped. (Where the download is dropped a transfer is current, as the source asserts.) -/
theorem recover_download_outcomes (env : Env) (p : Planner) (rd : ResumableDownload)
    (hd : p.download = some rd) (hr : rd.need_retry = true) :
    ((env.recover_encrypted_connect_download
          (recover_request env { rd with need_retry := false }) = RecoverResult.Continued
        ∨ env.recover_encrypted_connect_download
          (recover_request env { rd with need_retry := false }) = RecoverResult.FromStart) →
        ∃ cs : List Call,
          recover_download env p
            = some ({ p with download := some { rd with need_retry := false } }, cs))
      ∧ (∀ (msg : Option String) (id : TransferId),
          env.recover_encrypted_connect_download
            (recover_request env { rd with need_retry := false }) = RecoverResult.Storage msg →
          env.transfer_id = some id →
          ∃ (p1 : Planner) (cs : List Call),
            recover_download env p = some (p1, cs) ∧ p1.download = none)
      ∧ (env.recover_encrypted_connect_download
            (recover_request env { rd with need_retry := false })
            = RecoverResult.RefusedRequest →
          (match recover_download env p with
            | some (p1, _) => some p1
            | none => none)
            = download_done env { p with download := some { rd with need_retry := false } }
                DownloadStep.FailedNetwork
          ∧ (0 < rd.allowed_retries →
              ∃ (p1 : Planner) (cs : List Call) (rd1 : ResumableDownload),
                recover_download env p = some (p1, cs) ∧ p1.download = some rd1
                  ∧ rd1.allowed_retries + 1 = rd.allowed_retries ∧ rd1.need_retry = true)
          ∧ (rd.allowed_retries = 0 → ∀ id : TransferId, env.transfer_id = some id →
              ∃ (p1 : Planner) (cs : List Call),
                recover_download env p = some (p1, cs) ∧ p1.download = none)) := by
  have he := recover_download_eq env p rd hd hr
  refine ⟨?_, ?_, ?_⟩
  · rintro (h | h) <;> rw [h] at he <;> exact ⟨_, he⟩
  · intro msg id h hid
    rw [h] at he
    have hdrop := download_done_drop env
      { p with download := some { rd with need_retry := false } }
      { rd with need_retry := false } DownloadStep.FailedOther id rfl (by simp) hid
    simp only [hdrop] at he
    exact ⟨_, _, he, rfl⟩
  · intro h
    rw [h] at he
    simp only [] at he
    refine ⟨?_, ?_, ?_⟩
    · rw [he]
      cases download_done env { p with download := some { rd with need_retry := false } }
        DownloadStep.FailedNetwork <;> rfl
    · intro hb
      have hretry := download_done_retry env
        { p with download := some { rd with need_retry := false } }
        { rd with need_retry := false } rfl hb rfl
      simp only [hretry] at he
      refine ⟨_, _, _, he, rfl, ?_, rfl⟩
      show rd.allowed_retries - 1 + 1 = rd.allowed_retries
      omega
    · intro hb id hid
      have hdrop := download_done_drop env
        { p with download := some { rd with need_retry := false } }
        { rd with need_retry := false } DownloadStep.FailedNetwork id rfl
        (by simp [hb]) hid
      simp only [hdrop] at he
      exact ⟨_, _, he, rfl⟩


theorem download_done_needs_download (env : Env) (p p1 : Planner) (step : DownloadStep)
    (h : download_done env p step = some p1) : ∃ rd, p.download = some rd := by
  cases hd : p.download with
  | none => simp [download_done, hd] at h
  | some rd => exact ⟨rd, rfl⟩

theorem recover_download_needs_retry (env : Env) (p : Planner) (r : Planner × List Call)
    (h : recover_download env p = some r) :
    ∃ rd, p.download = some rd ∧ rd.need_retry = true := by
  cases hd : p.download with
  | none => simp [recover_download, hd] at h
  | some rd =>
    refine ⟨rd, rfl, ?_⟩
    cases hr : rd.need_retry with
    | true => rfl
    | false => simp [recover_download, hd, hr] at h

/-- One operation on the download: if the download is still there afterwards, its budget
went down by exactly one when the operation was a network failure and stayed the same
otherwise. -/
theorem download_op_alive (p p1 : Planner) (op : DownloadOp) (rd1 : ResumableDownload)
    (h : download_op p op = some p1) (h1 : p1.download = some rd1) :
    ∃ rd, p.download = some rd
      ∧ rd1.allowed_retries + (if is_network_failure p op = true then 1 else 0)
          = rd.allowed_retries := by
  cases op with
  | done env step =>
    simp only [download_op] at h
    obtain ⟨rd, hd⟩ := download_done_needs_download env p p1 step h
    obtain ⟨hs, hb, -⟩ := download_done_alive env p p1 rd rd1 step hd h h1
    refine ⟨rd, hd, ?_⟩
    simp only [is_network_failure, hs, decide_True, if_true]
    exact hb
  | recover env =>
    simp only [download_op] at h
    cases hrec : recover_download env p with
    | none => simp [hrec] at h
    | some r =>
      obtain ⟨rd, hd, hr⟩ := recover_download_needs_retry env p r hrec
      have he := recover_download_eq env p rd hd hr
      rw [hrec] at h he
      simp only [Option.some.injEq] at h
      refine ⟨rd, hd, ?_⟩
      simp only [is_network_failure, hd]
      cases hres : env.recover_encrypted_connect_download
          (recover_request env { rd with need_retry := false }) with
      | Continued =>
        rw [hres] at he
        simp only [Option.some.injEq] at he
        rw [he] at h
        simp only [] at h
        subst h
        simp only [Option.some.injEq] at h1
        subst h1
        simp
      | FromStart =>
        rw [hres] at he
        simp only [Option.some.injEq] at he
        rw [he] at h
        simp only [] at h
        subst h
        simp only [Option.some.injEq] at h1
        subst h1
        simp
      | Storage msg =>
        rw [hres] at he
        simp only [] at he
        cases hdd : download_done env { p with download := some { rd with need_retry := false } }
            DownloadStep.FailedOther with
        | none => simp [hdd] at he
        | some p2 =>
          simp only [hdd, Option.some.injEq] at he
          rw [he] at h
          simp only [] at h
          subst h
          have := download_done_alive env _ p2 { rd with need_retry := false } rd1
            DownloadStep.FailedOther rfl hdd h1
          exact absurd this.1 (by simp)
      | RefusedRequest =>
        rw [hres] at he
        simp only [] at he
        cases hdd : download_done env { p with download := some { rd with need_retry := false } }
            DownloadStep.FailedNetwork with
        | none => simp [hdd] at he
        | some p2 =>
          simp only [hdd, Option.some.injEq] at he
          rw [he] at h
          simp only [] at h
          subst h
          have := download_done_alive env _ p2 { rd with need_retry := false } rd1
            DownloadStep.FailedNetwork rfl hdd h1
          simpa using this.2.1

/-- A run of operations on the download: if the download is still there at the end, the
budget it has left plus the number of network failures of the run is the budget it started
with. -/
theorem download_run_alive (ops : List DownloadOp) (p p2 : Planner) (rd2 : ResumableDownload)
    (h : download_run ops p = some p2) (h2 : p2.download = some rd2) :
    ∃ rd, p.download = some rd
      ∧ rd2.allowed_retries + count_failures ops p = rd.allowed_retries := by
  induction ops generalizing p with
  | nil =>
    simp only [download_run, Option.some.injEq] at h
    subst h
    exact ⟨rd2, h2, rfl⟩
  | cons op rest ih =>
    simp only [download_run] at h
    cases hop : download_op p op with
    | none => simp [hop] at h
    | some p1 =>
      simp only [hop] at h
      obtain ⟨rd1, hd1, hc1⟩ := ih p1 h
      obtain ⟨rd, hd, hc⟩ := download_op_alive p p1 op rd1 hop hd1
      refine ⟨rd, hd, ?_⟩
      simp only [count_failures, hop]
      omega

theorem recover_download_outcomes_witness :
    ∃ (p1 : Planner) (cs : List Call) (rd1 : ResumableDownload),
      recover_download tls_env
          { idle_planner with
            download := some { download := { handle := 1 }, allowed_retries := 1,
                               need_retry := true } } = some (p1, cs)
        ∧ p1.download = some rd1 ∧ rd1.allowed_retries + 1 = 1 ∧ rd1.need_retry = true :=
  ((recover_download_outcomes tls_env
      { idle_planner with
        download := some { download := { handle := 1 }, allowed_retries := 1,
                           need_retry := true } }
      { download := { handle := 1 }, allowed_retries := 1, need_retry := true }
      rfl rfl).2.2 rfl).2.1 (by decide)

/-! ### Starting a download -/

theorem plain_path_fits (team : Nat) (hash : String) :
    (plain_path team hash).2.2 < (plain_path team hash).2.1 := by
  have hr : (Nat.repr (team % 2 ^ 64)).length ≤ 20 :=
    Nat.repr_length _ 20 (by norm_num) (lt_of_lt_of_le (Nat.mod_lt _ (by norm_num)) (by norm_num))
  simp only [plain_path, String.length_append]
  have h1 : ("/p/teams/" : String).length = 9 := by decide
  have h2 : ("/files/" : String).length = 7 := by decide
  have h3 : ("/raw" : String).length = 4 := by decide
  rw [h1, h2, h3]
  omega

theorem init_download_plain (env : Env) (config : Config) (d : StartConnectDownload)
    (team : Nat) (hash : String) (hd : d.details = DownloadDetails.Plain team hash) :
    init_download env config d
      = some { host := (host_and_port config d.port).1, port := (host_and_port config d.port).2,
               url_path := (plain_path team hash).1, destination := d.path,
               extra_hdrs := some [
                 { name := "Fingerprint", value := env.fingerprint,
                   size_limit := some env.fingerprint_hdr_size },
                 { name := "Token", value := config.token, size_limit := none }],
               decryptor := none } := by
  have h := plain_path_fits team hash
  unfold init_download
  simp only [hd]
  rw [if_pos h]

theorem init_download_encrypted (env : Env) (config : Config) (d : StartConnectDownload)
    (key iv : List Nat) (size : Nat) (hd : d.details = DownloadDetails.Encrypted key iv size) :
    init_download env config d
      = some { host := (host_and_port config d.port).1, port := (host_and_port config d.port).2,
               url_path := make_enc_url iv, destination := d.path, extra_hdrs := none,
               decryptor := some { key := key, iv := iv, orig_size := size } } := by
  unfold init_download
  simp only [hd]

theorem init_download_some (env : Env) (config : Config) (d : StartConnectDownload) :
    ∃ request, init_download env config d = some request := by
  cases hd : d.details with
  | Plain team hash => exact ⟨_, init_download_plain env config d team hash hd⟩
  | Encrypted key iv size => exact ⟨_, init_download_encrypted env config d key iv size hd⟩

theorem command_dispatch_eq (env : Env) (p : Planner) (c : Command)
    (hev : p.planned_event = none) (hbg : p.background_command = none) :
    command env p c = command_dispatch env p c := by
  unfold command
  simp [hev, hbg]

theorem start_download_changed (env : Env) (p : Planner) (id : CommandId)
    (d : StartConnectDownload) (config : Config) (hc : env.config = (config, true)) :
    command_start_download env p id d
      = some ({ p with planned_event := some (rejected id (some "Switching config")) },
              [Call.config false]) := by
  unfold command_start_download
  simp only [hc, if_true]

theorem start_download_tls_plain (env : Env) (p : Planner) (id : CommandId)
    (d : StartConnectDownload) (config : Config) (team : Nat) (hash : String)
    (hc : env.config = (config, false)) (htls : config.tls = true)
    (hd : d.details = DownloadDetails.Plain team hash) :
    command_start_download env p id d
      = some ({ p with
                planned_event := some (rejected id
                  (some "Requested a non-encrypted download from TLS connection")) },
              [Call.config false]) := by
  unfold command_start_download
  simp [hc, htls, hd]

theorem start_download_transport (env : Env) (p : Planner) (id : CommandId)
    (d : StartConnectDownload) (config : Config) (request : DownloadRequest)
    (hc : env.config = (config, false))
    (htls : config.tls = true →
      ∃ key iv size, d.details = DownloadDetails.Encrypted key iv size)
    (hreq : init_download env config d = some request) :
    command_start_download env p id d
      = match env.start_connect_download request with
        | DownloadResult.Download dl =>
          if p.download.isSome then none
          else
            some ({ p with
                    download := some
                      { download := dl, port := d.port, need_retry := false,
                        allowed_retries := (match d.details with
                          | DownloadDetails.Encrypted _ _ _ => 5
                          | DownloadDetails.Plain _ _ => 0),
                        orig_iv := (match d.details with
                          | DownloadDetails.Encrypted _ iv _ => some iv
                          | DownloadDetails.Plain _ _ => none),
                        orig_size := (match d.details with
                          | DownloadDetails.Encrypted _ _ size => some size
                          | DownloadDetails.Plain _ _ => none) }
                    planned_event := some { type := EventType.Finished, command_id := some id }
                    transfer_start_cmd := some id },
                  [Call.config false, Call.start_connect_download request])
        | DownloadResult.NoTransferSlot =>
          some ({ p with
                  planned_event := some (rejected id (some "Another transfer in progress")) },
                [Call.config false, Call.start_connect_download request])
        | DownloadResult.AlreadyExists =>
          some ({ p with planned_event := some (rejected id (some "File already exists")) },
                [Call.config false, Call.start_connect_download request])
        | DownloadResult.RefusedRequest =>
          some ({ p with planned_event := some (rejected id (some "Failed to download")) },
                [Call.config false, Call.start_connect_download request])
        | DownloadResult.Storage msg =>
          some ({ p with planned_event := some (rejected id msg) },
                [Call.config false, Call.start_connect_download request]) := by
  unfold command_start_download
  simp only [hc, Bool.false_eq_true, if_false]
  split
  · rename_i h
    cases ht : config.tls with
    | false => simp [ht] at h
    | true =>
      obtain ⟨key, iv, size, hd⟩ := htls ht
      simp [ht, hd] at h
  · simp only [hreq]
    cases env.start_connect_download request with
    | Download dl =>
      simp only []
      split
      · rfl
      · cases hd : d.details <;> simp [hd, MAX_DOWNLOAD_RETRIES]
    | NoTransferSlot => rfl
    | AlreadyExists => rfl
    | RefusedRequest => rfl
    | Storage msg => rfl

theorem command_start_download_eq (env : Env) (p : Planner) (id : CommandId)
    (d : StartConnectDownload) (hev : p.planned_event = none)
    (hbg : p.background_command = none) :
    command env p { id := id, command_data := CommandData.StartConnectDownload d }
      = command_start_download env p id d := by
  rw [command_dispatch_eq env p _ hev hbg]
  rfl

/-- The download stored by a StartDownload command that found the slot empty: the retry
budget is 5 for an Encrypted request and 0 for a Plain one, and `need_retry` is not set. -/
theorem started_download_budget (env : Env) (p p1 : Planner) (id : CommandId)
    (d : StartConnectDownload) (cs : List Call) (rd : ResumableDownload)
    (hno : p.download = none)
    (hcmd : command env p { id := id, command_data := CommandData.StartConnectDownload d }
      = some (p1, cs))
    (hrd : p1.download = some rd) :
    rd.need_retry = false
      ∧ ((∃ key iv size, d.details = DownloadDetails.Encrypted key iv size)
          → rd.allowed_retries = 5)
      ∧ ((∃ team hash, d.details = DownloadDetails.Plain team hash)
          → rd.allowed_retries = 0) := by
  have hkeep : ∀ ev : Option Event, ({ p with planned_event := ev } : Planner).download = none :=
    fun _ => hno
  unfold command at hcmd
  split at hcmd
  · exact absurd hcmd (by simp)
  split at hcmd
  · simp only [Option.some.injEq, Prod.mk.injEq] at hcmd
    rw [← hcmd.1, hkeep] at hrd
    exact absurd hrd (by simp)
  have hd : command_dispatch env p { id := id, command_data := CommandData.StartConnectDownload d }
      = command_start_download env p id d := rfl
  rw [hd] at hcmd
  cases hcfg : env.config with
  | mk config changed =>
    cases changed with
    | true =>
      rw [start_download_changed env p id d config hcfg] at hcmd
      simp only [Option.some.injEq, Prod.mk.injEq] at hcmd
      rw [← hcmd.1, hkeep] at hrd
      exact absurd hrd (by simp)
    | false =>
      by_cases htp :
          config.tls = true ∧ ∃ team hash, d.details = DownloadDetails.Plain team hash
      · obtain ⟨htls, team, hash, hdet⟩ := htp
        rw [start_download_tls_plain env p id d config team hash hcfg htls hdet] at hcmd
        simp only [Option.some.injEq, Prod.mk.injEq] at hcmd
        rw [← hcmd.1, hkeep] at hrd
        exact absurd hrd (by simp)
      · have htls : config.tls = true →
            ∃ key iv size, d.details = DownloadDetails.Encrypted key iv size := by
          intro ht
          cases hdet : d.details with
          | Plain team hash => exact absurd ⟨ht, team, hash, hdet⟩ htp
          | Encrypted key iv size => exact ⟨key, iv, size, rfl⟩
        obtain ⟨request, hreq⟩ := init_download_some env config d
        rw [start_download_transport env p id d config request hcfg htls hreq] at hcmd
        cases hres : env.start_connect_download request with
        | Download dl =>
          simp only [hres, hno, Option.isSome_none, Bool.false_eq_true, if_false,
            Option.some.injEq, Prod.mk.injEq] at hcmd
          rw [← hcmd.1] at hrd
          simp only [Option.some.injEq] at hrd
          rw [← hrd]
          refine ⟨rfl, ?_, ?_⟩
          · rintro ⟨key, iv, size, hdet⟩
            simp [hdet]
          · rintro ⟨team, hash, hdet⟩
            simp [hdet]
        | NoTransferSlot =>
          simp only [hres, Option.some.injEq, Prod.mk.injEq] at hcmd
          rw [← hcmd.1, hkeep] at hrd
          exact absurd hrd (by simp)
        | AlreadyExists =>
          simp only [hres, Option.some.injEq, Prod.mk.injEq] at hcmd
          rw [← hcmd.1, hkeep] at hrd
          exact absurd hrd (by simp)
        | RefusedRequest =>
          simp only [hres, Option.some.injEq, Prod.mk.injEq] at hcmd
          rw [← hcmd.1, hkeep] at hrd
          exact absurd hrd (by simp)
        | Storage msg =>
          simp only [hres, Option.some.injEq, Prod.mk.injEq] at hcmd
          rw [← hcmd.1, hkeep] at hrd
          exact absurd hrd (by simp)

/-- C14: the retry budget bounds the retries of one download. A StartDownload command that
finds the slot empty and stores a download gives it budget 5 for an Encrypted request and 0
for a Plain one. In every later run of `download_done` and `recover_download` calls, as long
as the download is alive its remaining budget plus the number of network failures so far
(`download_done(FailedNetwork)` called directly or through a refused `recover_download`) is
the initial budget, so the budget never underflows; hence at most 5 network failures keep an
Encrypted download alive and the 6th drops it, and the first one drops a Plain download:
once the failures have used up the budget, the next `download_done(FailedNetwork)` (with a
transfer current, as the source asserts) empties the slot. -/
theorem retry_budget_bounds_failures (env : Env) (p p1 : Planner) (id : CommandId)
    (d : StartConnectDownload) (cs : List Call) (rd : ResumableDownload)
    (hno : p.download = none)
    (hcmd : command env p { id := id, command_data := CommandData.StartConnectDownload d }
      = some (p1, cs))
    (hrd : p1.download = some rd) :
    ((∃ key iv size, d.details = DownloadDetails.Encrypted key iv size)
        → rd.allowed_retries = 5)
      ∧ ((∃ team hash, d.details = DownloadDetails.Plain team hash) → rd.allowed_retries = 0)
      ∧ ∀ (ops : List DownloadOp) (p2 : Planner), download_run ops p1 = some p2 →
          (∀ rd2 : ResumableDownload, p2.download = some rd2 →
              rd2.allowed_retries + count_failures ops p1 = rd.allowed_retries)
            ∧ ((∃ key iv size, d.details = DownloadDetails.Encrypted key iv size) →
                (p2.download.isSome = true → count_failures ops p1 ≤ 5)
                  ∧ (6 ≤ count_failures ops p1 → p2.download = none))
            ∧ ((∃ team hash, d.details = DownloadDetails.Plain team hash) →
                1 ≤ count_failures ops p1 → p2.download = none)
            ∧ (p2.download.isSome = true → rd.allowed_retries ≤ count_failures ops p1 →
                ∀ (env2 : Env) (id2 : TransferId), env2.transfer_id = some id2 →
                  ∃ p3 : Planner,
                    download_done env2 p2 DownloadStep.FailedNetwork = some p3
                      ∧ p3.download = none) := by
  obtain ⟨-, henc, hplain⟩ := started_download_budget env p p1 id d cs rd hno hcmd hrd
  refine ⟨henc, hplain, ?_⟩
  intro ops p2 hrun
  have hacc : ∀ rd2 : ResumableDownload, p2.download = some rd2 →
      rd2.allowed_retries + count_failures ops p1 = rd.allowed_retries := by
    intro rd2 h2
    obtain ⟨rd', hd', hc⟩ := download_run_alive ops p1 p2 rd2 hrun h2
    rw [hrd] at hd'
    simp only [Option.some.injEq] at hd'
    rw [hd']
    exact hc
  refine ⟨hacc, ?_, ?_, ?_⟩
  · intro he
    have h5 := henc he
    constructor
    · intro halive
      obtain ⟨rd2, h2⟩ := Option.isSome_iff_exists.mp halive
      have := hacc rd2 h2
      omega
    · intro h6
      cases h2 : p2.download with
      | none => rfl
      | some rd2 =>
        have := hacc rd2 h2
        omega
  · intro hp h1
    have h0 := hplain hp
    cases h2 : p2.download with
    | none => rfl
    | some rd2 =>
      have := hacc rd2 h2
      omega
  · intro halive hused env2 id2 hid
    obtain ⟨rd2, h2⟩ := Option.isSome_iff_exists.mp halive
    have h0 : rd2.allowed_retries = 0 := by
      have := hacc rd2 h2
      omega
    exact ⟨_, download_done_drop env2 p2 rd2 DownloadStep.FailedNetwork id2 h2
      (by simp [h0]) hid, rfl⟩

theorem retry_budget_bounds_failures_witness :
    idle_planner.download = none
      ∧ command tls_env idle_planner
          { id := 5, command_data := CommandData.StartConnectDownload encrypted_request }
          = some (started_planner,
                  [Call.config false,
                   Call.start_connect_download
                     { host := "connect.example", port := 80,
                       url_path := "/f/00112233445566778899aabbccddeeff/raw",
                       destination := "/usb/a.gcode", extra_hdrs := none,
                       decryptor := some
                         { key := [1, 2, 3, 4, 5, 6, 7, 8, 9, 10, 11, 12, 13, 14, 15, 16],
                           iv := [0, 17, 34, 51, 68, 85, 102, 119, 136, 153, 170, 187, 204,
                                  221, 238, 255],
                           orig_size := 1000 } }])
      ∧ download_run six_failures started_planner
          = some { started_planner with download := none, observed_transfer := some 1 }
      ∧ count_failures six_failures started_planner = 6
      ∧ (6 ≤ count_failures six_failures started_planner →
          ({ started_planner with download := none, observed_transfer := some 1 }
            : Planner).download = none) := by
  have hcmd : command tls_env idle_planner
      { id := 5, command_data := CommandData.StartConnectDownload encrypted_request }
      = some (started_planner,
              [Call.config false,
               Call.start_connect_download
                 { host := "connect.example", port := 80,
                   url_path := "/f/00112233445566778899aabbccddeeff/raw",
                   destination := "/usb/a.gcode", extra_hdrs := none,
                   decryptor := some
                     { key := [1, 2, 3, 4, 5, 6, 7, 8, 9, 10, 11, 12, 13, 14, 15, 16],
                       iv := [0, 17, 34, 51, 68, 85, 102, 119, 136, 153, 170, 187, 204,
                              221, 238, 255],
                       orig_size := 1000 } }]) := by decide
  have hrun : download_run six_failures started_planner
      = some { started_planner with download := none, observed_transfer := some 1 } := by
    decide
  have h := retry_budget_bounds_failures tls_env idle_planner started_planner 5
    encrypted_request _ _ rfl hcmd rfl
  exact ⟨rfl, hcmd, hrun, by decide, ((h.2.2 six_failures _ hrun).2.1 ⟨_, _, _, rfl⟩).2⟩

/-- C15: a StartDownload command with an Encrypted payload on a device whose configuration
has not changed (TLS-configured or not), when the transport hands out a download (and the
slot is empty, as the source asserts), plans a Finished event tagged with the command id,
stores the new download with `allowed_retries = 5`, `need_retry = false` and the iv, original
size and port override of the request, and sets `transfer_start_cmd` to the command id. -/
theorem start_encrypted_download_succeeds (env : Env) (p : Planner) (id : CommandId)
    (d : StartConnectDownload) (config : Config) (key iv : List Nat) (size : Nat)
    (dl : Download)
    (hev : p.planned_event = none) (hbg : p.background_command = none)
    (hno : p.download = none)
    (hdet : d.details = DownloadDetails.Encrypted key iv size)
    (hcfg : env.config = (config, false))
    (hok : env.start_connect_download
        { host := (host_and_port config d.port).1, port := (host_and_port config d.port).2,
          url_path := make_enc_url iv, destination := d.path, extra_hdrs := none,
          decryptor := some { key := key, iv := iv, orig_size := size } }
      = DownloadResult.Download dl) :
    command env p { id := id, command_data := CommandData.StartConnectDownload d }
      = some ({ p with
                download := some
                  { download := dl, port := d.port, allowed_retries := 5, need_retry := false,
                    orig_iv := some iv, orig_size := some size }
                planned_event := some { type := EventType.Finished, command_id := some id }
                transfer_start_cmd := some id },
              [Call.config false,
               Call.start_connect_download
                 { host := (host_and_port config d.port).1,
                   port := (host_and_port config d.port).2,
                   url_path := make_enc_url iv, destination := d.path, extra_hdrs := none,
                   decryptor := some { key := key, iv := iv, orig_size := size } }]) := by
  rw [command_start_download_eq env p id d hev hbg,
    start_download_transport env p id d config _ hcfg (fun _ => ⟨key, iv, size, hdet⟩)
      (init_download_encrypted env config d key iv size hdet)]
  simp [hok, hno, hdet]

theorem start_encrypted_download_succeeds_witness :
    command tls_env idle_planner
        { id := 5, command_data := CommandData.StartConnectDownload encrypted_request }
      = some (started_planner,
              [Call.config false,
               Call.start_connect_download
                 { host := "connect.example", port := 80,
                   url_path := make_enc_url
                     [0, 17, 34, 51, 68, 85, 102, 119, 136, 153, 170, 187, 204, 221, 238, 255],
                   destination := "/usb/a.gcode", extra_hdrs := none,
                   decryptor := some
                     { key := [1, 2, 3, 4, 5, 6, 7, 8, 9, 10, 11, 12, 13, 14, 15, 16],
                       iv := [0, 17, 34, 51, 68, 85, 102, 119, 136, 153, 170, 187, 204,
                              221, 238, 255],
                       orig_size := 1000 } }]) :=
  start_encrypted_download_succeeds tls_env idle_planner 5 encrypted_request
    { host := "connect.example", port := 443, tls := true, token := "t" }
    [1, 2, 3, 4, 5, 6, 7, 8, 9, 10, 11, 12, 13, 14, 15, 16]
    [0, 17, 34, 51, 68, 85, 102, 119, 136, 153, 170, 187, 204, 221, 238, 255] 1000
    { handle := 1 } rfl rfl rfl rfl rfl rfl

/-- C16 (as stated, refuted): a Plain StartDownload on the TLS-configured `tls_env` is
rejected with the reason "Requested a non-encrypted download from TLS connection", which is
not the string "non-encrypted download from TLS connection". -/
theorem plain_download_on_tls_reason :
    command tls_env idle_planner
        { id := 5, command_data := CommandData.StartConnectDownload plain_request }
        = some ({ idle_planner with
                  planned_event := some
                    { type := EventType.Rejected, command_id := some 5,
                      reason := some "Requested a non-encrypted download from TLS connection" } },
                [Call.config false])
      ∧ (some "Requested a non-encrypted download from TLS connection" : Option String)
          ≠ some "non-encrypted download from TLS connection" := by
  constructor <;> decide

/-- C16 (amended): a StartDownload command with a Plain payload on a TLS-configured device
whose configuration has not changed is Rejected with the command id and the reason
"Requested a non-encrypted download from TLS connection"; no download is attempted: the
only call is the reading of the configuration, the transport is not called, and the download
slot, `transfer_start_cmd` and the rest of the state are unchanged. -/
theorem plain_download_on_tls_rejected (env : Env) (p : Planner) (id : CommandId)
    (d : StartConnectDownload) (config : Config) (team : Nat) (hash : String)
    (hev : p.planned_event = none) (hbg : p.background_command = none)
    (hdet : d.details = DownloadDetails.Plain team hash)
    (hcfg : env.config = (config, false)) (htls : config.tls = true) :
    command env p { id := id, command_data := CommandData.StartConnectDownload d }
      = some ({ p with
                planned_event := some
                  { type := EventType.Rejected, command_id := some id,
                    reason := some "Requested a non-encrypted download from TLS connection" } },
              [Call.config false]) := by
  rw [command_start_download_eq env p id d hev hbg,
    start_download_tls_plain env p id d config team hash hcfg htls hdet]
  rfl

theorem plain_download_on_tls_rejected_witness :
    command tls_env idle_planner
        { id := 5, command_data := CommandData.StartConnectDownload plain_request }
      = some ({ idle_planner with
                planned_event := some
                  { type := EventType.Rejected, command_id := some 5,
                    reason := some "Requested a non-encrypted download from TLS connection" } },
              [Call.config false]) :=
  plain_download_on_tls_rejected tls_env idle_planner 5 plain_request
    { host := "connect.example", port := 443, tls := true, token := "t" } 42 "abcdef"
    rfl rfl rfl rfl rfl

/-- C17: if the printer reports that the configuration changed, every StartDownload command
(Plain or Encrypted, TLS or not) is Rejected with the command id before any download is
attempted: the only call is `config(false)`, which does not reset the changed flag, the
transport is never called, and the download slot, `transfer_start_cmd` and the rest of the
state are unchanged. -/
theorem download_rejected_when_config_changed (env : Env) (p : Planner) (id : CommandId)
    (d : StartConnectDownload) (config : Config)
    (hev : p.planned_event = none) (hbg : p.background_command = none)
    (hcfg : env.config = (config, true)) :
    ∃ (p1 : Planner) (ev : Event),
      command env p { id := id, command_data := CommandData.StartConnectDownload d }
          = some (p1, [Call.config false])
        ∧ p1 = { p with planned_event := some ev }
        ∧ ev.type = EventType.Rejected ∧ ev.command_id = some id
        ∧ ev.reason = some "Switching config"
        ∧ p1.download = p.download ∧ p1.transfer_start_cmd = p.transfer_start_cmd := by
  rw [command_start_download_eq env p id d hev hbg,
    start_download_changed env p id d config hcfg]
  exact ⟨_, _, rfl, rfl, rfl, rfl, rfl, rfl, rfl⟩

theorem download_rejected_when_config_changed_witness :
    ∃ (p1 : Planner) (ev : Event),
      command { tls_env with config := (tls_env.config.1, true) } idle_planner
          { id := 5, command_data := CommandData.StartConnectDownload encrypted_request }
          = some (p1, [Call.config false])
        ∧ p1 = { idle_planner with planned_event := some ev }
        ∧ ev.type = EventType.Rejected ∧ ev.command_id = some 5
        ∧ ev.reason = some "Switching config"
        ∧ p1.download = idle_planner.download
        ∧ p1.transfer_start_cmd = idle_planner.transfer_start_cmd :=
  download_rejected_when_config_changed { tls_env with config := (tls_env.config.1, true) }
    idle_planner 5 encrypted_request tls_env.config.1 rfl rfl rfl

/-- C18: for a StartDownload command that passes the configuration and TLS checks, the
request is handed to the transport, and every result other than a download yields a Rejected
event tagged with the command id and changes nothing else, so the download slot and
`transfer_start_cmd` are unchanged: no free transfer slot gives the reason "Another transfer
in progress", an existing target "File already exists", a refused request "Failed to
download", and a storage error the message supplied by the collaborator. -/
theorem download_transport_failures (env : Env) (p : Planner) (id : CommandId)
    (d : StartConnectDownload) (config : Config)
    (hev : p.planned_event = none) (hbg : p.background_command = none)
    (hcfg : env.config = (config, false))
    (htls : config.tls = true →
      ∃ key iv size, d.details = DownloadDetails.Encrypted key iv size) :
    ∃ request : DownloadRequest,
      init_download env config d = some request
        ∧ ((∀ dl, env.start_connect_download request ≠ DownloadResult.Download dl) →
            ∃ reason : Option String,
              command env p { id := id, command_data := CommandData.StartConnectDownload d }
                  = some ({ p with
                            planned_event := some
                              { type := EventType.Rejected, command_id := some id,
                                reason := reason } },
                          [Call.config false, Call.start_connect_download request])
                ∧ (env.start_connect_download request = DownloadResult.NoTransferSlot →
                    reason = some "Another transfer in progress")
                ∧ (env.start_connect_download request = DownloadResult.AlreadyExists →
                    reason = some "File already exists")
                ∧ (env.start_connect_download request = DownloadResult.RefusedRequest →
                    reason = some "Failed to download")
                ∧ (∀ msg, env.start_connect_download request = DownloadResult.Storage msg →
                    reason = msg)) := by
  obtain ⟨request, hreq⟩ := init_download_some env config d
  refine ⟨request, hreq, ?_⟩
  intro hfail
  rw [command_start_download_eq env p id d hev hbg,
    start_download_transport env p id d config request hcfg htls hreq]
  cases hres : env.start_connect_download request with
  | Download dl => exact absurd hres (hfail dl)
  | NoTransferSlot => exact ⟨_, rfl, by simp, by simp, by simp, by simp⟩
  | AlreadyExists => exact ⟨_, rfl, by simp, by simp, by simp, by simp⟩
  | RefusedRequest => exact ⟨_, rfl, by simp, by simp, by simp, by simp⟩
  | Storage msg =>
    refine ⟨msg, rfl, by simp, by simp, by simp, ?_⟩
    intro msg2 h
    simp only [DownloadResult.Storage.injEq] at h
    exact h

theorem download_transport_failures_witness :
    ∃ request : DownloadRequest,
      init_download
          { tls_env with start_connect_download := fun _ => DownloadResult.NoTransferSlot }
          tls_env.config.1 encrypted_request = some request
        ∧ ∃ reason : Option String,
            command
                { tls_env with start_connect_download := fun _ => DownloadResult.NoTransferSlot }
                idle_planner
                { id := 5, command_data := CommandData.StartConnectDownload encrypted_request }
              = some ({ idle_planner with
                        planned_event := some
                          { type := EventType.Rejected, command_id := some 5,
                            reason := reason } },
                      [Call.config false, Call.start_connect_download request])
              ∧ reason = some "Another transfer in progress" := by
  obtain ⟨request, hreq, h⟩ := download_transport_failures
    { tls_env with start_connect_download := fun _ => DownloadResult.NoTransferSlot }
    idle_planner 5 encrypted_request tls_env.config.1 rfl rfl rfl (fun _ => ⟨_, _, _, rfl⟩)
  obtain ⟨reason, hc, h1, -⟩ := h (fun dl => by simp)
  exact ⟨request, hreq, reason, hc, h1 rfl⟩

/-! ### Printing commands -/

theorem command_start_print_eq (env : Env) (p : Planner) (id : CommandId) (path : String)
    (hev : p.planned_event = none) (hbg : p.background_command = none) :
    command env p { id := id, command_data := CommandData.StartPrint path }
      = some (command_start_print env p id path) := by
  rw [command_dispatch_eq env p _ hev hbg]
  rfl

/-- C19: the StartPrint checks are applied in a fixed order and the first failing one
decides the reason. A path that is not allowed gives Rejected "Forbidden path" without any
call to the filesystem or the printer; an allowed path with no regular file gives Rejected
"File not found" after the `stat` only; a refusal of the printer gives Rejected "Can't print
now"; only when all three pass is the event Finished and `print_start_cmd` set to the
command id. On every rejection only `planned_event` changes, so `print_start_cmd` is
unchanged. -/
theorem start_print_checks (env : Env) (p : Planner) (id : CommandId) (path : String)
    (hev : p.planned_event = none) (hbg : p.background_command = none) :
    (path_allowed path = false →
        command env p { id := id, command_data := CommandData.StartPrint path }
          = some ({ p with
                    planned_event := some
                      { type := EventType.Rejected, command_id := some id,
                        reason := some "Forbidden path" } }, []))
      ∧ (path_allowed path = true → file_exists env path = false →
          command env p { id := id, command_data := CommandData.StartPrint path }
            = some ({ p with
                      planned_event := some
                        { type := EventType.Rejected, command_id := some id,
                          reason := some "File not found" } }, [Call.stat path]))
      ∧ (path_allowed path = true → file_exists env path = true →
          env.start_print path = false →
          command env p { id := id, command_data := CommandData.StartPrint path }
            = some ({ p with
                      planned_event := some
                        { type := EventType.Rejected, command_id := some id,
                          reason := some "Can't print now" } },
                    [Call.stat path, Call.start_print path]))
      ∧ (path_allowed path = true → file_exists env path = true →
          env.start_print path = true →
          command env p { id := id, command_data := CommandData.StartPrint path }
            = some ({ p with
                      print_start_cmd := some id
                      planned_event := some
                        { type := EventType.Finished, command_id := some id } },
                    [Call.stat path, Call.start_print path])) := by
  rw [command_start_print_eq env p id path hev hbg]
  unfold command_start_print
  refine ⟨?_, ?_, ?_, ?_⟩
  · intro h1
    simp [h1, rejected]
  · intro h1 h2
    simp [h1, h2, rejected]
  · intro h1 h2 h3
    simp [h1, h2, h3, rejected]
  · intro h1 h2 h3
    simp [h1, h2, h3]

theorem start_print_checks_witness :
    path_allowed "/usb/x.gcode" = true ∧ file_exists (quiet_env 0) "/usb/x.gcode" = false
      ∧ command (quiet_env 0) idle_planner
          { id := 3, command_data := CommandData.StartPrint "/usb/x.gcode" }
          = some ({ idle_planner with
                    planned_event := some
                      { type := EventType.Rejected, command_id := some 3,
                        reason := some "File not found" } }, [Call.stat "/usb/x.gcode"]) :=
  ⟨by decide, rfl,
    (start_print_checks (quiet_env 0) idle_planner 3 "/usb/x.gcode" rfl rfl).2.1
      (by decide) rfl⟩

theorem command_job_control_eq (env : Env) (p : Planner) (id : CommandId)
    (hev : p.planned_event = none) (hbg : p.background_command = none) :
    command env p { id := id, command_data := CommandData.PausePrint }
        = some (command_job_control env p id JobControl.Pause "No print to pause")
      ∧ command env p { id := id, command_data := CommandData.ResumePrint }
        = some (command_job_control env p id JobControl.Resume "No paused print to resume")
      ∧ command env p { id := id, command_data := CommandData.StopPrint }
        = some (command_job_control env p id JobControl.Stop "No print to stop") := by
  refine ⟨?_, ?_, ?_⟩ <;> rw [command_dispatch_eq env p _ hev hbg] <;> rfl

theorem job_control_result (env : Env) (p : Planner) (id : CommandId) (op : JobControl)
    (reason : String) :
    command_job_control env p id op reason
      = ({ p with
           planned_event := some
             (if env.job_control op = true then
                { type := EventType.Finished, command_id := some id }
              else
                { type := EventType.Rejected, command_id := some id, reason := some reason }) },
         [Call.job_control op]) := by
  unfold command_job_control
  split <;> rfl

/-- C20 (as stated, refuted): a ResumePrint command that the printer refuses is rejected
with the reason "No paused print to resume", which is not "No print to resume". -/
theorem resume_print_reason :
    command (quiet_env 0) idle_planner { id := 3, command_data := CommandData.ResumePrint }
        = some ({ idle_planner with
                  planned_event := some
                    { type := EventType.Rejected, command_id := some 3,
                      reason := some "No paused print to resume" } },
                [Call.job_control JobControl.Resume])
      ∧ (some "No paused print to resume" : Option String) ≠ some "No print to resume" := by
  constructor <;> decide

/-- C20 (amended): for each of PausePrint, ResumePrint and StopPrint, with no background
command active: the printer is asked once; if `job_control` succeeds the planned event is
Finished with the command id and no reason; if it fails the planned event is Rejected with
the command id and the reason "No print to pause", "No paused print to resume" and "No print
to stop" respectively. Nothing else in the state changes. -/
theorem job_control_commands (env : Env) (p : Planner) (id : CommandId)
    (hev : p.planned_event = none) (hbg : p.background_command = none) :
    command env p { id := id, command_data := CommandData.PausePrint }
        = some ({ p with
                  planned_event := some
                    (if env.job_control JobControl.Pause = true then
                       { type := EventType.Finished, command_id := some id, reason := none }
                     else
                       { type := EventType.Rejected, command_id := some id,
                         reason := some "No print to pause" }) },
                [Call.job_control JobControl.Pause])
      ∧ command env p { id := id, command_data := CommandData.ResumePrint }
        = some ({ p with
                  planned_event := some
                    (if env.job_control JobControl.Resume = true then
                       { type := EventType.Finished, command_id := some id, reason := none }
                     else
                       { type := EventType.Rejected, command_id := some id,
                         reason := some "No paused print to resume" }) },
                [Call.job_control JobControl.Resume])
      ∧ command env p { id := id, command_data := CommandData.StopPrint }
        = some ({ p with
                  planned_event := some
                    (if env.job_control JobControl.Stop = true then
                       { type := EventType.Finished, command_id := some id, reason := none }
                     else
                       { type := EventType.Rejected, command_id := some id,
                         reason := some "No print to stop" }) },
                [Call.job_control JobControl.Stop]) := by
  obtain ⟨h1, h2, h3⟩ := command_job_control_eq env p id hev hbg
  rw [h1, h2, h3, job_control_result, job_control_result, job_control_result]
  exact ⟨rfl, rfl, rfl⟩

theorem job_control_commands_witness :
    command { quiet_env 0 with job_control := fun _ => true } idle_planner
        { id := 3, command_data := CommandData.StopPrint }
      = some ({ idle_planner with
                planned_event := some { type := EventType.Finished, command_id := some 3 } },
              [Call.job_control JobControl.Stop]) :=
  (job_control_commands { quiet_env 0 with job_control := fun _ => true } idle_planner 3
    rfl rfl).2.2

/-! ### Every dispatch path plans an event -/

theorem start_print_plans (env : Env) (p : Planner) (id : CommandId) (path : String) :
    ∃ ev : Event, (command_start_print env p id path).1.planned_event = some ev
      ∧ ev.command_id = some id := by
  unfold command_start_print
  by_cases h1 : path_allowed path = true
  · by_cases h2 : file_exists env path = true
    · by_cases h3 : env.start_print path = true
      · simp [h1, h2, h3]
      · simp [h1, h2, h3, rejected]
    · simp [h1, h2, rejected]
  · simp [h1, rejected]

theorem delete_file_plans (env : Env) (p : Planner) (id : CommandId) (path : String) :
    ∃ ev : Event, (command_delete_file env p id path).1.planned_event = some ev
      ∧ ev.command_id = some id := by
  unfold command_delete_file
  by_cases h1 : path_allowed path = true
  · by_cases h2 : file_exists env path = true
    · cases h3 : delete_file env path <;> simp [h1, h2, h3, rejected]
    · simp [h1, h2, rejected]
  · simp [h1, rejected]

theorem delete_folder_plans (env : Env) (p : Planner) (id : CommandId) (path : String) :
    ∃ ev : Event, (command_delete_folder env p id path).1.planned_event = some ev
      ∧ ev.command_id = some id := by
  unfold command_delete_folder
  by_cases h1 : path_allowed path = true
  · by_cases h2 : dir_exists env path = true
    · cases h3 : delete_dir env path <;> simp [h1, h2, h3, rejected]
    · simp [h1, h2, rejected]
  · simp [h1, rejected]

theorem create_folder_plans (env : Env) (p : Planner) (id : CommandId) (path : String) :
    ∃ ev : Event, (command_create_folder env p id path).1.planned_event = some ev
      ∧ ev.command_id = some id := by
  unfold command_create_folder
  by_cases h1 : path_allowed path = true
  · cases h3 : make_dir env path <;> simp [h1, h3, rejected]
  · simp [h1, rejected]

theorem job_control_plans (env : Env) (p : Planner) (id : CommandId) (op : JobControl)
    (reason : String) :
    ∃ ev : Event, (command_job_control env p id op reason).1.planned_event = some ev
      ∧ ev.command_id = some id := by
  rw [job_control_result]
  refine ⟨_, rfl, ?_⟩
  split <;> rfl

theorem start_download_plans (env : Env) (p : Planner) (id : CommandId)
    (d : StartConnectDownload)
    (hslot : ∀ request dl, init_download env env.config.1 d = some request →
      env.start_connect_download request = DownloadResult.Download dl → p.download = none) :
    ∃ (p1 : Planner) (cs : List Call) (ev : Event),
      command_start_download env p id d = some (p1, cs)
        ∧ p1.planned_event = some ev ∧ ev.command_id = some id := by
  cases hcfg : env.config with
  | mk config changed =>
    rw [hcfg] at hslot
    cases changed with
    | true =>
      rw [start_download_changed env p id d config hcfg]
      exact ⟨_, _, _, rfl, rfl, rfl⟩
    | false =>
      by_cases htp :
          config.tls = true ∧ ∃ team hash, d.details = DownloadDetails.Plain team hash
      · obtain ⟨htls, team, hash, hdet⟩ := htp
        rw [start_download_tls_plain env p id d config team hash hcfg htls hdet]
        exact ⟨_, _, _, rfl, rfl, rfl⟩
      · have htls : config.tls = true →
            ∃ key iv size, d.details = DownloadDetails.Encrypted key iv size := by
          intro ht
          cases hdet : d.details with
          | Plain team hash => exact absurd ⟨ht, team, hash, hdet⟩ htp
          | Encrypted key iv size => exact ⟨key, iv, size, rfl⟩
        obtain ⟨request, hreq⟩ := init_download_some env config d
        rw [start_download_transport env p id d config request hcfg htls hreq]
        cases hres : env.start_connect_download request with
        | Download dl =>
          have hno := hslot request dl hreq hres
          simp only [hno, Option.isSome_none, Bool.false_eq_true, if_false]
          exact ⟨_, _, _, rfl, rfl, rfl⟩
        | NoTransferSlot => exact ⟨_, _, _, rfl, rfl, rfl⟩
        | AlreadyExists => exact ⟨_, _, _, rfl, rfl, rfl⟩
        | RefusedRequest => exact ⟨_, _, _, rfl, rfl, rfl⟩
        | Storage msg => exact ⟨_, _, _, rfl, rfl, rfl⟩

/-- C11: every dispatch path sets `planned_event`. With no pending event: while a
background command is active, `command(c)` plans an event with `command_id = c.id` for every
`c`, ProcessingThisCommand included; with no background command active it does so for every
`c` other than ProcessingThisCommand, under the two conditions the handlers assert: that
cancelling the ready state does not fail, and that the download slot is empty when the
transport hands out a download. -/
theorem every_dispatch_path_plans_event (env : Env) (p : Planner) (c : Command)
    (hev : p.planned_event = none) :
    (p.background_command.isSome = true →
        ∃ (p1 : Planner) (cs : List Call) (ev : Event),
          command env p c = some (p1, cs) ∧ p1.planned_event = some ev
            ∧ ev.command_id = some c.id)
      ∧ (p.background_command = none →
          c.command_data ≠ CommandData.ProcessingThisCommand →
          (c.command_data = CommandData.CancelPrinterReady → env.set_ready false = true) →
          (∀ d request dl, c.command_data = CommandData.StartConnectDownload d →
            init_download env env.config.1 d = some request →
            env.start_connect_download request = DownloadResult.Download dl →
            p.download = none) →
          ∃ (p1 : Planner) (cs : List Call) (ev : Event),
            command env p c = some (p1, cs) ∧ p1.planned_event = some ev
              ∧ ev.command_id = some c.id) := by
  constructor
  · intro hbg
    refine ⟨{ p with
              planned_event := some
                { type := if c.command_data = CommandData.ProcessingThisCommand then
                            EventType.Accepted
                          else EventType.Rejected,
                  command_id := some c.id } }, [], _, ?_, rfl, rfl⟩
    unfold command
    simp only [hev, hbg, Option.isSome_none, Bool.false_eq_true, if_false, if_true]
  · intro hbg hnot hready hslot
    rw [command_dispatch_eq env p c hev hbg]
    obtain ⟨id, data⟩ := c
    cases data with
    | UnknownCommand => exact ⟨_, _, _, rfl, rfl, rfl⟩
    | BrokenCommand reason => exact ⟨_, _, _, rfl, rfl, rfl⟩
    | GcodeTooLarge => exact ⟨_, _, _, rfl, rfl, rfl⟩
    | ProcessingOtherCommand => exact ⟨_, _, _, rfl, rfl, rfl⟩
    | ProcessingThisCommand => exact absurd rfl hnot
    | Gcode gcode size => exact ⟨_, _, _, rfl, rfl, rfl⟩
    | PausePrint =>
      obtain ⟨ev, h1, h2⟩ := job_control_plans env p id JobControl.Pause "No print to pause"
      exact ⟨_, _, ev, rfl, h1, h2⟩
    | ResumePrint =>
      obtain ⟨ev, h1, h2⟩ :=
        job_control_plans env p id JobControl.Resume "No paused print to resume"
      exact ⟨_, _, ev, rfl, h1, h2⟩
    | StopPrint =>
      obtain ⟨ev, h1, h2⟩ := job_control_plans env p id JobControl.Stop "No print to stop"
      exact ⟨_, _, ev, rfl, h1, h2⟩
    | StartPrint path =>
      obtain ⟨ev, h1, h2⟩ := start_print_plans env p id path
      exact ⟨_, _, ev, rfl, h1, h2⟩
    | SendInfo => exact ⟨_, _, _, rfl, rfl, rfl⟩
    | SendJobInfo job_id => exact ⟨_, _, _, rfl, rfl, rfl⟩
    | SendFileInfo path =>
      simp only [command_dispatch]
      split <;> exact ⟨_, _, _, rfl, rfl, rfl⟩
    | SendTransferInfo => exact ⟨_, _, _, rfl, rfl, rfl⟩
    | SetPrinterReady => exact ⟨_, _, _, rfl, rfl, rfl⟩
    | CancelPrinterReady =>
      simp only [command_dispatch, hready rfl, if_true]
      exact ⟨_, _, _, rfl, rfl, rfl⟩
    | StartConnectDownload d =>
      exact start_download_plans env p id d (fun request dl h1 h2 => hslot d request dl rfl h1 h2)
    | DeleteFile path =>
      obtain ⟨ev, h1, h2⟩ := delete_file_plans env p id path
      exact ⟨_, _, ev, rfl, h1, h2⟩
    | DeleteFolder path =>
      obtain ⟨ev, h1, h2⟩ := delete_folder_plans env p id path
      exact ⟨_, _, ev, rfl, h1, h2⟩
    | CreateFolder path =>
      obtain ⟨ev, h1, h2⟩ := create_folder_plans env p id path
      exact ⟨_, _, ev, rfl, h1, h2⟩
    | StopTransfer =>
      simp only [command_dispatch]
      split <;> exact ⟨_, _, _, rfl, rfl, rfl⟩

theorem every_dispatch_path_plans_event_witness :
    idle_planner.planned_event = none ∧ idle_planner.background_command = none
      ∧ ∃ (p1 : Planner) (cs : List Call) (ev : Event),
          command (quiet_env 0) idle_planner
              { id := 8, command_data := CommandData.DeleteFile "/usb/a.gcode" } = some (p1, cs)
            ∧ p1.planned_event = some ev ∧ ev.command_id = some 8 :=
  ⟨rfl, rfl,
    (every_dispatch_path_plans_event (quiet_env 0) idle_planner
      { id := 8, command_data := CommandData.DeleteFile "/usb/a.gcode" } rfl).2 rfl
      (by decide) (fun h => by simp at h) (fun d request dl h => by simp at h)⟩

/-! ### Background commands -/

/-- C21: a Gcode command with id `c` arriving when no background command is active (and no
event is pending, as `command` asserts) is Accepted: `planned_event` is Accepted tagged with
`c`, `background_command_id()` returns `c`, the stored background gcode has the buffer and
the size of the command with consumed offset 0, nothing else changes and no collaborator is
called. -/
theorem gcode_command_accepted (env : Env) (p : Planner) (c : CommandId) (gcode : List Nat)
    (size : Nat) (hev : p.planned_event = none) (hbg : p.background_command = none) :
    ∃ p1 : Planner,
      command env p { id := c, command_data := CommandData.Gcode gcode size } = some (p1, [])
        ∧ p1.planned_event = some { type := EventType.Accepted, command_id := some c }
        ∧ background_command_id p1 = some c
        ∧ p1.background_command
            = some { id := c
                     command := BackgroundCmd.gcode
                       { data := gcode, size := size, position := 0 } }
        ∧ p1 = { p with
                 background_command := p1.background_command
                 planned_event := p1.planned_event } := by
  rw [command_dispatch_eq env p _ hev hbg]
  exact ⟨_, rfl, rfl, rfl, rfl, rfl⟩

theorem gcode_command_accepted_witness :
    idle_planner.planned_event = none ∧ idle_planner.background_command = none
      ∧ ∃ p1 : Planner,
          command (quiet_env 0) idle_planner
              { id := 1, command_data := CommandData.Gcode [71, 50, 56] 3 } = some (p1, [])
            ∧ p1.planned_event = some { type := EventType.Accepted, command_id := some 1 }
            ∧ background_command_id p1 = some 1
            ∧ p1.background_command
                = some { id := 1
                         command := BackgroundCmd.gcode
                           { data := [71, 50, 56], size := 3, position := 0 } } := by
  obtain ⟨p1, h1, h2, h3, h4, -⟩ :=
    gcode_command_accepted (quiet_env 0) idle_planner 1 [71, 50, 56] 3 rfl rfl
  exact ⟨rfl, rfl, p1, h1, h2, h3, h4⟩

/-- C22: `background_done(result)`, called with an active background command of id `c` and
no pending event, plans an event tagged with command id `c`, of type Finished when `result`
is Success and Failed when it is Failure, without a reason, and empties the background slot,
so that `background_command_id()` returns nothing afterwards; nothing else changes. -/
theorem background_done_plans_event (p : Planner) (bg : BackgroundCommand)
    (result : BackgroundResult) (hev : p.planned_event = none)
    (hbg : p.background_command = some bg)
    (hres : result = BackgroundResult.Success ∨ result = BackgroundResult.Failure) :
    ∃ (p1 : Planner) (ev : Event),
      background_done p result = some p1
        ∧ p1 = { p with planned_event := some ev, background_command := none }
        ∧ ev.command_id = some bg.id
        ∧ (result = BackgroundResult.Success →
            ev = { type := EventType.Finished, command_id := some bg.id, reason := none })
        ∧ (result = BackgroundResult.Failure →
            ev = { type := EventType.Failed, command_id := some bg.id, reason := none })
        ∧ background_command_id p1 = none := by
  have hid : background_command_id p = some bg.id := by
    simp [background_command_id, hbg]
  refine ⟨_, { type := if result = BackgroundResult.Success then EventType.Finished
                       else EventType.Failed,
               command_id := some bg.id }, ?_, rfl, rfl, ?_, ?_, rfl⟩
  · unfold background_done
    rw [if_neg (not_not.mpr hres)]
    simp [hev, hbg, hid]
  · intro h
    simp [h]
  · intro h
    simp [h]

theorem background_done_plans_event_witness :
    busy_planner.planned_event = none
      ∧ ∃ (p1 : Planner) (ev : Event),
          background_done busy_planner BackgroundResult.Failure = some p1
            ∧ ev = { type := EventType.Failed, command_id := some 1, reason := none }
            ∧ p1.planned_event = some ev
            ∧ background_command_id p1 = none := by
  obtain ⟨p1, ev, h1, h2, -, -, h5, h6⟩ := background_done_plans_event busy_planner
    { id := 1
      command := BackgroundCmd.gcode { data := [71, 50, 56], size := 3, position := 0 } }
    BackgroundResult.Failure rfl rfl (Or.inr rfl)
  refine ⟨rfl, p1, ev, h1, h5 rfl, ?_, h6⟩
  rw [h2]

/-! ### The transfer and file-change steps of `next_action` -/

/-- When there is no cooldown to perform, no pending event and no Info event due,
`next_action` is the transfer step on a state that differs from the given one at most in
`print_start_cmd` and in the info tracker. -/
theorem next_action_reaches_transfer (env : Env) (p : Planner)
    (hcd : p.perform_cooldown = false) (hev : p.planned_event = none)
    (hfp : (p.info_changes.set_hash env.info_fingerprint).2 = false) :
    ∃ q : Planner,
      next_action env p = some (next_action_transfer env q)
        ∧ q.planned_event = none
        ∧ q.observed_transfer = p.observed_transfer
        ∧ q.transfer_start_cmd = p.transfer_start_cmd
        ∧ q.last_telemetry = p.last_telemetry
        ∧ q.background_command = p.background_command
        ∧ q.download = p.download := by
  have f := print_check_fields env p
  have h1 := poll_quiet env (next_action_print_check env p) (f.1.trans hcd) (f.2.2.1.trans hev)
    (by rw [f.2.2.2.2.2.1]; exact hfp)
  exact ⟨_, h1, f.2.2.1.trans hev, f.2.2.2.1, f.2.2.2.2.2.2.2.2, f.2.2.2.2.1,
    f.2.2.2.2.2.2.1, f.2.2.2.2.2.2.2.1⟩

theorem transfer_event (env : Env) (q : Planner) (t : TransferId) (o : Outcome)
    (hdiff : env.transfer_id ≠ q.observed_transfer)
    (hobs : q.observed_transfer = some t) (ho : env.outcome t = some o) :
    ∃ ev : Event,
      next_action_transfer env q
          = (Action.Event ev,
             { q with
               observed_transfer := env.transfer_id
               planned_event := some ev
               transfer_start_cmd := none }, [])
        ∧ ev.transfer_id = some t ∧ ev.start_cmd_id = q.transfer_start_cmd
        ∧ ev.command_id = none
        ∧ (o = Outcome.Finished → ev.type = EventType.TransferFinished)
        ∧ (o = Outcome.Error → ev.type = EventType.TransferAborted)
        ∧ (o = Outcome.Stopped → ev.type = EventType.TransferStopped) := by
  have hne : ¬ (some t = env.transfer_id) := by
    rw [← hobs]
    exact fun h => hdiff h.symm
  unfold next_action_transfer
  simp only [ne_eq, hobs, hne, not_false_eq_true, if_true, ho]
  cases o <;> exact ⟨_, rfl, rfl, rfl, rfl, by simp, by simp, by simp⟩

theorem changed_path_event (env : Env) (q : Planner) (st : ChangedPathStatus)
    (hst : env.changed_path_status = some st) (hfree : env.buffer_free = true) :
    next_action_changed_path env q
      = (Action.Event
           { type := if st.is_file = true ∧ st.what_happend = Incident.Created then
                       EventType.FileInfo
                     else EventType.FileChanged,
             path := some st.path, is_file := some st.is_file,
             incident := some st.what_happend },
         { q with
           planned_event := some
             { type := if st.is_file = true ∧ st.what_happend = Incident.Created then
                         EventType.FileInfo
                       else EventType.FileChanged,
               path := some st.path, is_file := some st.is_file,
               incident := some st.what_happend } },
         [Call.borrow, Call.consume_path]) := by
  unfold next_action_changed_path
  simp only [hst, hfree, if_true]
  by_cases h : st.is_file = true ∧ st.what_happend = Incident.Created
  · simp [h]
  · have h2 : (st.is_file && st.what_happend == Incident.Created) = false := by
      cases hf : st.is_file <;> cases hw : st.what_happend <;> simp_all
    simp [h, h2]

/-- What the file-change step plans, if anything, is a FileInfo or FileChanged event
without transfer id; the step does not touch `observed_transfer` and `transfer_start_cmd`. -/
theorem changed_path_fields (env : Env) (q : Planner) (hev : q.planned_event = none) :
    (next_action_changed_path env q).2.1.observed_transfer = q.observed_transfer
      ∧ (next_action_changed_path env q).2.1.transfer_start_cmd = q.transfer_start_cmd
      ∧ ∀ ev : Event, (next_action_changed_path env q).2.1.planned_event = some ev →
          (ev.type = EventType.FileInfo ∨ ev.type = EventType.FileChanged)
            ∧ ev.transfer_id = none := by
  cases hst : env.changed_path_status with
  | none =>
    rw [changed_path_none env q (Or.inl hst)]
    exact ⟨rfl, rfl, fun ev h => by simp [hev] at h⟩
  | some st =>
    cases hfree : env.buffer_free with
    | false =>
      rw [changed_path_none env q (Or.inr hfree)]
      exact ⟨rfl, rfl, fun ev h => by simp [hev] at h⟩
    | true =>
      rw [changed_path_event env q st hst hfree]
      refine ⟨rfl, rfl, ?_⟩
      intro ev h
      simp only [Option.some.injEq] at h
      subst h
      refine ⟨?_, rfl⟩
      simp only []
      split
      · exact Or.inl rfl
      · exact Or.inr rfl

/-- C23: when `next_action` reaches the transfer check (no cooldown to perform, no pending
event, no Info event due) and the current id of the transfer monitor differs from
`observed_transfer`, then `observed_transfer` becomes the current id. If the previous id
existed and has an outcome, the returned and planned event has type TransferFinished for
Finished, TransferAborted for Error and TransferStopped for Stopped, carries the previous id
and the value `transfer_start_cmd` had before the call, and `transfer_start_cmd` is cleared.
If there was no previous id, or it has no outcome, no transfer event is planned (what is
planned, if anything, is a file event of the next step) and `transfer_start_cmd` is
unchanged. -/
theorem next_action_transfer_check (env : Env) (p : Planner)
    (hcd : p.perform_cooldown = false) (hev : p.planned_event = none)
    (hfp : (p.info_changes.set_hash env.info_fingerprint).2 = false)
    (hdiff : env.transfer_id ≠ p.observed_transfer) :
    (∀ (t : TransferId) (o : Outcome), p.observed_transfer = some t → env.outcome t = some o →
        ∃ (ev : Event) (p1 : Planner),
          next_action env p = some (Action.Event ev, p1, [])
            ∧ p1.planned_event = some ev
            ∧ p1.observed_transfer = env.transfer_id
            ∧ p1.transfer_start_cmd = none
            ∧ ev.transfer_id = some t ∧ ev.start_cmd_id = p.transfer_start_cmd
            ∧ (o = Outcome.Finished → ev.type = EventType.TransferFinished)
            ∧ (o = Outcome.Error → ev.type = EventType.TransferAborted)
            ∧ (o = Outcome.Stopped → ev.type = EventType.TransferStopped))
      ∧ ((p.observed_transfer = none
            ∨ ∃ t, p.observed_transfer = some t ∧ env.outcome t = none) →
          ∃ (a : Action) (p1 : Planner) (cs : List Call),
            next_action env p = some (a, p1, cs)
              ∧ p1.observed_transfer = env.transfer_id
              ∧ p1.transfer_start_cmd = p.transfer_start_cmd
              ∧ ∀ ev : Event, p1.planned_event = some ev →
                  (ev.type = EventType.FileInfo ∨ ev.type = EventType.FileChanged)
                    ∧ ev.transfer_id = none) := by
  obtain ⟨q, hq, hqev, hqobs, hqst, -⟩ := next_action_reaches_transfer env p hcd hev hfp
  constructor
  · intro t o hobs ho
    obtain ⟨ev, h, h1, h2, -, h3, h4, h5⟩ := transfer_event env q t o
      (by rw [hqobs]; exact hdiff) (hqobs.trans hobs) ho
    rw [h] at hq
    exact ⟨ev, _, hq, rfl, rfl, rfl, h1, h2.trans hqst, h3, h4, h5⟩
  · intro hnone
    have htr : env.transfer_id = q.observed_transfer ∨ q.observed_transfer = none
        ∨ ∃ t, q.observed_transfer = some t ∧ env.outcome t = none := by
      rw [hqobs]
      exact Or.inr hnone
    rw [transfer_none env q htr] at hq
    obtain ⟨f1, f2, f3⟩ := changed_path_fields env
      { q with observed_transfer := env.transfer_id } hqev
    exact ⟨_, _, _, hq, f1, f2.trans hqst, f3⟩

theorem next_action_transfer_check_witness :
    ∃ (ev : Event) (p1 : Planner),
      next_action { quiet_env 0 with outcome := fun _ => some Outcome.Error }
          { idle_planner with observed_transfer := some 4, transfer_start_cmd := some 9 }
          = some (Action.Event ev, p1, [])
        ∧ p1.planned_event = some ev
        ∧ p1.observed_transfer = none
        ∧ p1.transfer_start_cmd = none
        ∧ ev.transfer_id = some 4 ∧ ev.start_cmd_id = some 9
        ∧ ev.type = EventType.TransferAborted := by
  obtain ⟨ev, p1, h1, h2, h3, h4, h5, h6, -, h8, -⟩ :=
    (next_action_transfer_check { quiet_env 0 with outcome := fun _ => some Outcome.Error }
      { idle_planner with observed_transfer := some 4, transfer_start_cmd := some 9 }
      rfl rfl rfl (by decide)).1 4 Outcome.Error rfl rfl
  exact ⟨ev, p1, h1, h2, h3, h4, h5, h6, h8 rfl⟩

/-- C24: when `next_action` reaches the file-change step (no cooldown to perform, no pending
event, no Info event due, no transfer event) with a pending change: if the scratch buffer can
be borrowed, the change is consumed and the planned and returned event has type FileInfo
exactly when the change is a file and its kind is Created, and FileChanged in every other
case; it carries the path, the is-file flag and the change kind of the change and no command
id. If the buffer cannot be borrowed, the change is not consumed, nothing is planned and
`next_action` returns what the telemetry step returns. -/
theorem next_action_file_change (env : Env) (p : Planner) (st : ChangedPathStatus)
    (hcd : p.perform_cooldown = false) (hev : p.planned_event = none)
    (hfp : (p.info_changes.set_hash env.info_fingerprint).2 = false)
    (htr : env.transfer_id = p.observed_transfer ∨ p.observed_transfer = none
      ∨ ∃ t, p.observed_transfer = some t ∧ env.outcome t = none)
    (hst : env.changed_path_status = some st) :
    (env.buffer_free = true →
        ∃ (ev : Event) (p1 : Planner),
          next_action env p = some (Action.Event ev, p1, [Call.borrow, Call.consume_path])
            ∧ p1.planned_event = some ev
            ∧ ev = { type := ev.type, path := some st.path, is_file := some st.is_file,
                     incident := some st.what_happend }
            ∧ ev.command_id = none
            ∧ (st.is_file = true ∧ st.what_happend = Incident.Created →
                ev.type = EventType.FileInfo)
            ∧ (¬ (st.is_file = true ∧ st.what_happend = Incident.Created) →
                ev.type = EventType.FileChanged))
      ∧ (env.buffer_free = false →
          ∃ p1 : Planner,
            next_action env p = some (next_action_telemetry env p, p1, [])
              ∧ p1.planned_event = none) := by
  obtain ⟨q, hq, hqev, hqobs, -, hqt, hqbg, hqd⟩ :=
    next_action_reaches_transfer env p hcd hev hfp
  have htr2 : env.transfer_id = q.observed_transfer ∨ q.observed_transfer = none
      ∨ ∃ t, q.observed_transfer = some t ∧ env.outcome t = none := by
    rw [hqobs]
    exact htr
  rw [transfer_none env q htr2] at hq
  constructor
  · intro hfree
    rw [changed_path_event env _ st hst hfree] at hq
    refine ⟨_, _, hq, rfl, rfl, rfl, ?_, ?_⟩
    · intro h
      simp [h]
    · intro h
      simp [h]
  · intro hfree
    rw [changed_path_none env _ (Or.inr hfree)] at hq
    rw [telemetry_congr env p { q with observed_transfer := env.transfer_id } hqt hqbg hqd
      (hqev.trans hev.symm)] at hq
    exact ⟨_, hq, hqev⟩

theorem next_action_file_change_witness :
    ∃ (ev : Event) (p1 : Planner),
      next_action
          { quiet_env 0 with
            changed_path_status := some
              { path := "/usb/new.gcode", is_file := true, what_happend := Incident.Created } }
          idle_planner
          = some (Action.Event ev, p1, [Call.borrow, Call.consume_path])
        ∧ p1.planned_event = some ev
        ∧ ev = { type := ev.type, path := some "/usb/new.gcode", is_file := some true,
                 incident := some Incident.Created }
        ∧ ev.type = EventType.FileInfo := by
  obtain ⟨ev, p1, h1, h2, h3, -, h5, -⟩ :=
    (next_action_file_change
      { quiet_env 0 with
        changed_path_status := some
          { path := "/usb/new.gcode", is_file := true, what_happend := Incident.Created } }
      idle_planner
      { path := "/usb/new.gcode", is_file := true, what_happend := Incident.Created }
      rfl rfl rfl (Or.inl rfl) rfl).1 rfl
  exact ⟨ev, p1, h1, h2, h3, h5 ⟨rfl, rfl⟩⟩

/-! ### The allowed-path check -/

theorem strstr_iff_infix (haystack needle : List Char) :
    strstr haystack needle = true ↔ needle <:+: haystack := by
  induction haystack with
  | nil => simp [strstr, List.isEmpty_iff]
  | cons c cs ih =>
    simp only [strstr, Bool.or_eq_true, List.isPrefixOf_iff_prefix, ih]
    exact List.infix_cons_iff.symm

/-- C26: the allowed-path check accepts a path exactly when it equals "/usb" or starts with
"/usb/", and does not contain the substring "/../"; "/usb" and "/usb/foo" are allowed,
"/usb/../etc", "/sd/foo" and "/usbfoo" are rejected. -/
theorem path_allowed_iff :
    (∀ path : String,
        path_allowed path = true ↔
          (path = "/usb" ∨ "/usb/".data <+: path.data) ∧ ¬ ("/../".data <:+: path.data))
      ∧ path_allowed "/usb" = true ∧ path_allowed "/usb/foo" = true
      ∧ path_allowed "/usb/../etc" = false ∧ path_allowed "/sd/foo" = false
      ∧ path_allowed "/usbfoo" = false := by
  refine ⟨?_, by decide, by decide, by decide, by decide, by decide⟩
  intro path
  unfold path_allowed
  simp only [Bool.and_eq_true, Bool.or_eq_true, List.isPrefixOf_iff_prefix, beq_iff_eq,
    Bool.not_eq_true', ← Bool.not_eq_true, strstr_iff_infix]
  constructor
  · rintro ⟨h1 | h1, h2⟩
    · exact ⟨Or.inr h1, h2⟩
    · exact ⟨Or.inl h1, h2⟩
  · rintro ⟨h1 | h1, h2⟩
    · exact ⟨Or.inr h1, h2⟩
    · exact ⟨Or.inl h1, h2⟩

/-! ### Wrap-around of the clock -/

theorem sub32_wrap (past d : Nat) (hd : d < 2 ^ 32) :
    sub32 ((past + d) % 2 ^ 32) past = d := by
  unfold sub32
  norm_num at hd ⊢
  omega

/-- C27: time comparisons are wrap-tolerant. For every timestamp `past` and
`now = (past + d) mod 2^32` with true elapsed time `d < 2^32`, `since(past)` is exactly `d`,
also when `now` is numerically smaller than `past`; the telemetry step of `next_action` and
the reconnect step of `action_done` are then given by `d` alone. -/
theorem since_wrap_tolerant (past d : Nat) (hd : d < 2 ^ 32) :
    since ((past + d) % 2 ^ 32) (some past) = some d
      ∧ (∀ (env : Env) (p : Planner) (interval : Nat),
          env.now = (past + d) % 2 ^ 32 → p.last_telemetry = some past →
          interval = (if env.is_printing = true ∨ p.background_command.isSome = true
            then 1000 else 4000) →
          next_action_telemetry env p
            = if interval ≤ d then Action.SendTelemetry false
              else Action.Sleep (sleep p (interval - d)))
      ∧ (∀ p : Planner, p.last_success = some past →
          action_done_reconnect ((past + d) % 2 ^ 32) p
            = if 10000 ≤ d ∧ p.planned_event.isSome = false then
                { p with planned_event := some { type := EventType.Info }, last_success := none }
              else p) := by
  have hs := sub32_wrap past d hd
  refine ⟨?_, ?_, ?_⟩
  · simp only [since, hs]
  · intro env p interval hnow hl hi
    have hi2 : (if (env.is_printing || p.background_command.isSome) = true
        then TELEMETRY_INTERVAL_SHORT else TELEMETRY_INTERVAL_LONG) = interval := by
      rw [hi]
      simp [TELEMETRY_INTERVAL_SHORT, TELEMETRY_INTERVAL_LONG]
    have hlt : interval < 2 ^ 32 := by
      rw [hi]; split <;> norm_num
    unfold next_action_telemetry
    simp only [since, hl, hnow, hs, hi2]
    by_cases hge : interval ≤ d
    · rw [if_pos hge, if_pos hge]
    · rw [if_neg hge, if_neg hge, sub32_small _ _ (not_le.mp hge) hlt]
  · intro p hl
    unfold action_done_reconnect
    simp only [since, hl, hs, Option.getD_some, RECONNECT_AFTER]

theorem since_wrap_tolerant_witness :
    (300 : Nat) < 2 ^ 32 ∧ (4294967196 + 300) % 2 ^ 32 = 200
      ∧ since ((4294967196 + 300) % 2 ^ 32) (some 4294967196) = some 300 :=
  ⟨by norm_num, by norm_num, (since_wrap_tolerant 4294967196 300 (by norm_num)).1⟩

/-! ### What a Sleep action carries -/

theorem telemetry_sleep (env : Env) (q : Planner) (s : Sleep)
    (h : next_action_telemetry env q = Action.Sleep s) : ∃ amount, s = sleep q amount := by
  unfold next_action_telemetry at h
  cases hs : since env.now q.last_telemetry with
  | none => simp [hs] at h
  | some d =>
    simp only [hs] at h
    generalize (if (env.is_printing || q.background_command.isSome) = true
      then TELEMETRY_INTERVAL_SHORT else TELEMETRY_INTERVAL_LONG) = iv at h
    by_cases hge : d ≥ iv
    · rw [if_pos hge] at h
      exact absurd h (by simp)
    · rw [if_neg hge] at h
      simp only [Action.Sleep.injEq] at h
      exact ⟨_, h.symm⟩

theorem changed_path_sleep (env : Env) (q p1 : Planner) (s : Sleep) (cs : List Call)
    (h : next_action_changed_path env q = (Action.Sleep s, p1, cs)) :
    ∃ amount, s = sleep p1 amount := by
  unfold next_action_changed_path at h
  split at h
  · split at h
    · simp at h
    · simp only [Prod.mk.injEq] at h
      rw [← h.2.1]
      exact telemetry_sleep env q s h.1
  · simp only [Prod.mk.injEq] at h
    rw [← h.2.1]
    exact telemetry_sleep env q s h.1

theorem transfer_sleep (env : Env) (q p1 : Planner) (s : Sleep) (cs : List Call)
    (h : next_action_transfer env q = (Action.Sleep s, p1, cs)) :
    ∃ amount, s = sleep p1 amount := by
  unfold next_action_transfer at h
  simp only [] at h
  split at h
  · split at h
    · split at h
      · simp at h
      · exact changed_path_sleep env _ p1 s cs h
    · exact changed_path_sleep env _ p1 s cs h
  · exact changed_path_sleep env _ p1 s cs h

theorem poll_sleep (env : Env) (q p1 : Planner) (s : Sleep) (cs : List Call)
    (h : next_action_poll env q = some (Action.Sleep s, p1, cs)) :
    ∃ amount, s = sleep p1 amount := by
  unfold next_action_poll at h
  split at h
  · simp only [] at h
    split at h
    · simp only [Option.some.injEq, Prod.mk.injEq, Action.Sleep.injEq] at h
      rw [← h.2.1]
      exact ⟨_, h.1.symm⟩
    · exact absurd h (by simp)
  · split at h
    · simp at h
    · simp only [] at h
      split at h
      · simp at h
      · simp only [Option.some.injEq] at h
        exact transfer_sleep env _ p1 s cs h

/-- C28: every Sleep action that `next_action` returns is built by `sleep` from the state
the call leaves, and a Sleep built by `sleep` carries the background command exactly when a
background command is active and no event is pending, carries the download exactly when a
download exists (also while an event is pending), and has the recover-download flag equal to
the `need_retry` of the download (false when there is no download). -/
theorem sleep_carries (p : Planner) (amount : Duration) :
    (sleep p amount).amount = amount
      ∧ (∀ bg : BackgroundCommand, p.background_command = some bg → p.planned_event = none →
          (sleep p amount).cmd = some bg.command)
      ∧ (p.background_command = none ∨ p.planned_event.isSome = true →
          (sleep p amount).cmd = none)
      ∧ (∀ rd : ResumableDownload, p.download = some rd →
          (sleep p amount).down = some rd.download
            ∧ (sleep p amount).recover_download = rd.need_retry)
      ∧ (p.download = none →
          (sleep p amount).down = none ∧ (sleep p amount).recover_download = false)
      ∧ (∀ (env : Env) (p0 : Planner) (s : Sleep) (cs : List Call),
          next_action env p0 = some (Action.Sleep s, p, cs) → ∃ a, s = sleep p a) := by
  refine ⟨rfl, ?_, ?_, ?_, ?_, ?_⟩
  · intro bg hbg hev
    simp [sleep, hbg, hev]
  · rintro (h | h)
    · simp [sleep, h]
    · cases hbg : p.background_command <;> simp [sleep, hbg, h]
  · intro rd hd
    simp [sleep, hd]
  · intro hd
    simp [sleep, hd]
  · intro env p0 s cs h
    exact poll_sleep env _ p s cs h

theorem sleep_carries_witness :
    busy_planner.planned_event = none
      ∧ (sleep busy_planner 250).cmd
          = some (BackgroundCmd.gcode { data := [71, 50, 56], size := 3, position := 0 })
      ∧ (sleep (downloading_planner 2) 250).down = some { handle := 1 }
      ∧ (sleep (downloading_planner 2) 250).recover_download = false :=
  ⟨rfl, (sleep_carries busy_planner 250).2.1 _ rfl rfl,
    ((sleep_carries (downloading_planner 2) 250).2.2.2.1 _ rfl).1,
    ((sleep_carries (downloading_planner 2) 250).2.2.2.1 _ rfl).2⟩

/-! ### What the operations leave alone -/

theorem changed_path_frame (env : Env) (q : Planner) :
    (next_action_changed_path env q).2.1.cooldown = q.cooldown
      ∧ (next_action_changed_path env q).2.1.perform_cooldown = q.perform_cooldown
      ∧ (next_action_changed_path env q).2.1.failed_attempts = q.failed_attempts
      ∧ (next_action_changed_path env q).2.1.print_start_cmd = q.print_start_cmd := by
  unfold next_action_changed_path
  split
  · split <;> exact ⟨rfl, rfl, rfl, rfl⟩
  · exact ⟨rfl, rfl, rfl, rfl⟩

theorem transfer_frame (env : Env) (q : Planner) :
    (next_action_transfer env q).2.1.cooldown = q.cooldown
      ∧ (next_action_transfer env q).2.1.perform_cooldown = q.perform_cooldown
      ∧ (next_action_transfer env q).2.1.failed_attempts = q.failed_attempts
      ∧ (next_action_transfer env q).2.1.print_start_cmd = q.print_start_cmd := by
  unfold next_action_transfer
  simp only []
  split
  · split
    · split
      · exact ⟨rfl, rfl, rfl, rfl⟩
      · exact changed_path_frame env _
    · exact changed_path_frame env _
  · exact changed_path_frame env _

theorem poll_frame (env : Env) (q p1 : Planner) (a : Action) (cs : List Call)
    (h : next_action_poll env q = some (a, p1, cs)) :
    p1.cooldown = q.cooldown
      ∧ (p1.perform_cooldown = true → q.perform_cooldown = true)
      ∧ p1.failed_attempts = q.failed_attempts
      ∧ p1.print_start_cmd = q.print_start_cmd := by
  unfold next_action_poll at h
  split at h
  · simp only [] at h
    split at h
    · simp only [Option.some.injEq, Prod.mk.injEq] at h
      rw [← h.2.1]
      exact ⟨rfl, fun hc => absurd hc (by simp), rfl, rfl⟩
    · exact absurd h (by simp)
  · split at h
    · simp only [Option.some.injEq, Prod.mk.injEq] at h
      rw [← h.2.1]
      exact ⟨rfl, id, rfl, rfl⟩
    · simp only [] at h
      split at h
      · simp only [Option.some.injEq, Prod.mk.injEq] at h
        rw [← h.2.1]
        exact ⟨rfl, id, rfl, rfl⟩
      · simp only [Option.some.injEq] at h
        have f := transfer_frame env
          { q with info_changes := (q.info_changes.set_hash env.info_fingerprint).1 }
        rw [h] at f
        exact ⟨f.1, fun hc => f.2.1 ▸ hc, f.2.2.1, f.2.2.2⟩

theorem next_action_frame (env : Env) (p p1 : Planner) (a : Action) (cs : List Call)
    (h : next_action env p = some (a, p1, cs)) :
    p1.cooldown = p.cooldown
      ∧ (p1.perform_cooldown = true → p.perform_cooldown = true)
      ∧ p1.failed_attempts = p.failed_attempts
      ∧ p1.print_start_cmd = if env.is_printing = true then p.print_start_cmd else none := by
  obtain ⟨h1, h2, h3, h4⟩ := poll_frame env _ p1 a cs h
  have f := print_check_fields env p
  refine ⟨h1.trans f.2.1, fun hc => f.1 ▸ h2 hc, ?_, ?_⟩
  · rw [h3]
    unfold next_action_print_check
    split <;> rfl
  · rw [h4]
    unfold next_action_print_check
    cases env.is_printing <;> rfl

theorem action_done_frame (n : Timestamp) (result : ActionResult) (p : Planner) :
    (action_done n result p).print_start_cmd = p.print_start_cmd := by
  cases result with
  | Failed =>
    rw [action_done_failed_eq]
    unfold action_done_backoff action_done_reconnect action_done_give_up
    simp only []
    split <;> split <;> (try split) <;> (try split) <;> rfl
  | Ok =>
    unfold action_done
    simp only []
    split
    · split <;> rfl
    · rfl
  | Refused =>
    unfold action_done
    simp only []
    split
    · split <;> rfl
    · rfl


theorem start_print_frame (env : Env) (p : Planner) (id : CommandId) (path : String) :
    (command_start_print env p id path).1.cooldown = p.cooldown
      ∧ (command_start_print env p id path).1.perform_cooldown = p.perform_cooldown
      ∧ (command_start_print env p id path).1.failed_attempts = p.failed_attempts := by
  unfold command_start_print
  by_cases h1 : path_allowed path = true
  · by_cases h2 : file_exists env path = true
    · by_cases h3 : env.start_print path = true
      · simp [h1, h2, h3]
      · simp [h1, h2, h3]
    · simp [h1, h2]
  · simp [h1]

theorem delete_file_frame (env : Env) (p : Planner) (id : CommandId) (path : String) :
    (command_delete_file env p id path).1.cooldown = p.cooldown
      ∧ (command_delete_file env p id path).1.perform_cooldown = p.perform_cooldown
      ∧ (command_delete_file env p id path).1.failed_attempts = p.failed_attempts
      ∧ (command_delete_file env p id path).1.print_start_cmd = p.print_start_cmd := by
  unfold command_delete_file
  by_cases h1 : path_allowed path = true
  · by_cases h2 : file_exists env path = true
    · cases h3 : delete_file env path <;> simp [h1, h2, h3]
    · simp [h1, h2]
  · simp [h1]

theorem delete_folder_frame (env : Env) (p : Planner) (id : CommandId) (path : String) :
    (command_delete_folder env p id path).1.cooldown = p.cooldown
      ∧ (command_delete_folder env p id path).1.perform_cooldown = p.perform_cooldown
      ∧ (command_delete_folder env p id path).1.failed_attempts = p.failed_attempts
      ∧ (command_delete_folder env p id path).1.print_start_cmd = p.print_start_cmd := by
  unfold command_delete_folder
  by_cases h1 : path_allowed path = true
  · by_cases h2 : dir_exists env path = true
    · cases h3 : delete_dir env path <;> simp [h1, h2, h3]
    · simp [h1, h2]
  · simp [h1]

theorem create_folder_frame (env : Env) (p : Planner) (id : CommandId) (path : String) :
    (command_create_folder env p id path).1.cooldown = p.cooldown
      ∧ (command_create_folder env p id path).1.perform_cooldown = p.perform_cooldown
      ∧ (command_create_folder env p id path).1.failed_attempts = p.failed_attempts
      ∧ (command_create_folder env p id path).1.print_start_cmd = p.print_start_cmd := by
  unfold command_create_folder
  by_cases h1 : path_allowed path = true
  · cases h3 : make_dir env path <;> simp [h1, h3]
  · simp [h1]

theorem start_download_frame (env : Env) (p p1 : Planner) (id : CommandId)
    (d : StartConnectDownload) (cs : List Call)
    (h : command_start_download env p id d = some (p1, cs)) :
    p1.cooldown = p.cooldown ∧ p1.perform_cooldown = p.perform_cooldown
      ∧ p1.failed_attempts = p.failed_attempts ∧ p1.print_start_cmd = p.print_start_cmd := by
  cases hcfg : env.config with
  | mk config changed =>
    cases changed with
    | true =>
      rw [start_download_changed env p id d config hcfg] at h
      simp only [Option.some.injEq, Prod.mk.injEq] at h
      rw [← h.1]
      exact ⟨rfl, rfl, rfl, rfl⟩
    | false =>
      by_cases htp :
          config.tls = true ∧ ∃ team hash, d.details = DownloadDetails.Plain team hash
      · obtain ⟨htls, team, hash, hdet⟩ := htp
        rw [start_download_tls_plain env p id d config team hash hcfg htls hdet] at h
        simp only [Option.some.injEq, Prod.mk.injEq] at h
        rw [← h.1]
        exact ⟨rfl, rfl, rfl, rfl⟩
      · have htls : config.tls = true →
            ∃ key iv size, d.details = DownloadDetails.Encrypted key iv size := by
          intro ht
          cases hdet : d.details with
          | Plain team hash => exact absurd ⟨ht, team, hash, hdet⟩ htp
          | Encrypted key iv size => exact ⟨key, iv, size, rfl⟩
        obtain ⟨request, hreq⟩ := init_download_some env config d
        rw [start_download_transport env p id d config request hcfg htls hreq] at h
        cases hres : env.start_connect_download request with
        | Download dl =>
          simp only [hres] at h
          split at h
          · exact absurd h (by simp)
          · simp only [Option.some.injEq, Prod.mk.injEq] at h
            rw [← h.1]
            exact ⟨rfl, rfl, rfl, rfl⟩
        | NoTransferSlot =>
          simp only [hres, Option.some.injEq, Prod.mk.injEq] at h
          rw [← h.1]
          exact ⟨rfl, rfl, rfl, rfl⟩
        | AlreadyExists =>
          simp only [hres, Option.some.injEq, Prod.mk.injEq] at h
          rw [← h.1]
          exact ⟨rfl, rfl, rfl, rfl⟩
        | RefusedRequest =>
          simp only [hres, Option.some.injEq, Prod.mk.injEq] at h
          rw [← h.1]
          exact ⟨rfl, rfl, rfl, rfl⟩
        | Storage msg =>
          simp only [hres, Option.some.injEq, Prod.mk.injEq] at h
          rw [← h.1]
          exact ⟨rfl, rfl, rfl, rfl⟩

/-- `command` leaves the back-off state and the counter of failed attempts alone, and only
a StartPrint command touches `print_start_cmd`. -/
theorem command_frame (env : Env) (p p1 : Planner) (c : Command) (cs : List Call)
    (h : command env p c = some (p1, cs)) :
    p1.cooldown = p.cooldown ∧ p1.perform_cooldown = p.perform_cooldown
      ∧ p1.failed_attempts = p.failed_attempts
      ∧ ((∀ path, c.command_data ≠ CommandData.StartPrint path) →
          p1.print_start_cmd = p.print_start_cmd) := by
  unfold command at h
  split at h
  · exact absurd h (by simp)
  split at h
  · simp only [Option.some.injEq, Prod.mk.injEq] at h
    rw [← h.1]
    exact ⟨rfl, rfl, rfl, fun _ => rfl⟩
  obtain ⟨id, data⟩ := c
  cases data with
  | StartPrint path =>
    simp only [command_dispatch, Option.some.injEq] at h
    have f := start_print_frame env p id path
    rw [h] at f
    exact ⟨f.1, f.2.1, f.2.2, fun hn => absurd rfl (hn path)⟩
  | StartConnectDownload d =>
    have f := start_download_frame env p p1 id d cs h
    exact ⟨f.1, f.2.1, f.2.2.1, fun _ => f.2.2.2⟩
  | DeleteFile path =>
    simp only [command_dispatch, Option.some.injEq] at h
    have f := delete_file_frame env p id path
    rw [h] at f
    exact ⟨f.1, f.2.1, f.2.2.1, fun _ => f.2.2.2⟩
  | DeleteFolder path =>
    simp only [command_dispatch, Option.some.injEq] at h
    have f := delete_folder_frame env p id path
    rw [h] at f
    exact ⟨f.1, f.2.1, f.2.2.1, fun _ => f.2.2.2⟩
  | CreateFolder path =>
    simp only [command_dispatch, Option.some.injEq] at h
    have f := create_folder_frame env p id path
    rw [h] at f
    exact ⟨f.1, f.2.1, f.2.2.1, fun _ => f.2.2.2⟩
  | PausePrint =>
    simp only [command_dispatch, job_control_result, Option.some.injEq, Prod.mk.injEq] at h
    rw [← h.1]
    exact ⟨rfl, rfl, rfl, fun _ => rfl⟩
  | ResumePrint =>
    simp only [command_dispatch, job_control_result, Option.some.injEq, Prod.mk.injEq] at h
    rw [← h.1]
    exact ⟨rfl, rfl, rfl, fun _ => rfl⟩
  | StopPrint =>
    simp only [command_dispatch, job_control_result, Option.some.injEq, Prod.mk.injEq] at h
    rw [← h.1]
    exact ⟨rfl, rfl, rfl, fun _ => rfl⟩
  | ProcessingThisCommand => simp [command_dispatch] at h
  | SendFileInfo path =>
    simp only [command_dispatch] at h
    split at h <;>
    · simp only [Option.some.injEq, Prod.mk.injEq] at h
      rw [← h.1]
      exact ⟨rfl, rfl, rfl, fun _ => rfl⟩
  | CancelPrinterReady =>
    simp only [command_dispatch] at h
    split at h
    · simp only [Option.some.injEq, Prod.mk.injEq] at h
      rw [← h.1]
      exact ⟨rfl, rfl, rfl, fun _ => rfl⟩
    · exact absurd h (by simp)
  | StopTransfer =>
    simp only [command_dispatch] at h
    split at h <;>
    · simp only [Option.some.injEq, Prod.mk.injEq] at h
      rw [← h.1]
      exact ⟨rfl, rfl, rfl, fun _ => rfl⟩
  | _ =>
    simp only [command_dispatch, Option.some.injEq, Prod.mk.injEq] at h
    rw [← h.1]
    exact ⟨rfl, rfl, rfl, fun _ => rfl⟩

theorem background_done_frame (p p1 : Planner) (result : BackgroundResult)
    (h : background_done p result = some p1) :
    p1.cooldown = p.cooldown ∧ p1.perform_cooldown = p.perform_cooldown
      ∧ p1.failed_attempts = p.failed_attempts ∧ p1.print_start_cmd = p.print_start_cmd := by
  unfold background_done at h
  split at h
  · exact absurd h (by simp)
  split at h
  · exact absurd h (by simp)
  split at h
  · exact absurd h (by simp)
  simp only [Option.some.injEq] at h
  rw [← h]
  exact ⟨rfl, rfl, rfl, rfl⟩

theorem download_done_frame (env : Env) (p p1 : Planner) (step : DownloadStep)
    (h : download_done env p step = some p1) :
    p1.cooldown = p.cooldown ∧ p1.perform_cooldown = p.perform_cooldown
      ∧ p1.failed_attempts = p.failed_attempts ∧ p1.print_start_cmd = p.print_start_cmd := by
  unfold download_done at h
  split at h
  · exact absurd h (by simp)
  split at h
  · split at h
    · exact absurd h (by simp)
    · simp only [Option.some.injEq] at h
      rw [← h]
      exact ⟨rfl, rfl, rfl, rfl⟩
  · split at h
    · exact absurd h (by simp)
    · simp only [Option.some.injEq] at h
      rw [← h]
      exact ⟨rfl, rfl, rfl, rfl⟩

theorem recover_download_frame (env : Env) (p p1 : Planner) (cs : List Call)
    (h : recover_download env p = some (p1, cs)) :
    p1.cooldown = p.cooldown ∧ p1.perform_cooldown = p.perform_cooldown
      ∧ p1.failed_attempts = p.failed_attempts ∧ p1.print_start_cmd = p.print_start_cmd := by
  obtain ⟨rd, hd, hr⟩ := recover_download_needs_retry env p (p1, cs) h
  rw [recover_download_eq env p rd hd hr] at h
  split at h
  · simp only [Option.some.injEq, Prod.mk.injEq] at h
    rw [← h.1]
    exact ⟨rfl, rfl, rfl, rfl⟩
  · simp only [Option.some.injEq, Prod.mk.injEq] at h
    rw [← h.1]
    exact ⟨rfl, rfl, rfl, rfl⟩
  · split at h
    · rename_i p2 hdd
      simp only [Option.some.injEq, Prod.mk.injEq] at h
      rw [← h.1]
      have f := download_done_frame env _ p2 _ hdd
      exact f
    · exact absurd h (by simp)
  · split at h
    · rename_i p2 hdd
      simp only [Option.some.injEq, Prod.mk.injEq] at h
      rw [← h.1]
      have f := download_done_frame env _ p2 _ hdd
      exact f
    · exact absurd h (by simp)

/-! ### The assertion on the cooldown -/

theorem action_done_ok_perform (n : Timestamp) (p : Planner) :
    (action_done n ActionResult.Ok p).perform_cooldown = false
      ∧ (action_done n ActionResult.Refused p).perform_cooldown = false := by
  unfold action_done
  simp only []
  constructor <;> split <;> (try split) <;> rfl

theorem planner_op_frame (p p1 : Planner) (op : PlannerOp)
    (h : planner_op p op = some p1)
    (hinv : p.perform_cooldown = true → p.cooldown.isSome = true) :
    p1.perform_cooldown = true → p1.cooldown.isSome = true := by
  cases op with
  | reset =>
    simp only [planner_op, Option.some.injEq] at h
    rw [← h]
    intro hc
    exact absurd hc (by simp [reset])
  | next_action env =>
    simp only [planner_op] at h
    cases hn : next_action env p with
    | none => simp [hn] at h
    | some r =>
      obtain ⟨a, p2, cs⟩ := r
      simp only [hn, Option.some.injEq] at h
      subst h
      obtain ⟨f1, f2, -⟩ := next_action_frame env p p2 a cs hn
      intro hc
      rw [f1]
      exact hinv (f2 hc)
  | action_done n result =>
    simp only [planner_op, Option.some.injEq] at h
    rw [← h]
    cases result with
    | Failed =>
      intro _
      rw [action_done_failed_cooldown]
      rfl
    | Ok =>
      intro hc
      have := (action_done_ok_perform n p).1
      rw [this] at hc
      exact absurd hc (by simp)
    | Refused =>
      intro hc
      have := (action_done_ok_perform n p).2
      rw [this] at hc
      exact absurd hc (by simp)
  | command env c =>
    simp only [planner_op] at h
    cases hn : command env p c with
    | none => simp [hn] at h
    | some r =>
      obtain ⟨p2, cs⟩ := r
      simp only [hn, Option.some.injEq] at h
      subst h
      obtain ⟨f1, f2, -⟩ := command_frame env p p2 c cs hn
      rw [f1, f2]
      exact hinv
  | background_done result =>
    obtain ⟨f1, f2, -⟩ := background_done_frame p p1 result h
    rw [f1, f2]
    exact hinv
  | download_done env step =>
    obtain ⟨f1, f2, -⟩ := download_done_frame env p p1 step h
    rw [f1, f2]
    exact hinv
  | recover_download env =>
    simp only [planner_op] at h
    cases hn : recover_download env p with
    | none => simp [hn] at h
    | some r =>
      obtain ⟨p2, cs⟩ := r
      simp only [hn, Option.some.injEq] at h
      subst h
      obtain ⟨f1, f2, -⟩ := recover_download_frame env p p2 cs hn
      rw [f1, f2]
      exact hinv

theorem planner_run_frame (ops : List PlannerOp) (p p1 : Planner)
    (h : planner_run ops p = some p1)
    (hinv : p.perform_cooldown = true → p.cooldown.isSome = true) :
    p1.perform_cooldown = true → p1.cooldown.isSome = true := by
  induction ops generalizing p with
  | nil =>
    simp only [planner_run, Option.some.injEq] at h
    rw [← h]
    exact hinv
  | cons op rest ih =>
    simp only [planner_run] at h
    cases hop : planner_op p op with
    | none => simp [hop] at h
    | some p2 =>
      simp only [hop] at h
      exact ih p2 h (planner_op_frame p p2 op hop hinv)

theorem next_action_returns (env : Env) (p : Planner)
    (hinv : p.perform_cooldown = true → p.cooldown.isSome = true) :
    (next_action env p).isSome = true := by
  have f := print_check_fields env p
  unfold next_action next_action_poll
  cases hc : p.perform_cooldown with
  | true =>
    obtain ⟨d, hd⟩ := Option.isSome_iff_exists.mp (hinv hc)
    simp [f.1, f.2.1, hc, hd]
  | false =>
    simp only [f.1, hc, Bool.false_eq_true, if_false]
    split
    · rfl
    · split <;> rfl

/-- C30: in every state that a sequence of `reset`, `next_action`, `action_done`, `command`,
`background_done`, `download_done` and `recover_download` calls reaches from a freshly
constructed planner, `perform_cooldown` being set implies that `cooldown` has a value, so that
the assertion on `cooldown` in `next_action` does not fail: `next_action` returns. -/
theorem cooldown_assertion_holds (ops : List PlannerOp) (p : Planner)
    (h : planner_run ops fresh_planner = some p) :
    (p.perform_cooldown = true → p.cooldown.isSome = true)
      ∧ ∀ env : Env, (next_action env p).isSome = true := by
  have hinv := planner_run_frame ops fresh_planner p h (fun hc => absurd hc (by decide))
  exact ⟨hinv, fun env => next_action_returns env p hinv⟩

theorem cooldown_assertion_holds_witness :
    planner_run [PlannerOp.next_action (quiet_env 0),
        PlannerOp.action_done 0 ActionResult.Failed] fresh_planner
        = some { fresh_planner with
                 planned_event := some { type := EventType.Info }
                 failed_attempts := 1, cooldown := some 100, perform_cooldown := true }
      ∧ (next_action (quiet_env 0)
          { fresh_planner with
            planned_event := some { type := EventType.Info }
            failed_attempts := 1, cooldown := some 100, perform_cooldown := true }).isSome
          = true := by
  have h : planner_run [PlannerOp.next_action (quiet_env 0),
      PlannerOp.action_done 0 ActionResult.Failed] fresh_planner
      = some { fresh_planner with
               planned_event := some { type := EventType.Info }
               failed_attempts := 1, cooldown := some 100, perform_cooldown := true } := by
    decide
  exact ⟨h, (cooldown_assertion_holds _ _ h).2 (quiet_env 0)⟩

/-! ### Job correlation -/

theorem start_print_finished (env : Env) (p p1 : Planner) (c : CommandId) (path : String)
    (cs : List Call)
    (h : command env p { id := c, command_data := CommandData.StartPrint path } = some (p1, cs))
    (hfin : p1.planned_event = some { type := EventType.Finished, command_id := some c }) :
    p1.print_start_cmd = some c := by
  unfold command at h
  split at h
  · exact absurd h (by simp)
  split at h
  · simp only [Option.some.injEq, Prod.mk.injEq] at h
    rw [← h.1] at hfin
    simp at hfin
  simp only [command_dispatch, Option.some.injEq] at h
  unfold command_start_print at h
  by_cases h1 : path_allowed path = true
  · by_cases h2 : file_exists env path = true
    · by_cases h3 : env.start_print path = true
      · simp [h1, h2, h3] at h
        rw [← h.1]
      · simp [h1, h2, h3] at h
        rw [← h.1] at hfin
        simp [rejected] at hfin
    · simp [h1, h2] at h
      rw [← h.1] at hfin
      simp [rejected] at hfin
  · simp [h1] at h
    rw [← h.1] at hfin
    simp [rejected] at hfin

theorem not_start_print (env : Env) (c : Command)
    (h : is_start_print (PlannerOp.command env c) = false) :
    ∀ path, c.command_data ≠ CommandData.StartPrint path := by
  intro path hc
  simp [is_start_print, hc] at h

theorem planner_op_print_start (p p1 : Planner) (op : PlannerOp)
    (h : planner_op p op = some p1) (hs : is_start_print op = false) :
    (saw_not_printing op = false → p1.print_start_cmd = p.print_start_cmd)
      ∧ (saw_not_printing op = true → p1.print_start_cmd = none) := by
  cases op with
  | reset =>
    simp only [planner_op, Option.some.injEq] at h
    rw [← h]
    exact ⟨fun _ => rfl, fun hn => absurd hn (by simp [saw_not_printing])⟩
  | next_action env =>
    simp only [planner_op] at h
    cases hn : next_action env p with
    | none => simp [hn] at h
    | some r =>
      obtain ⟨a, p2, cs⟩ := r
      simp only [hn, Option.some.injEq] at h
      subst h
      obtain ⟨-, -, -, f⟩ := next_action_frame env p p2 a cs hn
      constructor
      · intro hp
        simp only [saw_not_printing, Bool.not_eq_false'] at hp
        rw [f, if_pos hp]
      · intro hp
        simp only [saw_not_printing, Bool.not_eq_true'] at hp
        rw [f, hp]
        rfl
  | action_done n result =>
    simp only [planner_op, Option.some.injEq] at h
    rw [← h]
    exact ⟨fun _ => action_done_frame n result p,
      fun hn => absurd hn (by simp [saw_not_printing])⟩
  | command env c =>
    simp only [planner_op] at h
    cases hn : command env p c with
    | none => simp [hn] at h
    | some r =>
      obtain ⟨p2, cs⟩ := r
      simp only [hn, Option.some.injEq] at h
      subst h
      obtain ⟨-, -, -, f⟩ := command_frame env p p2 c cs hn
      exact ⟨fun _ => f (not_start_print env c hs),
        fun hp => absurd hp (by simp [saw_not_printing])⟩
  | background_done result =>
    exact ⟨fun _ => (background_done_frame p p1 result h).2.2.2,
      fun hn => absurd hn (by simp [saw_not_printing])⟩
  | download_done env step =>
    exact ⟨fun _ => (download_done_frame env p p1 step h).2.2.2,
      fun hn => absurd hn (by simp [saw_not_printing])⟩
  | recover_download env =>
    simp only [planner_op] at h
    cases hn : recover_download env p with
    | none => simp [hn] at h
    | some r =>
      obtain ⟨p2, cs⟩ := r
      simp only [hn, Option.some.injEq] at h
      subst h
      exact ⟨fun _ => (recover_download_frame env p p2 cs hn).2.2.2,
        fun hp => absurd hp (by simp [saw_not_printing])⟩

theorem planner_run_print_start (ops : List PlannerOp) (p p2 : Planner)
    (h : planner_run ops p = some p2) (hs : ∀ op ∈ ops, is_start_print op = false) :
    ((∀ op ∈ ops, saw_not_printing op = false) → p2.print_start_cmd = p.print_start_cmd)
      ∧ ((∃ op ∈ ops, saw_not_printing op = true) → p2.print_start_cmd = none)
      ∧ (p.print_start_cmd = none → p2.print_start_cmd = none) := by
  induction ops generalizing p with
  | nil =>
    simp only [planner_run, Option.some.injEq] at h
    rw [← h]
    exact ⟨fun _ => rfl, fun ⟨op, hm, _⟩ => absurd hm (by simp), id⟩
  | cons op rest ih =>
    simp only [planner_run] at h
    cases hop : planner_op p op with
    | none => simp [hop] at h
    | some p1 =>
      simp only [hop] at h
      obtain ⟨i1, i2, i3⟩ := ih p1 h (fun o ho => hs o (List.mem_cons_of_mem _ ho))
      obtain ⟨s1, s2⟩ := planner_op_print_start p p1 op hop (hs op (List.mem_cons_self _ _))
      have hnone : p.print_start_cmd = none → p1.print_start_cmd = none := by
        intro hp
        cases hsn : saw_not_printing op with
        | false => rw [s1 hsn, hp]
        | true => exact s2 hsn
      refine ⟨?_, ?_, fun hp => i3 (hnone hp)⟩
      · intro hall
        rw [i1 (fun o ho => hall o (List.mem_cons_of_mem _ ho)),
          s1 (hall op (List.mem_cons_self _ _))]
      · rintro ⟨o, ho, hsn⟩
        rcases List.mem_cons.mp ho with rfl | hr
        · exact i3 (s2 hsn)
        · exact i2 ⟨o, hr, hsn⟩

/-- C25: job correlation. After a StartPrint command with id `c` that ends with a Finished
event, and any sequence of calls with no further StartPrint command, a SendJobInfo command
with id `d` and job id `j` (dispatched with no pending event and no background command)
plans a JobInfo event with `command_id = d`, `job_id = j` and `start_cmd_id = c` if every
`next_action` call in between saw the printer printing, and with no `start_cmd_id` if some
`next_action` call in between saw the printer not printing, whatever that call returned. -/
theorem job_correlation (env0 env2 : Env) (p0 p1 p2 : Planner) (c d : CommandId)
    (path : String) (j : Nat) (cs : List Call) (ops : List PlannerOp)
    (hstart : command env0 p0 { id := c, command_data := CommandData.StartPrint path }
      = some (p1, cs))
    (hfin : p1.planned_event = some { type := EventType.Finished, command_id := some c })
    (hrun : planner_run ops p1 = some p2)
    (hno : ∀ op ∈ ops, is_start_print op = false)
    (hev : p2.planned_event = none) (hbg : p2.background_command = none) :
    ((∀ op ∈ ops, saw_not_printing op = false) →
        command env2 p2 { id := d, command_data := CommandData.SendJobInfo j }
          = some ({ p2 with
                    planned_event := some
                      { type := EventType.JobInfo, command_id := some d, job_id := some j,
                        start_cmd_id := some c } }, []))
      ∧ ((∃ op ∈ ops, saw_not_printing op = true) →
          command env2 p2 { id := d, command_data := CommandData.SendJobInfo j }
            = some ({ p2 with
                      planned_event := some
                        { type := EventType.JobInfo, command_id := some d, job_id := some j,
                          start_cmd_id := none } }, [])) := by
  have hc := start_print_finished env0 p0 p1 c path cs hstart hfin
  obtain ⟨r1, r2, -⟩ := planner_run_print_start ops p1 p2 hrun hno
  have hcmd : command env2 p2 { id := d, command_data := CommandData.SendJobInfo j }
      = some ({ p2 with
                planned_event := some
                  { type := EventType.JobInfo, command_id := some d, job_id := some j,
                    start_cmd_id := p2.print_start_cmd } }, []) := by
    rw [command_dispatch_eq env2 p2 _ hev hbg]
    rfl
  constructor
  · intro hall
    rw [hcmd, r1 hall, hc]
  · intro hex
    rw [hcmd, r2 hex]

theorem job_correlation_witness :
    command (printing_env 2000) idle_planner
        { id := 3, command_data := CommandData.StartPrint "/usb/x.gcode" }
        = some ({ idle_planner with
                  print_start_cmd := some 3
                  planned_event := some { type := EventType.Finished, command_id := some 3 } },
                [Call.stat "/usb/x.gcode", Call.start_print "/usb/x.gcode"])
      ∧ planner_run [PlannerOp.action_done 2100 ActionResult.Ok,
          PlannerOp.next_action (printing_env 2200)]
          { idle_planner with
            print_start_cmd := some 3
            planned_event := some { type := EventType.Finished, command_id := some 3 } }
        = some { idle_planner with
                 print_start_cmd := some 3, last_success := some 2100, last_telemetry := none }
      ∧ command (printing_env 2300)
          { idle_planner with
            print_start_cmd := some 3, last_success := some 2100, last_telemetry := none }
          { id := 4, command_data := CommandData.SendJobInfo 17 }
        = some ({ idle_planner with
                  print_start_cmd := some 3, last_success := some 2100, last_telemetry := none
                  planned_event := some
                    { type := EventType.JobInfo, command_id := some 4, job_id := some 17,
                      start_cmd_id := some 3 } }, []) := by
  have h1 : command (printing_env 2000) idle_planner
      { id := 3, command_data := CommandData.StartPrint "/usb/x.gcode" }
      = some ({ idle_planner with
                print_start_cmd := some 3
                planned_event := some { type := EventType.Finished, command_id := some 3 } },
              [Call.stat "/usb/x.gcode", Call.start_print "/usb/x.gcode"]) := by decide
  have h2 : planner_run [PlannerOp.action_done 2100 ActionResult.Ok,
      PlannerOp.next_action (printing_env 2200)]
      { idle_planner with
        print_start_cmd := some 3
        planned_event := some { type := EventType.Finished, command_id := some 3 } }
      = some { idle_planner with
               print_start_cmd := some 3, last_success := some 2100, last_telemetry := none } := by
    decide
  exact ⟨h1, h2,
    (job_correlation (printing_env 2000) (printing_env 2300) idle_planner _ _ 3 4
      "/usb/x.gcode" 17 _ _ h1 rfl h2 (by decide) rfl rfl).1 (by decide)⟩

/-! ### The give-up counter -/

theorem give_up_counter (p : Planner) :
    (action_done_give_up p).failed_attempts
      = if (p.failed_attempts + 1) % 256 ≥ GIVE_UP_AFTER_ATTEMPTS then 0
        else (p.failed_attempts + 1) % 256 := by
  unfold action_done_give_up
  simp only []
  split <;> rfl

theorem action_done_failed_counter (n : Timestamp) (p : Planner) :
    (action_done n ActionResult.Failed p).failed_attempts
      = if (p.failed_attempts + 1) % 256 ≥ GIVE_UP_AFTER_ATTEMPTS then 0
        else (p.failed_attempts + 1) % 256 := by
  rw [action_done_failed_eq, (backoff_fields _).2.2, reconnect_counter, give_up_counter]

theorem action_done_ok_counter (n : Timestamp) (p : Planner) :
    (action_done n ActionResult.Ok p).failed_attempts = 0
      ∧ (action_done n ActionResult.Refused p).failed_attempts = 0 := by
  unfold action_done
  simp only []
  constructor <;> split <;> (try split) <;> rfl

theorem failed_counter_bounded (n : Timestamp) (p : Planner) :
    (action_done n ActionResult.Failed p).failed_attempts ≤ 4 := by
  rw [action_done_failed_counter]
  simp only [GIVE_UP_AFTER_ATTEMPTS]
  split
  · exact Nat.zero_le _
  · omega

theorem planner_op_counter (p p1 : Planner) (op : PlannerOp)
    (h : planner_op p op = some p1) (hinv : p.failed_attempts ≤ 4) :
    p1.failed_attempts ≤ 4 := by
  cases op with
  | reset =>
    simp only [planner_op, Option.some.injEq] at h
    rw [← h]
    exact Nat.zero_le _
  | next_action env =>
    simp only [planner_op] at h
    cases hn : next_action env p with
    | none => simp [hn] at h
    | some r =>
      obtain ⟨a, p2, cs⟩ := r
      simp only [hn, Option.some.injEq] at h
      subst h
      obtain ⟨-, -, f3, -⟩ := next_action_frame env p p2 a cs hn
      rw [f3]
      exact hinv
  | action_done n result =>
    simp only [planner_op, Option.some.injEq] at h
    rw [← h]
    cases result with
    | Failed => exact failed_counter_bounded n p
    | Ok => rw [(action_done_ok_counter n p).1]; exact Nat.zero_le _
    | Refused => rw [(action_done_ok_counter n p).2]; exact Nat.zero_le _
  | command env c =>
    simp only [planner_op] at h
    cases hn : command env p c with
    | none => simp [hn] at h
    | some r =>
      obtain ⟨p2, cs⟩ := r
      simp only [hn, Option.some.injEq] at h
      subst h
      obtain ⟨-, -, f3, -⟩ := command_frame env p p2 c cs hn
      rw [f3]
      exact hinv
  | background_done result =>
    obtain ⟨-, -, f3, -⟩ := background_done_frame p p1 result h
    rw [f3]
    exact hinv
  | download_done env step =>
    obtain ⟨-, -, f3, -⟩ := download_done_frame env p p1 step h
    rw [f3]
    exact hinv
  | recover_download env =>
    simp only [planner_op] at h
    cases hn : recover_download env p with
    | none => simp [hn] at h
    | some r =>
      obtain ⟨p2, cs⟩ := r
      simp only [hn, Option.some.injEq] at h
      subst h
      obtain ⟨-, -, f3, -⟩ := recover_download_frame env p p2 cs hn
      rw [f3]
      exact hinv

theorem planner_run_counter (ops : List PlannerOp) (p p1 : Planner)
    (h : planner_run ops p = some p1) (hinv : p.failed_attempts ≤ 4) :
    p1.failed_attempts ≤ 4 := by
  induction ops generalizing p with
  | nil =>
    simp only [planner_run, Option.some.injEq] at h
    rw [← h]
    exact hinv
  | cons op rest ih =>
    simp only [planner_run] at h
    cases ho : planner_op p op with
    | none => simp [ho] at h
    | some p2 =>
      simp only [ho] at h
      exact ih p2 h (planner_op_counter p p2 op ho hinv)

/-- C31: in every state `p` that a sequence of public calls reaches from the fresh planner,
`failed_attempts` is at most 4. In such a state `action_done(Failed)` leaves the counter at
`failed_attempts + 1`, or at 0 when that increment is 5, whatever the planned event is (the
formula does not mention it), so the reduction modulo 256 of the 8-bit counter never takes
effect; `reset()`, `action_done(Ok)` and `action_done(Refused)` leave it at 0. -/
theorem failed_attempts_bounded (ops : List PlannerOp) (p : Planner) (n : Timestamp)
    (h : planner_run ops fresh_planner = some p) :
    p.failed_attempts ≤ 4
      ∧ (action_done n ActionResult.Failed p).failed_attempts
          = (if p.failed_attempts + 1 = 5 then 0 else p.failed_attempts + 1)
      ∧ (reset p).failed_attempts = 0
      ∧ (action_done n ActionResult.Ok p).failed_attempts = 0
      ∧ (action_done n ActionResult.Refused p).failed_attempts = 0 := by
  have hb : p.failed_attempts ≤ 4 :=
    planner_run_counter ops fresh_planner p h (Nat.zero_le _)
  refine ⟨hb, ?_, rfl, (action_done_ok_counter n p).1, (action_done_ok_counter n p).2⟩
  rw [action_done_failed_counter]
  have hm : (p.failed_attempts + 1) % 256 = p.failed_attempts + 1 :=
    Nat.mod_eq_of_lt (by omega)
  rw [hm]
  simp only [GIVE_UP_AFTER_ATTEMPTS]
  by_cases h5 : p.failed_attempts + 1 = 5
  · rw [if_pos h5, if_pos (by omega)]
  · rw [if_neg h5, if_neg (by omega)]

/-- Four failures in a row from the fresh planner reach the bound 4, and the fifth failure
brings the counter back to 0. -/
theorem failed_attempts_bounded_witness :
    planner_run
        [PlannerOp.action_done 1 ActionResult.Failed, PlannerOp.action_done 2 ActionResult.Failed,
         PlannerOp.action_done 3 ActionResult.Failed, PlannerOp.action_done 4 ActionResult.Failed]
        fresh_planner = some (failed_run [1, 2, 3, 4] fresh_planner)
      ∧ (failed_run [1, 2, 3, 4] fresh_planner).failed_attempts = 4
      ∧ (action_done 5 ActionResult.Failed
          (failed_run [1, 2, 3, 4] fresh_planner)).failed_attempts = 0 :=
  ⟨by decide, by decide,
    (failed_attempts_bounded
      [PlannerOp.action_done 1 ActionResult.Failed, PlannerOp.action_done 2 ActionResult.Failed,
       PlannerOp.action_done 3 ActionResult.Failed, PlannerOp.action_done 4 ActionResult.Failed]
      (failed_run [1, 2, 3, 4] fresh_planner) 5 (by decide)).2.1.trans (by decide)⟩

/-! ### What `action_done(Failed)` and `reset` leave alone -/

/-- C32: `action_done(Failed)` leaves `last_telemetry`, the background command, the download
(the whole record, with its retry budget and `need_retry`), `observed_transfer`,
`transfer_start_cmd`, `print_start_cmd` and the info tracker as they were: it changes
`failed_attempts`, `planned_event`, `last_success`, `cooldown` and `perform_cooldown` only. -/
theorem action_done_failed_frame (n : Timestamp) (p : Planner) :
    (action_done n ActionResult.Failed p).last_telemetry = p.last_telemetry
      ∧ (action_done n ActionResult.Failed p).background_command = p.background_command
      ∧ (action_done n ActionResult.Failed p).download = p.download
      ∧ (action_done n ActionResult.Failed p).observed_transfer = p.observed_transfer
      ∧ (action_done n ActionResult.Failed p).transfer_start_cmd = p.transfer_start_cmd
      ∧ (action_done n ActionResult.Failed p).print_start_cmd = p.print_start_cmd
      ∧ (action_done n ActionResult.Failed p).info_changes = p.info_changes := by
  rw [action_done_failed_eq]
  unfold action_done_backoff action_done_reconnect action_done_give_up
  simp only []
  split <;> split <;> (try split) <;> (try split) <;> exact ⟨rfl, rfl, rfl, rfl, rfl, rfl, rfl⟩

/-- C33: `reset()` leaves a pending `planned_event`, `last_success`, the background command,
the download, `observed_transfer`, `transfer_start_cmd` and `print_start_cmd` as they were.
Of the info tracker only the dirty flag changes (it is set; the stored hash is kept), and
`last_telemetry`, `cooldown`, `perform_cooldown` and `failed_attempts` are cleared. -/
theorem reset_frame (p : Planner) :
    (reset p).planned_event = p.planned_event
      ∧ (reset p).last_success = p.last_success
      ∧ (reset p).background_command = p.background_command
      ∧ (reset p).download = p.download
      ∧ (reset p).observed_transfer = p.observed_transfer
      ∧ (reset p).transfer_start_cmd = p.transfer_start_cmd
      ∧ (reset p).print_start_cmd = p.print_start_cmd
      ∧ (reset p).info_changes.last_hash = p.info_changes.last_hash
      ∧ (reset p).info_changes.dirty = true
      ∧ (reset p).last_telemetry = none
      ∧ (reset p).cooldown = none
      ∧ (reset p).perform_cooldown = false
      ∧ (reset p).failed_attempts = 0 :=
  ⟨rfl, rfl, rfl, rfl, rfl, rfl, rfl, rfl, rfl, rfl, rfl, rfl, rfl⟩

/-! ### `recover_download` and the assertion on `need_retry` -/

theorem cleared_download_done (env : Env) (p : Planner) (rd : ResumableDownload)
    (step : DownloadStep)
    (h : download_done env { p with download := some { rd with need_retry := false } } step
          = none) :
    env.transfer_id = none
      ∧ ¬ (step = DownloadStep.FailedNetwork ∧ 0 < rd.allowed_retries) := by
  unfold download_done at h
  simp only [gt_iff_lt] at h
  split at h
  · simp at h
  · cases ht : env.transfer_id with
    | none => exact ⟨rfl, by assumption⟩
    | some id => simp [ht] at h

/-- C34: `recover_download` with an active download whose `need_retry` is set. The nested
`download_done` runs on the state in which `need_retry` was cleared; on that state, for every
step result and every budget, `download_done` fails only in the branch that drops the
download, on the assertion that a transfer is current, never in the retry branch where
`need_retry` is asserted to be unset. So `recover_download` fails only when no transfer is
current and the download is dropped (a Storage error, or RefusedRequest with budget 0); with
RefusedRequest and budget > 0 it returns, with one retry less and `need_retry` set again.
Without the clearing the assertion would fail: `download_done(FailedNetwork)` on the state
before the call, with budget > 0, does not return. -/
theorem recover_download_clears_need_retry (env : Env) (p : Planner) (rd : ResumableDownload)
    (hd : p.download = some rd) (hr : rd.need_retry = true) :
    (∀ step,
        download_done env { p with download := some { rd with need_retry := false } } step = none
          → env.transfer_id = none
              ∧ ¬ (step = DownloadStep.FailedNetwork ∧ 0 < rd.allowed_retries))
      ∧ (recover_download env p = none
          → env.transfer_id = none
              ∧ ((∃ msg, env.recover_encrypted_connect_download
                    (recover_request env { rd with need_retry := false })
                      = RecoverResult.Storage msg)
                  ∨ (env.recover_encrypted_connect_download
                      (recover_request env { rd with need_retry := false })
                        = RecoverResult.RefusedRequest ∧ rd.allowed_retries = 0)))
      ∧ (0 < rd.allowed_retries
          → env.recover_encrypted_connect_download
              (recover_request env { rd with need_retry := false })
                = RecoverResult.RefusedRequest
          → ∃ cs, recover_download env p
              = some ({ p with
                        download := some { rd with
                                           allowed_retries := rd.allowed_retries - 1
                                           need_retry := true } }, cs))
      ∧ (0 < rd.allowed_retries → download_done env p DownloadStep.FailedNetwork = none) := by
  refine ⟨fun step h => cleared_download_done env p rd step h, ?_, ?_, ?_⟩
  · intro h
    rw [recover_download_eq env p rd hd hr] at h
    cases hres : env.recover_encrypted_connect_download
        (recover_request env { rd with need_retry := false }) with
    | Continued => simp [hres] at h
    | FromStart => simp [hres] at h
    | Storage msg =>
      simp only [hres] at h
      cases hdd : download_done env { p with download := some { rd with need_retry := false } }
          DownloadStep.FailedOther with
      | some p2 => simp [hdd] at h
      | none => exact ⟨(cleared_download_done env p rd _ hdd).1, Or.inl ⟨msg, rfl⟩⟩
    | RefusedRequest =>
      simp only [hres] at h
      cases hdd : download_done env { p with download := some { rd with need_retry := false } }
          DownloadStep.FailedNetwork with
      | some p2 => simp [hdd] at h
      | none =>
        obtain ⟨h1, h2⟩ := cleared_download_done env p rd _ hdd
        refine ⟨h1, Or.inr ⟨rfl, ?_⟩⟩
        by_contra hne
        exact h2 ⟨rfl, Nat.pos_of_ne_zero hne⟩
  · intro hb hres
    rw [recover_download_eq env p rd hd hr]
    simp only [hres]
    rw [download_done_retry env { p with download := some { rd with need_retry := false } }
      { rd with need_retry := false } rfl hb rfl]
    exact ⟨_, rfl⟩
  · intro hb
    unfold download_done
    simp [hd, hb, hr]

/-- A refused resume of a download with one retry left: the call returns, the budget is 0 and
`need_retry` is set again. -/
theorem recover_download_clears_need_retry_witness :
    ∃ cs, recover_download tls_env
        { idle_planner with
          download := some { download := { handle := 1 }, allowed_retries := 1,
                             need_retry := true } }
      = some ({ idle_planner with
                download := some { download := { handle := 1 }, allowed_retries := 0,
                                   need_retry := true } }, cs) :=
  (recover_download_clears_need_retry tls_env
      { idle_planner with
        download := some { download := { handle := 1 }, allowed_retries := 1,
                           need_retry := true } }
      { download := { handle := 1 }, allowed_retries := 1, need_retry := true }
      rfl rfl).2.2.1 (by decide) (by decide)

/-! ### A parent directory as the last component -/

/-- C35 (the code at the failing inputs): `path_allowed` accepts "/usb/.." and "/usb/a/..",
whose last '/'-separated component is "..": the check looks for the substring "/../" only,
which needs a '/' after the two dots (as in "/usb/../etc", which is refused). -/
theorem path_allowed_accepts_final_parent :
    path_allowed "/usb/.." = true ∧ ".." ∈ path_components "/usb/.."
      ∧ path_allowed "/usb/a/.." = true ∧ ".." ∈ path_components "/usb/a/.."
      ∧ path_allowed "/usb/../etc" = false := by
  refine ⟨by decide, by decide, by decide, by decide, by decide⟩

/-! ### The buffers of the download paths and of the range header -/

/-- C36: for a Plain request with a 64-bit team id `team` and any hash, the buffer length is
`len("/p/teams/") + 21 + len("/files/") + len(hash) + len("/raw") + 1`, the number of
characters `snprintf` reports is the length of "/p/teams/<team>/files/<hash>/raw" and is
strictly less than the buffer length, so the path is stored without truncation and the
assertion holds: `init_download` returns a request, whose path is that string. -/
theorem plain_path_buffer (env : Env) (config : Config) (d : StartConnectDownload)
    (team : Nat) (hash : String) (hteam : team < 2 ^ 64)
    (hd : d.details = DownloadDetails.Plain team hash) :
    (plain_path team hash).2.1
        = ("/p/teams/" : String).length + 21 + ("/files/" : String).length + hash.length
          + ("/raw" : String).length + 1
      ∧ (plain_path team hash).2.2
          = ("/p/teams/" ++ Nat.repr team ++ "/files/" ++ hash ++ "/raw").length
      ∧ (plain_path team hash).2.2 < (plain_path team hash).2.1
      ∧ (plain_path team hash).1 = "/p/teams/" ++ Nat.repr team ++ "/files/" ++ hash ++ "/raw"
      ∧ ∃ request, init_download env config d = some request
          ∧ request.url_path = "/p/teams/" ++ Nat.repr team ++ "/files/" ++ hash ++ "/raw" := by
  have hm : team % 2 ^ 64 = team := Nat.mod_eq_of_lt hteam
  have hfit := plain_path_fits team hash
  have h2 : (plain_path team hash).2.2
      = ("/p/teams/" ++ Nat.repr team ++ "/files/" ++ hash ++ "/raw").length := by
    simp only [plain_path, hm]
  have h1 : (plain_path team hash).2.1
        = ("/p/teams/" : String).length + 21 + ("/files/" : String).length + hash.length
          + ("/raw" : String).length + 1 := by
    simp only [plain_path]
  have h3 : (plain_path team hash).1
      = "/p/teams/" ++ Nat.repr team ++ "/files/" ++ hash ++ "/raw" := by
    have hle : ("/p/teams/" ++ Nat.repr team ++ "/files/" ++ hash ++ "/raw").data.length
        ≤ (plain_path team hash).2.1 - 1 := by
      have : ("/p/teams/" ++ Nat.repr team ++ "/files/" ++ hash ++ "/raw").length
          < (plain_path team hash).2.1 := h2 ▸ hfit
      exact Nat.le_sub_one_of_lt this
    rw [h1] at hle
    simp only [plain_path, hm]
    rw [List.take_of_length_le hle]
  refine ⟨h1, h2, hfit, h3, _, init_download_plain env config d team hash hd, ?_⟩
  exact h3

/-- The largest 64-bit team id with the hash "abcdef": 46 characters in a buffer of 48. -/
theorem plain_path_buffer_witness :
    (plain_path 18446744073709551615 "abcdef").1
        = "/p/teams/18446744073709551615/files/abcdef/raw"
      ∧ (plain_path 18446744073709551615 "abcdef").2.2 = 46
      ∧ (plain_path 18446744073709551615 "abcdef").2.1 = 48 :=
  have h := plain_path_buffer tls_env tls_env.config.1
    { path := "/usb/a.gcode", port := none,
      details := DownloadDetails.Plain 18446744073709551615 "abcdef" }
    18446744073709551615 "abcdef" (by norm_num) rfl
  ⟨h.2.2.2.1.trans (by decide), h.2.1.trans (by decide), h.1.trans (by decide)⟩

theorem enc_lengths : enc_prefix_len = 3 ∧ enc_suffix_len = 4 ∧ enc_url_len = 40 := by decide

theorem hex_digit_lower (n : Nat) (h : n < 16) : hex_digit n = lower_hex_digits.getD n ' ' := by
  have key : ∀ m : Fin 16, hex_digit m.val = lower_hex_digits.getD m.val ' ' := by decide
  exact key ⟨n, h⟩

theorem hex_digit_injective (a b : Nat) (ha : a < 16) (hb : b < 16)
    (h : hex_digit a = hex_digit b) : a = b := by
  have key : ∀ x y : Fin 16, hex_digit x.val = hex_digit y.val → x = y := by decide
  exact congrArg Fin.val (key ⟨a, ha⟩ ⟨b, hb⟩ h)

theorem hex_byte_injective (a b : Nat) (ha : a < 256) (hb : b < 256)
    (h : hex_byte a = hex_byte b) : a = b := by
  unfold hex_byte at h
  simp only [List.cons.injEq, and_true] at h
  have h1 := hex_digit_injective _ _ (by omega) (by omega) h.1
  have h2 := hex_digit_injective _ _ (by omega) (by omega) h.2
  omega

theorem hex_flatten_injective (l1 l2 : List Nat) (h1 : ∀ b ∈ l1, b < 256)
    (h2 : ∀ b ∈ l2, b < 256)
    (h : (l1.map hex_byte).flatten = (l2.map hex_byte).flatten) : l1 = l2 := by
  induction l1 generalizing l2 with
  | nil =>
    cases l2 with
    | nil => rfl
    | cons b r => simp [hex_byte] at h
  | cons a r ih =>
    cases l2 with
    | nil => simp [hex_byte] at h
    | cons b r2 =>
      simp only [List.map_cons, List.flatten_cons, hex_byte, List.cons_append, List.nil_append,
        List.cons.injEq] at h
      obtain ⟨e1, e2, e3⟩ := h
      have hab : a = b := by
        apply hex_byte_injective a b (h1 a (List.mem_cons_self _ _))
          (h2 b (List.mem_cons_self _ _))
        unfold hex_byte
        rw [e1, e2]
      have hr : r = r2 :=
        ih r2 (fun x hx => h1 x (List.mem_cons_of_mem _ hx))
          (fun x hx => h2 x (List.mem_cons_of_mem _ hx)) e3
      rw [hab, hr]

theorem hex_flatten_length (l : List Nat) :
    ((l.map hex_byte).flatten).length = 2 * l.length := by
  induction l with
  | nil => rfl
  | cons a r ih =>
    simp only [List.map_cons, List.flatten_cons, List.length_append, List.length_cons, ih,
      hex_byte, List.length_nil]
    omega

theorem make_enc_url_length (iv : List Nat) :
    (make_enc_url iv).length = enc_prefix_len + 2 * iv.length + enc_suffix_len := by
  unfold make_enc_url
  show (( enc_prefix).data ++ (iv.map hex_byte).flatten ++ enc_suffix.data).length = _
  rw [List.length_append, List.length_append, hex_flatten_length]
  rfl

theorem make_enc_url_injective (iv1 iv2 : List Nat) (h1 : ∀ b ∈ iv1, b < 256)
    (h2 : ∀ b ∈ iv2, b < 256) (h : make_enc_url iv1 = make_enc_url iv2) : iv1 = iv2 := by
  unfold make_enc_url at h
  have hd := congrArg String.data h
  simp only [] at hd
  have hd1 := List.append_cancel_right hd
  have hd2 := List.append_cancel_left hd1
  exact hex_flatten_injective iv1 iv2 h1 h2 hd2

/-- C37: for an initialization vector `iv` of BLOCK_SIZE (16) bytes, `make_enc_url` leaves
"/f/", then the bytes of the iv in order, each as two lowercase hexadecimal digits (high
digit first), then "/raw". The string has `enc_url_len - 1` characters, so with its
terminator it fills the buffer of `enc_url_len` bytes exactly, and every write of the
function ends within the buffer. Another vector of bytes `iv2` with the same path is the
same vector, so distinct ivs give distinct paths. -/
theorem make_enc_url_exact (iv iv2 : List Nat) (hlen : iv.length = BLOCK_SIZE)
    (hb : ∀ b ∈ iv, b < 256) (hb2 : ∀ b ∈ iv2, b < 256) :
    make_enc_url iv = "/f/" ++ String.mk (iv.map hex_byte).flatten ++ "/raw"
      ∧ (∀ b ∈ iv, hex_byte b
            = [lower_hex_digits.getD (b / 16) ' ', lower_hex_digits.getD (b % 16) ' '])
      ∧ (make_enc_url iv).length = enc_url_len - 1
      ∧ (make_enc_url iv).length + 1 = enc_url_len
      ∧ (∀ w ∈ make_enc_url_writes iv, w.1 + w.2 ≤ enc_url_len)
      ∧ (make_enc_url iv = make_enc_url iv2 → iv = iv2) := by
  obtain ⟨hp, hs, hu⟩ := enc_lengths
  have hl := make_enc_url_length iv
  rw [hlen, hp, hs] at hl
  have hB : BLOCK_SIZE = 16 := rfl
  refine ⟨rfl, ?_, ?_, ?_, ?_, make_enc_url_injective iv iv2 hb hb2⟩
  · intro b hbm
    have hlt := hb b hbm
    unfold hex_byte
    rw [Nat.mod_eq_of_lt hlt, hex_digit_lower _ (by omega), hex_digit_lower _ (by omega)]
  · rw [hl, hu, hB]
  · rw [hl, hu, hB]
  · intro w hw
    unfold make_enc_url_writes at hw
    rw [hlen, hp, hs, hB] at hw
    rw [hu]
    simp only [List.mem_append, List.mem_cons, List.mem_map, List.mem_range, List.mem_singleton,
      List.not_mem_nil, or_false] at hw
    rcases hw with (rfl | ⟨i, hi, rfl⟩) | rfl | rfl
    · decide
    · show 3 + 2 * i + (2 + 1) ≤ 40
      omega
    · decide
    · decide

/-- The iv 00 11 22 .. ff gives the path "/f/00112233445566778899aabbccddeeff/raw" of 39
characters, and the last write of the function ends at byte 40 of the buffer. -/
theorem make_enc_url_exact_witness :
    make_enc_url [0, 17, 34, 51, 68, 85, 102, 119, 136, 153, 170, 187, 204, 221, 238, 255]
        = "/f/00112233445566778899aabbccddeeff/raw"
      ∧ (make_enc_url
          [0, 17, 34, 51, 68, 85, 102, 119, 136, 153, 170, 187, 204, 221, 238, 255]).length = 39
      ∧ (35, 5) ∈ make_enc_url_writes
          [0, 17, 34, 51, 68, 85, 102, 119, 136, 153, 170, 187, 204, 221, 238, 255] :=
  have h := make_enc_url_exact
    [0, 17, 34, 51, 68, 85, 102, 119, 136, 153, 170, 187, 204, 221, 238, 255]
    [1, 2, 3, 4, 5, 6, 7, 8, 9, 10, 11, 12, 13, 14, 15, 16] rfl (by decide) (by decide)
  ⟨h.1.trans (by decide), h.2.2.1.trans (by decide), by decide⟩

theorem repr_length_32 (position : Nat) (h : position < 2 ^ 32) :
    (Nat.repr position).length ≤ 10 :=
  Nat.repr_length _ 10 (by norm_num) (lt_of_lt_of_le h (by norm_num))

/-- C38: for a 32-bit position the value of the Range header is "bytes=", the position in
decimal and "-"; it has at most 17 characters, so with its terminator it fits the buffer of
18 bytes and nothing is cut off. -/
theorem range_header_fits (position : Nat) (h : position < 2 ^ 32) :
    range_header position = "bytes=" ++ Nat.repr position ++ "-"
      ∧ (range_header position).length ≤ 17
      ∧ (range_header position).length + 1 ≤ 18 := by
  have hr := repr_length_32 position h
  have hm : position % 2 ^ 32 = position := Nat.mod_eq_of_lt h
  have hl : ("bytes=" ++ Nat.repr position ++ "-").data.length ≤ 17 := by
    have h1 : ("bytes=" : String).length = 6 := by decide
    have h2 : ("-" : String).length = 1 := by decide
    have : ("bytes=" ++ Nat.repr position ++ "-").length ≤ 17 := by
      simp only [String.length_append]
      rw [h1, h2]
      omega
    exact this
  have he : range_header position = "bytes=" ++ Nat.repr position ++ "-" := by
    unfold range_header
    rw [hm, List.take_of_length_le hl]
  refine ⟨he, ?_, ?_⟩
  · rw [he]; exact hl
  · rw [he]; exact Nat.succ_le_succ hl

/-- The largest 32-bit position gives "bytes=4294967295-", of exactly 17 characters. -/
theorem range_header_fits_witness :
    range_header 4294967295 = "bytes=4294967295-" ∧ (range_header 4294967295).length = 17 :=
  have h := range_header_fits 4294967295 (by norm_num)
  ⟨h.1.trans (by decide), by decide⟩

/-! ### Host and port of a download -/

/-- C39: `host_and_port` returns the configured host, with or without an override. With an
override the port is the override; without one it is 80 when the configured port is 443 and
TLS is on, and the configured port in every other case. -/
theorem host_and_port_result (config : Config) (override : Nat) :
    (host_and_port config (some override)).1 = config.host
      ∧ (host_and_port config none).1 = config.host
      ∧ (host_and_port config (some override)).2 = override
      ∧ (host_and_port config none).2
          = (if config.port = 443 ∧ config.tls = true then 80 else config.port) := by
  refine ⟨rfl, rfl, rfl, ?_⟩
  unfold host_and_port
  simp

end connect_client
